import Mathlib

/-!
# SimpleOledLib: cursor / print-mode state machine and wire encoding

A shallow embedding of `src/src/SimpleOledLib.c` and `src/include/SimpleOledLib.h`.

* `uint8_t` / `uint16_t` values are natural numbers; every operation that can leave the
  range of its C type is followed by an explicit `% 256` (resp. `% 65536`).
* The handle `oled_display_handle_t` and the two process-wide command buffers are explicit
  state (`Machine`); every function of the library is a function `Machine → Machine`.
* The I²C bus is write-only: a `Machine` records, in order, every transaction handed to the
  bus driver (`bus`).  The status each transaction returns is produced by `Env.transport`
  and is dropped wherever the C code drops it.
* `font.h` is not part of the modelled sources; the glyph table `font8x8_simple` is a
  parameter (`Env.font8x8_simple`).
-/

namespace SimpleOledLib

/-! ## Constants -/

abbrev TEXT_LINES : Nat := 8
abbrev TEXT_COLUMNS : Nat := 16
abbrev PIXELS_CHAR_HEIGHT : Nat := 8
abbrev PIXELS_CHAR_WIDTH : Nat := 8
abbrev DISPLAY_COLUMN_OFFSET_MAX : Nat := 3
abbrev DISPLAY_COLUMN_OFFSET_MIN : Nat := 0
abbrev DISPLAY_COLUMN_OFFSET_DEFAULT : Nat := 2

abbrev DISPLAY_ADDRESS_ONE : Nat := 60
abbrev DISPLAY_ADDRESS_TWO : Nat := 61
abbrev DISPLAY_ADDRESS_DEFAULT : Nat := 255

abbrev OPC_COLUMN_ADDRESS_LOW : Nat := 0x00
abbrev OPC_COLUMN_ADDRESS_HIGH : Nat := 0x10
abbrev OPC_DISPLAY_START_LINE : Nat := 0x40
abbrev OPC_SET_CONTRAST : Nat := 0x81
abbrev OPC_SEG_ROTATION_RIGHT : Nat := 0xA0
abbrev OPC_SEG_ROTATION_LEFT : Nat := 0xA1
abbrev OPC_ENTIRE_DISPLAY_NORMAL : Nat := 0xA4
abbrev OPC_MODE_NORMAL : Nat := 0xA6
abbrev OPC_MODE_INVERSE : Nat := 0xA7
abbrev OPC_SET_MULTIPLEX_RATIO : Nat := 0xA8
abbrev OPC_DISPLAY_OFF : Nat := 0xAE
abbrev OPC_DISPLAY_ON : Nat := 0xAF
abbrev OPC_PAGE_ADDRESS : Nat := 0xB0
abbrev OPC_OUTPUT_SCAN_NORMAL : Nat := 0xC0
abbrev OPC_OUTPUT_SCAN_INVERSE : Nat := 0xC8
abbrev OPC_DISPLAY_LINE_OFFSET : Nat := 0xD3
abbrev OPC_CLK_DIV_OSC_FREQ : Nat := 0xD5
abbrev OPC_DIS_PRE_CHARGE_PERIOD : Nat := 0xD9
abbrev OPC_SET_COM_PINS : Nat := 0xDA
abbrev OPC_SET_VCOM_DESELECT_LEVEL : Nat := 0xDB
abbrev OPC_DC_DC_PUMP_VOLTAGE_8_0 : Nat := 0x32
abbrev OPC_DC_DC_CONTROL_MODE : Nat := 0xAD
abbrev OPC_MEMORY_ADR_MODE : Nat := 0x20
abbrev OPC_CHARGE_PUMP_SETTING : Nat := 0x8D

abbrev PREFIX_NEXT_COMMAND : Nat := 0x80
abbrev PREFIX_LAST_COMMAND : Nat := 0x00
abbrev PREFIX_DATA : Nat := 0x40

abbrev MASK_PAGE_ADDRESS : Nat := 0x0F
abbrev MASK_COLUMN_ADDRESS_LOW : Nat := 0x0F
abbrev MASK_COLUMN_ADDRESS_HIGH : Nat := 0xF0

abbrev IDX_PAGE_ADDRESS : Nat := 1
abbrev IDX_COLUMN_ADDRESS_LOW : Nat := 3
abbrev IDX_COLUMN_ADDRESS_HIGH : Nat := 5

abbrev ADR_MODE_PAGE : Nat := 0x02
abbrev DC_DC_ON : Nat := 0x8B
abbrev CLOCK_DIV_RATIO_1 : Nat := 0x00
abbrev OSC_FREQ_VARIATION_P_M_0 : Nat := 0x50
abbrev OSC_FREQ_VARIATION_P_15 : Nat := 0x80
abbrev PRE_CHARGE_PERIOD_DCLK_1 : Nat := 0x01
abbrev PRE_CHARGE_PERIOD_DCLK_2 : Nat := 0x02
abbrev DIS_CHARGE_PERIOD_DCLK_2 : Nat := 0x20
abbrev DIS_CHARGE_PERIOD_DCLK_15 : Nat := 0xF0

/-! ## Types -/

/-- The C enumeration `chip_type_t`. -/
inductive chip_type_t where
  | CHIP_TYPE_SH1106
  | CHIP_TYPE_SSD1306
deriving DecidableEq, Repr

/-- The C enumeration `print_mode_t`. -/
inductive print_mode_t where
  | PM_OVERWRITE_SAME_LINE
  | PM_OVERWRITE_NEXT_LINE
  | PM_SCROLL_LINE
deriving DecidableEq, Repr

/-- Numeric value of a `print_mode_t` enumerator (the enumeration starts at 1). -/
def print_mode_t.toNat : print_mode_t → Nat
  | .PM_OVERWRITE_SAME_LINE => 1
  | .PM_OVERWRITE_NEXT_LINE => 2
  | .PM_SCROLL_LINE => 3

/-- The C structure `oled_display_handle_t`. -/
structure oled_display_handle_t where
  port : Nat
  chipType : chip_type_t
  address : Nat
  printMode : print_mode_t
  displayColumnOffset : Nat
  textLine : Nat
  textColumn : Nat
  lineOffset : Nat
  displayConnected : Bool
  inverse : Bool
deriving DecidableEq, Repr

/-- One bus transaction: start, address byte for `address` in write direction, the payload
bytes, stop.  Both `i2c_master_write_to_device` and the hand-built command links of
`oled_display_print_char` / `oled_display_clear_line` produce this shape. -/
structure Burst where
  port : Nat
  address : Nat
  bytes : List Nat
deriving DecidableEq, Repr

/-- The collaborators outside the library: the bus driver's answer to a transaction, given
the transactions issued before it (`true` is `ESP_OK`), and the glyph table of `font.h`. -/
structure Env where
  transport : List Burst → Burst → Bool
  font8x8_simple : Nat → Nat

/-- The handle together with the file-scope buffers of `SimpleOledLib.c` and the record of
everything written to the bus. -/
structure Machine where
  handle : oled_display_handle_t
  g_displayCommandBuffer : List Nat
  g_arusPositionCommandBuffer : List Nat
  bus : List Burst
deriving DecidableEq, Repr

/-- Static initialiser of `g_displayCommandBuffer`. -/
def g_displayCommandBuffer_init : List Nat := [PREFIX_LAST_COMMAND, 0x00, 0x00]

/-- Static initialiser of `g_arusPositionCommandBuffer`. -/
def g_arusPositionCommandBuffer_init : List Nat :=
  [PREFIX_NEXT_COMMAND, OPC_PAGE_ADDRESS, PREFIX_NEXT_COMMAND, OPC_COLUMN_ADDRESS_LOW,
   PREFIX_LAST_COMMAND, OPC_COLUMN_ADDRESS_HIGH]

/-! ## Bus access -/

/-- `i2c_master_write_to_device( port, address, buffer, size, timeout )`: one transaction
carrying the first `size` bytes of `buffer`; returns the driver's status. -/
def i2c_master_write_to_device (env : Env) (m : Machine) (port address : Nat)
    (buffer : List Nat) (size : Nat) : Machine × Bool :=
  let b : Burst := ⟨port, address, buffer.take size⟩
  ({ m with bus := m.bus ++ [b] }, env.transport m.bus b)

/-- A command link `start; write_byte (address << 1) | I2C_MASTER_WRITE; write_byte ...;
stop` executed by `i2c_master_cmd_begin( port, cmd, timeout )`. -/
def i2c_master_cmd_begin (env : Env) (m : Machine) (port address : Nat)
    (payload : List Nat) : Machine × Bool :=
  let b : Burst := ⟨port, address, payload⟩
  ({ m with bus := m.bus ++ [b] }, env.transport m.bus b)

/-! ## Local helpers of the library -/

/-- `_oled_display_send_opcode`. -/
def _oled_display_send_opcode (env : Env) (m : Machine) (opCode : Nat) : Machine :=
  let buf := m.g_displayCommandBuffer.set 1 opCode
  (i2c_master_write_to_device env { m with g_displayCommandBuffer := buf }
    m.handle.port m.handle.address buf 2).1

/-- `_oled_display_send_parameter`. -/
def _oled_display_send_parameter (env : Env) (m : Machine) (opCode parameter : Nat) : Machine :=
  let buf := (m.g_displayCommandBuffer.set 1 opCode).set 2 parameter
  (i2c_master_write_to_device env { m with g_displayCommandBuffer := buf }
    m.handle.port m.handle.address buf 3).1

/-- `_oled_display_shift_display_one_line`. -/
def _oled_display_shift_display_one_line (env : Env) (m : Machine) : Machine :=
  let lineOffset := (m.handle.lineOffset + 1) % 256
  let lineOffset := if TEXT_LINES ≤ lineOffset then 0 else lineOffset
  let m := { m with handle := { m.handle with lineOffset := lineOffset } }
  _oled_display_send_parameter env m OPC_DISPLAY_LINE_OFFSET ((m.handle.lineOffset <<< 3) % 256)

/-! ## Cursor positioning and clearing -/

/-- `oled_display_set_cursor`. -/
def oled_display_set_cursor (env : Env) (m : Machine) (textLine textColumn : Nat) : Machine :=
  if m.handle.displayConnected = true ∧ TEXT_LINES > textLine ∧ TEXT_COLUMNS > textColumn then
    let h := { m.handle with textLine := textLine, textColumn := textColumn }
    let textLine := (textLine + h.lineOffset) % 256
    let textLine := if TEXT_LINES ≤ textLine then (textLine + 256 - TEXT_LINES) % 256 else textLine
    let textLine := textLine &&& MASK_PAGE_ADDRESS
    let buf := m.g_arusPositionCommandBuffer.set IDX_PAGE_ADDRESS (OPC_PAGE_ADDRESS ||| textLine)
    let textColumn := (textColumn <<< 3) % 256
    let textColumn := (textColumn + h.displayColumnOffset) % 256
    let usAddressLow := textColumn &&& MASK_COLUMN_ADDRESS_LOW
    let buf := buf.set IDX_COLUMN_ADDRESS_LOW (OPC_COLUMN_ADDRESS_LOW ||| usAddressLow)
    let usAddressHigh := textColumn &&& MASK_COLUMN_ADDRESS_HIGH
    let usAddressHigh := usAddressHigh >>> 4
    let buf := buf.set IDX_COLUMN_ADDRESS_HIGH (OPC_COLUMN_ADDRESS_HIGH ||| usAddressHigh)
    (i2c_master_write_to_device env { m with handle := h, g_arusPositionCommandBuffer := buf }
      h.port h.address buf 6).1
  else m

/-- The outer `for( idx1 ... )` loop of `oled_display_clear_line`: `n` further data
transactions of `PREFIX_DATA` followed by `usLoop2End` zero bytes. -/
def clear_line_loop (env : Env) (usLoop2End : Nat) : Nat → Machine → Machine
  | 0, m => m
  | n + 1, m =>
    clear_line_loop env usLoop2End n
      (i2c_master_cmd_begin env m m.handle.port m.handle.address
        (PREFIX_DATA :: List.replicate usLoop2End 0x00)).1

/-- `oled_display_clear_line`. -/
def oled_display_clear_line (env : Env) (m : Machine) (lineToClear : Nat) : Machine :=
  if m.handle.displayConnected = true then
    let h := { m.handle with textLine := lineToClear, textColumn := 0 }
    let lineToClear := (lineToClear + h.lineOffset) % 256
    let lineToClear :=
      if TEXT_LINES ≤ lineToClear then (lineToClear + 256 - TEXT_LINES) % 256 else lineToClear
    let lineToClear := lineToClear &&& MASK_PAGE_ADDRESS
    let buf := m.g_arusPositionCommandBuffer.set IDX_PAGE_ADDRESS (OPC_PAGE_ADDRESS ||| lineToClear)
    let buf := buf.set IDX_COLUMN_ADDRESS_LOW OPC_COLUMN_ADDRESS_LOW
    let buf := buf.set IDX_COLUMN_ADDRESS_HIGH OPC_COLUMN_ADDRESS_HIGH
    let m := (i2c_master_write_to_device env
      { m with handle := h, g_arusPositionCommandBuffer := buf } h.port h.address buf 6).1
    let usLoop1End := if h.chipType = chip_type_t.CHIP_TYPE_SSD1306 then 8 else 6
    let usLoop2End := if h.chipType = chip_type_t.CHIP_TYPE_SSD1306 then 16 else 22
    let m := clear_line_loop env usLoop2End usLoop1End m
    let buf := m.g_arusPositionCommandBuffer.set IDX_COLUMN_ADDRESS_LOW
      ((OPC_COLUMN_ADDRESS_LOW ||| m.handle.displayColumnOffset) % 256)
    (i2c_master_write_to_device env { m with g_arusPositionCommandBuffer := buf }
      m.handle.port m.handle.address buf 6).1
  else m

/-- `oled_display_clear_actual_line` (inline function of the header). -/
def oled_display_clear_actual_line (env : Env) (m : Machine) : Machine :=
  oled_display_clear_line env m m.handle.textLine

/-- `oled_display_home` (inline function of the header). -/
def oled_display_home (env : Env) (m : Machine) : Machine :=
  oled_display_set_cursor env m 0 0

/-- The `for( usTextLine ... )` loop of `oled_display_clear`: clears the lines
`usTextLine`, `usTextLine + 1`, ... for `n` iterations. -/
def clear_loop (env : Env) : Nat → Nat → Machine → Machine
  | 0, _, m => m
  | n + 1, usTextLine, m =>
    clear_loop env n ((usTextLine + 1) % 256) (oled_display_clear_line env m usTextLine)

/-- `oled_display_clear`. -/
def oled_display_clear (env : Env) (m : Machine) : Machine :=
  if m.handle.displayConnected = true then
    let m := clear_loop env TEXT_LINES 0 m
    let m := { m with handle := { m.handle with lineOffset := 0 } }
    let m := _oled_display_send_parameter env m OPC_DISPLAY_LINE_OFFSET 0
    oled_display_set_cursor env m 0 0
  else m

/-! ## The print-mode state machine -/

/-- `_oled_display_next_line`. -/
def _oled_display_next_line (env : Env) (m : Machine) (shiftLine : Bool) : Machine :=
  let m := { m with handle := { m.handle with textColumn := 0 } }
  let m :=
    if print_mode_t.PM_SCROLL_LINE = m.handle.printMode then
      if TEXT_LINES - 1 = m.handle.textLine then
        _oled_display_shift_display_one_line env m
      else
        { m with handle := { m.handle with textLine := (m.handle.textLine + 1) % 256 } }
    else if shiftLine = true ∨ print_mode_t.PM_OVERWRITE_NEXT_LINE = m.handle.printMode then
      { m with handle := { m.handle with textLine := (m.handle.textLine + 1) % 256 } }
    else m
  let m :=
    if TEXT_LINES ≤ m.handle.textLine then
      { m with handle := { m.handle with textLine := 0 } }
    else m
  let m := oled_display_set_cursor env m m.handle.textLine m.handle.textColumn
  if print_mode_t.PM_OVERWRITE_NEXT_LINE.toNat < m.handle.printMode.toNat then
    oled_display_clear_actual_line env m
  else m

/-- The `for( idx ... )` loop of `oled_display_print_char`: the next `n` bytes of the glyph
starting at table index `uiHelper`, complemented when the inverse font is selected. -/
def glyph_columns (env : Env) (inverse : Bool) : Nat → Nat → List Nat
  | 0, _ => []
  | n + 1, uiHelper =>
    let usLetterColumn := env.font8x8_simple uiHelper % 256
    let usLetterColumn := if inverse = true then 255 - usLetterColumn else usLetterColumn
    usLetterColumn :: glyph_columns env inverse n ((uiHelper + 1) % 65536)

/-- `oled_display_print_char`. -/
def oled_display_print_char (env : Env) (m : Machine) (charIdx : Nat) : Machine :=
  if m.handle.displayConnected = true then
    if 10 = charIdx then
      _oled_display_next_line env m true
    else if 32 ≤ charIdx ∧ 128 > charIdx then
      let m :=
        if TEXT_COLUMNS ≤ m.handle.textColumn then _oled_display_next_line env m false else m
      let uiHelper := charIdx - 32
      let uiHelper := (uiHelper <<< 3) % 65536
      let m := (i2c_master_cmd_begin env m m.handle.port m.handle.address
        (PREFIX_DATA :: glyph_columns env m.handle.inverse PIXELS_CHAR_WIDTH uiHelper)).1
      { m with handle := { m.handle with textColumn := (m.handle.textColumn + 1) % 256 } }
    else m
  else m

/-- The `while( 0x00 != charIdx )` loop of `oled_display_print` over the bytes of a C
string; the list holds the bytes before the terminator, and a zero byte ends the text. -/
def print_loop (env : Env) : List Nat → Machine → Machine
  | [], m => m
  | charIdx :: pText, m =>
    if 0x00 ≠ charIdx then print_loop env pText (oled_display_print_char env m charIdx) else m

/-- `oled_display_print`. -/
def oled_display_print (env : Env) (m : Machine) (strText : List Nat) : Machine :=
  if m.handle.displayConnected = true then print_loop env strText m else m

/-- `oled_display_println`. -/
def oled_display_println (env : Env) (m : Machine) (strText : List Nat) : Machine :=
  if m.handle.displayConnected = true then
    _oled_display_next_line env (oled_display_print env m strText) true
  else m

/-! ## Remaining public functions -/

/-- `oled_display_max_text_lines`. -/
def oled_display_max_text_lines : Nat := TEXT_LINES

/-- `oled_display_max_column_lines`. -/
def oled_display_max_column_lines : Nat := TEXT_COLUMNS

/-- `oled_display_set_inverse`. -/
def oled_display_set_inverse (env : Env) (m : Machine) (inverse : Bool) : Machine :=
  if m.handle.displayConnected = true then
    if inverse = true then _oled_display_send_opcode env m OPC_MODE_INVERSE
    else _oled_display_send_opcode env m OPC_MODE_NORMAL
  else m

/-- `oled_display_flip`. -/
def oled_display_flip (env : Env) (m : Machine) (flip : Bool) : Machine :=
  if m.handle.displayConnected = true then
    let m :=
      if flip = true then
        _oled_display_send_opcode env
          (_oled_display_send_opcode env m OPC_SEG_ROTATION_LEFT) OPC_OUTPUT_SCAN_INVERSE
      else
        _oled_display_send_opcode env
          (_oled_display_send_opcode env m OPC_SEG_ROTATION_RIGHT) OPC_OUTPUT_SCAN_NORMAL
    oled_display_clear env m
  else m

/-- `oled_display_set_inverse_font` (inline function of the header). -/
def oled_display_set_inverse_font (m : Machine) (bInverse : Bool) : Machine :=
  { m with handle := { m.handle with inverse := bInverse } }

/-- `oled_display_set_print_mode` (inline function of the header). -/
def oled_display_set_print_mode (m : Machine) (printMode : print_mode_t) : Machine :=
  { m with handle := { m.handle with printMode := printMode } }

/-- `oled_display_set_display_column_offset`. -/
def oled_display_set_display_column_offset (m : Machine) (offset : Nat) : Machine :=
  if DISPLAY_COLUMN_OFFSET_MAX ≥ offset then
    if chip_type_t.CHIP_TYPE_SSD1306 = m.handle.chipType then
      { m with handle := { m.handle with displayColumnOffset := 0 } }
    else
      { m with handle := { m.handle with displayColumnOffset := offset } }
  else m

/-! ## Initialisation -/

/-- `_oled_display_init_sh1106`. -/
def _oled_display_init_sh1106 (env : Env) (m : Machine) : Machine :=
  let m := _oled_display_send_opcode env m OPC_DISPLAY_OFF
  let m := _oled_display_send_opcode env m OPC_ENTIRE_DISPLAY_NORMAL
  let m := _oled_display_send_parameter env m OPC_CLK_DIV_OSC_FREQ
    (OSC_FREQ_VARIATION_P_M_0 ||| CLOCK_DIV_RATIO_1)
  let m := _oled_display_send_parameter env m OPC_SET_MULTIPLEX_RATIO 0x3F
  let m := _oled_display_send_parameter env m OPC_DISPLAY_LINE_OFFSET 0
  let m := _oled_display_send_opcode env m OPC_DISPLAY_START_LINE
  let m := _oled_display_send_parameter env m OPC_CHARGE_PUMP_SETTING 0x14
  let m := _oled_display_send_parameter env m OPC_DC_DC_CONTROL_MODE DC_DC_ON
  let m := _oled_display_send_parameter env m OPC_DIS_PRE_CHARGE_PERIOD
    (DIS_CHARGE_PERIOD_DCLK_2 ||| PRE_CHARGE_PERIOD_DCLK_2)
  let m := _oled_display_send_parameter env m OPC_SET_VCOM_DESELECT_LEVEL 0x35
  let m := _oled_display_send_opcode env m OPC_DC_DC_PUMP_VOLTAGE_8_0
  let m := _oled_display_send_parameter env m OPC_SET_CONTRAST 0xFF
  let m := _oled_display_send_opcode env m OPC_MODE_NORMAL
  _oled_display_send_parameter env m OPC_SET_COM_PINS 0x12

/-- `_oled_display_init_ssd1306`. -/
def _oled_display_init_ssd1306 (env : Env) (m : Machine) : Machine :=
  let m := _oled_display_send_opcode env m OPC_DISPLAY_OFF
  let m := _oled_display_send_parameter env m OPC_CLK_DIV_OSC_FREQ
    (OSC_FREQ_VARIATION_P_15 ||| CLOCK_DIV_RATIO_1)
  let m := _oled_display_send_parameter env m OPC_SET_MULTIPLEX_RATIO 0x3F
  let m := _oled_display_send_parameter env m OPC_DISPLAY_LINE_OFFSET 0
  let m := _oled_display_send_opcode env m OPC_DISPLAY_START_LINE
  let m := _oled_display_send_parameter env m OPC_CHARGE_PUMP_SETTING 0x14
  let m := _oled_display_send_parameter env m OPC_MEMORY_ADR_MODE ADR_MODE_PAGE
  let m := _oled_display_send_parameter env m OPC_SET_COM_PINS 0x12
  let m := _oled_display_send_parameter env m OPC_SET_CONTRAST 0xCF
  let m := _oled_display_send_parameter env m OPC_DIS_PRE_CHARGE_PERIOD
    (DIS_CHARGE_PERIOD_DCLK_15 ||| PRE_CHARGE_PERIOD_DCLK_1)
  let m := _oled_display_send_parameter env m OPC_SET_VCOM_DESELECT_LEVEL 0x40
  let m := _oled_display_send_opcode env m OPC_ENTIRE_DISPLAY_NORMAL
  _oled_display_send_opcode env m OPC_MODE_NORMAL

/-- The tail of `oled_display_init` from "Check if Display can be connected under the given
address" on: the presence write to `address` and, when it is acknowledged, the set-up. -/
def init_connect (env : Env) (m : Machine) (port : Nat) (chipType : chip_type_t)
    (address : Nat) : Machine × Nat :=
  let p := i2c_master_write_to_device env m port address m.g_arusPositionCommandBuffer 0
  if p.2 = true then
    let m := { p.1 with handle := { p.1.handle with address := address, displayConnected := true } }
    let m :=
      if chip_type_t.CHIP_TYPE_SSD1306 = chipType then
        _oled_display_init_ssd1306 env m
      else
        _oled_display_init_sh1106 env
          { m with handle := { m.handle with displayColumnOffset := DISPLAY_COLUMN_OFFSET_DEFAULT } }
    let m := _oled_display_send_opcode env m OPC_PAGE_ADDRESS
    let m := _oled_display_send_opcode env m OPC_COLUMN_ADDRESS_LOW
    let m := _oled_display_send_opcode env m OPC_COLUMN_ADDRESS_HIGH
    let m := _oled_display_send_opcode env m OPC_DISPLAY_ON
    let m := _oled_display_send_opcode env m OPC_SEG_ROTATION_RIGHT
    let m := _oled_display_send_opcode env m OPC_OUTPUT_SCAN_NORMAL
    (oled_display_clear env m, 0)
  else (p.1, 2)

/-- `oled_display_init`; the second component is the returned status. -/
def oled_display_init (env : Env) (m : Machine) (port : Nat) (chipType : chip_type_t)
    (address : Nat) : Machine × Nat :=
  let m := { m with handle :=
    { port := port, chipType := chipType, address := address,
      printMode := print_mode_t.PM_SCROLL_LINE, textLine := 0, textColumn := 0,
      lineOffset := 0, displayColumnOffset := 0, displayConnected := false,
      inverse := false } }
  if DISPLAY_ADDRESS_ONE ≠ address ∧ DISPLAY_ADDRESS_TWO ≠ address
      ∧ DISPLAY_ADDRESS_DEFAULT ≠ address then
    (m, 1)
  else if DISPLAY_ADDRESS_DEFAULT = address then
    let p1 := i2c_master_write_to_device env m port DISPLAY_ADDRESS_ONE
      m.g_arusPositionCommandBuffer 0
    if p1.2 = true then
      init_connect env p1.1 port chipType DISPLAY_ADDRESS_ONE
    else
      let p2 := i2c_master_write_to_device env p1.1 port DISPLAY_ADDRESS_TWO
        p1.1.g_arusPositionCommandBuffer 0
      if p2.2 = true then
        init_connect env p2.1 port chipType DISPLAY_ADDRESS_TWO
      else
        (p2.1, 2)
  else
    init_connect env m port chipType address

/-! ## Auxiliary definitions used in the statements -/

/-- Cursor-relevant part of the state: `(textLine, textColumn, lineOffset)`. -/
def cursorState (m : Machine) : Nat × Nat × Nat :=
  (m.handle.textLine, m.handle.textColumn, m.handle.lineOffset)

/-- The position buffer holds its three framing bytes at the places no function writes. -/
def PositionBufferOk (buf : List Nat) : Prop :=
  buf.length = 6 ∧ buf[0]? = some PREFIX_NEXT_COMMAND ∧ buf[2]? = some PREFIX_NEXT_COMMAND ∧
    buf[4]? = some PREFIX_LAST_COMMAND

instance (buf : List Nat) : Decidable (PositionBufferOk buf) := by
  unfold PositionBufferOk; infer_instance

/-- Page computed by `oled_display_set_cursor` and `oled_display_clear_line` from a text
line and the display line offset. -/
def page_of (lineOffset textLine : Nat) : Nat :=
  (if TEXT_LINES ≤ (textLine + lineOffset) % 256 then
      ((textLine + lineOffset) % 256 + 256 - TEXT_LINES) % 256
    else (textLine + lineOffset) % 256) &&& MASK_PAGE_ADDRESS

/-- Pixel column computed by `oled_display_set_cursor`. -/
def pixel_column (displayColumnOffset textColumn : Nat) : Nat :=
  ((textColumn <<< 3) % 256 + displayColumnOffset) % 256

/-- Content of the position buffer for a page byte and two column bytes. -/
def position_command (page low high : Nat) : List Nat :=
  [PREFIX_NEXT_COMMAND, page, PREFIX_NEXT_COMMAND, low, PREFIX_LAST_COMMAND, high]

/-- Number of data transactions of one line sweep. -/
def sweep_bursts (chip : chip_type_t) : Nat :=
  if chip = chip_type_t.CHIP_TYPE_SSD1306 then 8 else 6

/-- Number of zero bytes in each data transaction of a line sweep. -/
def sweep_bytes (chip : chip_type_t) : Nat :=
  if chip = chip_type_t.CHIP_TYPE_SSD1306 then 16 else 22

/-- The opcode buffer holds its framing byte at the place no function writes. -/
def DisplayBufferOk (buf : List Nat) : Prop :=
  buf.length = 3 ∧ buf[0]? = some PREFIX_LAST_COMMAND

instance (buf : List Nat) : Decidable (DisplayBufferOk buf) := by
  unfold DisplayBufferOk; infer_instance

/-- Both command buffers hold their framing bytes. -/
def BuffersOk (m : Machine) : Prop :=
  DisplayBufferOk m.g_displayCommandBuffer ∧ PositionBufferOk m.g_arusPositionCommandBuffer

instance (m : Machine) : Decidable (BuffersOk m) := by
  unfold BuffersOk; infer_instance

/-- Line selected by `_oled_display_next_line` (before it is committed). -/
def advanced_line (h : oled_display_handle_t) (shiftLine : Bool) : Nat :=
  let l :=
    if print_mode_t.PM_SCROLL_LINE = h.printMode then
      if TEXT_LINES - 1 = h.textLine then h.textLine else (h.textLine + 1) % 256
    else if shiftLine = true ∨ print_mode_t.PM_OVERWRITE_NEXT_LINE = h.printMode then
      (h.textLine + 1) % 256
    else h.textLine
  if TEXT_LINES ≤ l then 0 else l

/-- Whether `_oled_display_next_line` takes the scroll branch. -/
def scrolls (h : oled_display_handle_t) : Prop :=
  print_mode_t.PM_SCROLL_LINE = h.printMode ∧ TEXT_LINES - 1 = h.textLine

instance (h : oled_display_handle_t) : Decidable (scrolls h) := by
  unfold scrolls; infer_instance

/-- Line offset after `_oled_display_next_line`. -/
def advanced_offset (h : oled_display_handle_t) : Nat :=
  if scrolls h then
    (if TEXT_LINES ≤ (h.lineOffset + 1) % 256 then 0 else (h.lineOffset + 1) % 256)
  else h.lineOffset

/-- The part of `_oled_display_next_line` before the call of `oled_display_set_cursor`. -/
def next_line_target (env : Env) (m : Machine) (shiftLine : Bool) : Machine :=
  let m := { m with handle := { m.handle with textColumn := 0 } }
  let m :=
    if print_mode_t.PM_SCROLL_LINE = m.handle.printMode then
      if TEXT_LINES - 1 = m.handle.textLine then
        _oled_display_shift_display_one_line env m
      else
        { m with handle := { m.handle with textLine := (m.handle.textLine + 1) % 256 } }
    else if shiftLine = true ∨ print_mode_t.PM_OVERWRITE_NEXT_LINE = m.handle.printMode then
      { m with handle := { m.handle with textLine := (m.handle.textLine + 1) % 256 } }
    else m
  if TEXT_LINES ≤ m.handle.textLine then
    { m with handle := { m.handle with textLine := 0 } }
  else m

/-- The transaction that `_oled_display_shift_display_one_line` issues, when the scroll
branch is taken. -/
def scroll_bursts (h : oled_display_handle_t) : List Burst :=
  if scrolls h then
    [⟨h.port, h.address,
      [PREFIX_LAST_COMMAND, OPC_DISPLAY_LINE_OFFSET, (advanced_offset h <<< 3) % 256]⟩]
  else []

/-- The transaction `oled_display_set_cursor` issues for text position `(l, c)` on a
display with handle `h`. -/
def cursor_burst (h : oled_display_handle_t) (l c : Nat) : Burst :=
  ⟨h.port, h.address,
    position_command (OPC_PAGE_ADDRESS ||| page_of h.lineOffset l)
      (OPC_COLUMN_ADDRESS_LOW ||| (pixel_column h.displayColumnOffset c &&& MASK_COLUMN_ADDRESS_LOW))
      (OPC_COLUMN_ADDRESS_HIGH |||
        ((pixel_column h.displayColumnOffset c &&& MASK_COLUMN_ADDRESS_HIGH) >>> 4))⟩

/-- The transactions `oled_display_clear_line` issues for text line `l` on a display with
handle `h`: positioning to pixel column 0, the zero-fill sweep, positioning to the first
text column. -/
def clear_line_bursts (h : oled_display_handle_t) (l : Nat) : List Burst :=
  [⟨h.port, h.address,
    position_command (OPC_PAGE_ADDRESS ||| page_of h.lineOffset l)
      OPC_COLUMN_ADDRESS_LOW OPC_COLUMN_ADDRESS_HIGH⟩] ++
  List.replicate (sweep_bursts h.chipType)
    ⟨h.port, h.address, PREFIX_DATA :: List.replicate (sweep_bytes h.chipType) 0x00⟩ ++
  [⟨h.port, h.address,
    position_command (OPC_PAGE_ADDRESS ||| page_of h.lineOffset l)
      ((OPC_COLUMN_ADDRESS_LOW ||| h.displayColumnOffset) % 256) OPC_COLUMN_ADDRESS_HIGH⟩]

/-- The data transaction `oled_display_print_char` issues for the printable code `c` on a
display with handle `h`: `PREFIX_DATA` and the eight glyph bytes. -/
def glyph_burst (env : Env) (h : oled_display_handle_t) (c : Nat) : Burst :=
  ⟨h.port, h.address,
    PREFIX_DATA :: glyph_columns env h.inverse PIXELS_CHAR_WIDTH (((c - 32) <<< 3) % 65536)⟩

/-- Whether a transaction is a data transaction, i.e. starts with `PREFIX_DATA`. -/
def is_data_burst (b : Burst) : Bool :=
  b.bytes.head? == some PREFIX_DATA

/-- A bus driver that acknowledges every transaction, and a glyph table whose byte at
index `i` is `i % 256`; used to evaluate the functions on concrete inputs. -/
def sample_env : Env := ⟨fun _ _ => true, fun i => i % 256⟩

/-- The state before the first call of the library: statically initialised buffers, an
all-zero handle, nothing written to the bus yet. -/
def power_on_machine : Machine :=
  { handle :=
      { port := 0, chipType := chip_type_t.CHIP_TYPE_SH1106, address := 0,
        printMode := print_mode_t.PM_OVERWRITE_SAME_LINE, displayColumnOffset := 0,
        textLine := 0, textColumn := 0, lineOffset := 0, displayConnected := false,
        inverse := false }
    g_displayCommandBuffer := g_displayCommandBuffer_init
    g_arusPositionCommandBuffer := g_arusPositionCommandBuffer_init
    bus := [] }

/-- A connected SH1106 display at address 60 on port 0 with the given print mode and cursor
state, default column offset, normal font and an empty bus record. -/
def sample_machine (mode : print_mode_t) (line column lineOffset : Nat) : Machine :=
  { handle :=
      { port := 0, chipType := chip_type_t.CHIP_TYPE_SH1106, address := DISPLAY_ADDRESS_ONE,
        printMode := mode, displayColumnOffset := DISPLAY_COLUMN_OFFSET_DEFAULT,
        textLine := line, textColumn := column, lineOffset := lineOffset,
        displayConnected := true, inverse := false }
    g_displayCommandBuffer := g_displayCommandBuffer_init
    g_arusPositionCommandBuffer := g_arusPositionCommandBuffer_init
    bus := [] }

/-- Framing rule of the wire protocol, in the words of the specification: every opcode
byte except the last is preceded by the "more commands follow" control byte, the last
opcode byte by the "last command" control byte. -/
def command_frame : List Nat → List Nat
  | [] => []
  | [op] => [PREFIX_LAST_COMMAND, op]
  | op :: rest => PREFIX_NEXT_COMMAND :: op :: command_frame rest

/-- The transactions of the `for( usTextLine ... )` loop of `oled_display_clear` on a
display with handle `h`: the clear sequences of `n` consecutive lines from `usTextLine`. -/
def clear_loop_bursts (h : oled_display_handle_t) : Nat → Nat → List Burst
  | 0, _ => []
  | n + 1, usTextLine =>
    clear_line_bursts h usTextLine ++ clear_loop_bursts h n ((usTextLine + 1) % 256)

/-- The eight glyph bytes of code `c` as the specification describes them: the font table
entries `(c - 32) * 8 + i` for `i = 0..7`, each complemented when the inverse font is
selected. -/
def glyph_bytes (env : Env) (inverse : Bool) (c : Nat) : List Nat :=
  (List.range 8).map fun i =>
    if inverse = true then 255 - env.font8x8_simple ((c - 32) * 8 + i) % 256
    else env.font8x8_simple ((c - 32) * 8 + i) % 256

/-- A bus driver that acknowledges only the very first transaction after power-on (the
record of earlier transactions is empty) and no later one. -/
def first_only_env : Env := ⟨fun earlier _ => earlier.isEmpty, fun i => i % 256⟩

/-- A bus driver that acknowledges no transaction. -/
def silent_env : Env := ⟨fun _ _ => false, fun i => i % 256⟩

/-- The zero-length presence write of `oled_display_init` to `address`. -/
def probe (port address : Nat) : Burst := ⟨port, address, []⟩

/-- The handle values `oled_display_init` stores before it checks the address. -/
def init_handle (port : Nat) (chipType : chip_type_t) (address : Nat) : oled_display_handle_t :=
  { port := port, chipType := chipType, address := address,
    printMode := print_mode_t.PM_SCROLL_LINE, textLine := 0, textColumn := 0,
    lineOffset := 0, displayColumnOffset := 0, displayConnected := false,
    inverse := false }

/-- The public operations of the library other than `oled_display_init`, with their
arguments. -/
inductive PublicCall where
  | print_char (charIdx : Nat)
  | print (strText : List Nat)
  | println (strText : List Nat)
  | clear
  | clear_line (lineToClear : Nat)
  | clear_actual_line
  | set_cursor (textLine textColumn : Nat)
  | home
  | set_inverse (inverse : Bool)
  | flip (flip : Bool)
  | set_inverse_font (bInverse : Bool)
  | set_print_mode (printMode : print_mode_t)
  | set_display_column_offset (offset : Nat)
deriving DecidableEq, Repr

/-- Effect of one public call. -/
def apply_call (env : Env) (m : Machine) : PublicCall → Machine
  | .print_char c => oled_display_print_char env m c
  | .print t => oled_display_print env m t
  | .println t => oled_display_println env m t
  | .clear => oled_display_clear env m
  | .clear_line l => oled_display_clear_line env m l
  | .clear_actual_line => oled_display_clear_actual_line env m
  | .set_cursor l c => oled_display_set_cursor env m l c
  | .home => oled_display_home env m
  | .set_inverse b => oled_display_set_inverse env m b
  | .flip b => oled_display_flip env m b
  | .set_inverse_font b => oled_display_set_inverse_font m b
  | .set_print_mode p => oled_display_set_print_mode m p
  | .set_display_column_offset n => oled_display_set_display_column_offset m n

/-- Effect of a sequence of public calls, in order. -/
def run_calls (env : Env) : Machine → List PublicCall → Machine
  | m, [] => m
  | m, c :: cs => run_calls env (apply_call env m c) cs

/-- Whether every argument of the call fits its C parameter type `uint8_t`, and every text
byte fits a `char`. -/
def PublicCall.args8 : PublicCall → Prop
  | .print_char c => c < 256
  | .print t => ∀ c ∈ t, c < 256
  | .println t => ∀ c ∈ t, c < 256
  | .clear_line l => l < 256
  | .set_cursor l c => l < 256 ∧ c < 256
  | .set_display_column_offset n => n < 256
  | _ => True

/-- States reachable through the public interface: the state any call of
`oled_display_init` leaves (whatever its status and whatever state it started from), and
the state any public call leaves when applied to a reachable state. -/
inductive Reachable (env : Env) : Machine → Prop where
  | init (m0 : Machine) (port : Nat) (chipType : chip_type_t) (address : Nat) :
      Reachable env (oled_display_init env m0 port chipType address).1
  | call (m : Machine) (c : PublicCall) :
      Reachable env m → Reachable env (apply_call env m c)

/-- Payloads of the power-on command sequence of each chip (`_oled_display_init_sh1106`,
`_oled_display_init_ssd1306`), in order. -/
def power_on_commands : chip_type_t → List (List Nat)
  | .CHIP_TYPE_SH1106 =>
    [[0x00, 0xAE], [0x00, 0xA4], [0x00, 0xD5, 0x50], [0x00, 0xA8, 0x3F], [0x00, 0xD3, 0x00],
     [0x00, 0x40], [0x00, 0x8D, 0x14], [0x00, 0xAD, 0x8B], [0x00, 0xD9, 0x22],
     [0x00, 0xDB, 0x35], [0x00, 0x32], [0x00, 0x81, 0xFF], [0x00, 0xA6], [0x00, 0xDA, 0x12]]
  | .CHIP_TYPE_SSD1306 =>
    [[0x00, 0xAE], [0x00, 0xD5, 0x80], [0x00, 0xA8, 0x3F], [0x00, 0xD3, 0x00], [0x00, 0x40],
     [0x00, 0x8D, 0x14], [0x00, 0x20, 0x02], [0x00, 0xDA, 0x12], [0x00, 0x81, 0xCF],
     [0x00, 0xD9, 0xF1], [0x00, 0xDB, 0x40], [0x00, 0xA4], [0x00, 0xA6]]

/-- Payloads of the six opcodes `oled_display_init` sends after the power-on sequence:
page 0, column 0 (low and high), display on, segment rotation right, scan normal. -/
def init_home_commands : List (List Nat) :=
  [[0x00, 0xB0], [0x00, 0x00], [0x00, 0x10], [0x00, 0xAF], [0x00, 0xA0], [0x00, 0xC0]]

/-- The transactions with the given payloads to the display of handle `h`. -/
def command_bursts (h : oled_display_handle_t) (payloads : List (List Nat)) : List Burst :=
  payloads.map fun bytes => ⟨h.port, h.address, bytes⟩

/-- The transactions `oled_display_clear` issues on a connected display with handle `h`:
the clear sequences of the lines 0..7, the register write of line offset 0, and the
positioning for the home position under line offset 0. -/
def clear_bursts (h : oled_display_handle_t) : List Burst :=
  clear_loop_bursts h TEXT_LINES 0 ++
    [⟨h.port, h.address, [PREFIX_LAST_COMMAND, OPC_DISPLAY_LINE_OFFSET, 0]⟩] ++
    [cursor_burst { h with lineOffset := 0 } 0 0]

/-- The range invariant of the handle: `lineOffset < 8`, `textColumn ≤ 16`,
`displayColumnOffset ≤ 3`, and `displayColumnOffset = 0` on the SSD1306. -/
def StateInv (h : oled_display_handle_t) : Prop :=
  h.lineOffset < 8 ∧ h.textColumn ≤ 16 ∧ h.displayColumnOffset ≤ 3 ∧
    (h.chipType = chip_type_t.CHIP_TYPE_SSD1306 → h.displayColumnOffset = 0)

/-- The calls that only store a value in the handle: `oled_display_set_inverse_font`,
`oled_display_set_print_mode`, `oled_display_set_display_column_offset`. -/
def PublicCall.is_setter : PublicCall → Bool
  | .set_inverse_font _ => true
  | .set_print_mode _ => true
  | .set_display_column_offset _ => true
  | _ => false

/-- The text-output calls: `oled_display_print_char`, `oled_display_print`,
`oled_display_println`. -/
def PublicCall.is_output : PublicCall → Bool
  | .print_char _ => true
  | .print _ => true
  | .println _ => true
  | _ => false

/-! ## Basic lemmas -/

@[simp] theorem write_to_device_handle (env : Env) (m : Machine) (p a : Nat) (b : List Nat) (s : Nat) :
    (i2c_master_write_to_device env m p a b s).1.handle = m.handle := rfl

@[simp] theorem cmd_begin_handle (env : Env) (m : Machine) (p a : Nat) (b : List Nat) :
    (i2c_master_cmd_begin env m p a b).1.handle = m.handle := rfl

@[simp] theorem send_opcode_handle (env : Env) (m : Machine) (o : Nat) :
    (_oled_display_send_opcode env m o).handle = m.handle := rfl

@[simp] theorem send_parameter_handle (env : Env) (m : Machine) (o q : Nat) :
    (_oled_display_send_parameter env m o q).handle = m.handle := rfl

theorem shift_handle (env : Env) (m : Machine) :
    (_oled_display_shift_display_one_line env m).handle =
      { m.handle with lineOffset :=
          if TEXT_LINES ≤ (m.handle.lineOffset + 1) % 256 then 0
          else (m.handle.lineOffset + 1) % 256 } := rfl

theorem set_cursor_handle (env : Env) (m : Machine) (l c : Nat) :
    (oled_display_set_cursor env m l c).handle =
      if m.handle.displayConnected = true ∧ TEXT_LINES > l ∧ TEXT_COLUMNS > c then
        { m.handle with textLine := l, textColumn := c }
      else m.handle := by
  unfold oled_display_set_cursor
  split <;> rfl

@[simp] theorem clear_line_loop_handle (env : Env) (k n : Nat) (m : Machine) :
    (clear_line_loop env k n m).handle = m.handle := by
  induction n generalizing m with
  | zero => rfl
  | succ n ih => simp [clear_line_loop, ih]

theorem clear_line_handle (env : Env) (m : Machine) (l : Nat) :
    (oled_display_clear_line env m l).handle =
      if m.handle.displayConnected = true then
        { m.handle with textLine := l, textColumn := 0 }
      else m.handle := by
  unfold oled_display_clear_line
  split
  · simp
  · rfl

/-- Handle after a line advance on a connected display, as a closed formula. -/
theorem next_line_handle (env : Env) (m : Machine) (f : Bool)
    (hc : m.handle.displayConnected = true) :
    (_oled_display_next_line env m f).handle =
      { m.handle with
        textColumn := 0
        textLine :=
          (let l :=
            if print_mode_t.PM_SCROLL_LINE = m.handle.printMode then
              if TEXT_LINES - 1 = m.handle.textLine then m.handle.textLine
              else (m.handle.textLine + 1) % 256
            else if f = true ∨ print_mode_t.PM_OVERWRITE_NEXT_LINE = m.handle.printMode then
              (m.handle.textLine + 1) % 256
            else m.handle.textLine
           if TEXT_LINES ≤ l then 0 else l)
        lineOffset :=
          if print_mode_t.PM_SCROLL_LINE = m.handle.printMode ∧ TEXT_LINES - 1 = m.handle.textLine then
            (if TEXT_LINES ≤ (m.handle.lineOffset + 1) % 256 then 0
             else (m.handle.lineOffset + 1) % 256)
          else m.handle.lineOffset } := by
  obtain ⟨h, b1, b2, bus⟩ := m
  obtain ⟨port, chip, addr, mode, co, line, col, lo, conn, inv⟩ := h
  simp only at hc
  subst hc
  by_cases h7 : 7 = line <;> by_cases h8 : 8 ≤ (line + 1) % 256 <;> by_cases h9 : 8 ≤ line <;>
    by_cases h10 : 8 ≤ (lo + 1) % 256 <;>
    cases mode <;> cases f <;>
    simp [_oled_display_next_line, oled_display_clear_actual_line, set_cursor_handle,
      clear_line_handle, shift_handle, print_mode_t.toNat, TEXT_LINES, TEXT_COLUMNS,
      h7, h8, h9, h10]

theorem print_char_newline (env : Env) (m : Machine) (hc : m.handle.displayConnected = true) :
    oled_display_print_char env m 10 = _oled_display_next_line env m true := by
  simp [oled_display_print_char, hc]

theorem print_char_printable_handle (env : Env) (m : Machine) (c : Nat)
    (hc : m.handle.displayConnected = true) (h1 : 32 ≤ c) (h2 : c < 128) :
    (oled_display_print_char env m c).handle =
      if TEXT_COLUMNS ≤ m.handle.textColumn then
        { (_oled_display_next_line env m false).handle with textColumn := 1 }
      else { m.handle with textColumn := (m.handle.textColumn + 1) % 256 } := by
  have h10 : ¬ (10 = c) := by omega
  have h128 : 128 > c := h2
  by_cases hcol : TEXT_COLUMNS ≤ m.handle.textColumn
  · simp [oled_display_print_char, hc, h10, h1, h128, hcol, next_line_handle]
  · simp [oled_display_print_char, hc, h10, h1, h128, hcol]

theorem println_nil (env : Env) (m : Machine) (hc : m.handle.displayConnected = true) :
    oled_display_println env m [] = _oled_display_next_line env m true := by
  simp [oled_display_println, oled_display_print, print_loop, hc]

theorem next_line_cursor_overwrite_next (env : Env) (m : Machine) (f : Bool)
    (hc : m.handle.displayConnected = true)
    (hm : m.handle.printMode = print_mode_t.PM_OVERWRITE_NEXT_LINE)
    (hl : m.handle.textLine < 8) :
    cursorState (_oled_display_next_line env m f) =
      ((m.handle.textLine + 1) % 8, 0, m.handle.lineOffset) := by
  unfold cursorState
  rw [next_line_handle env m f hc]
  have h2 : (m.handle.textLine + 1) % 256 = m.handle.textLine + 1 := by omega
  simp only [hm, TEXT_LINES, h2]
  simp
  split <;> omega

theorem next_line_cursor_overwrite_same (env : Env) (m : Machine) (f : Bool)
    (hc : m.handle.displayConnected = true)
    (hm : m.handle.printMode = print_mode_t.PM_OVERWRITE_SAME_LINE)
    (hl : m.handle.textLine < 8) :
    cursorState (_oled_display_next_line env m f) =
      ((if f = true then (m.handle.textLine + 1) % 8 else m.handle.textLine), 0,
        m.handle.lineOffset) := by
  unfold cursorState
  rw [next_line_handle env m f hc]
  have h2 : (m.handle.textLine + 1) % 256 = m.handle.textLine + 1 := by omega
  simp only [hm, TEXT_LINES, h2]
  cases f <;> simp
  · omega
  · split <;> omega

theorem clamp_lt_lines (l : Nat) : (if TEXT_LINES ≤ l then 0 else l) < 8 := by
  simp only [TEXT_LINES]
  split <;> omega

theorem next_line_keeps (env : Env) (m : Machine) (f : Bool)
    (hc : m.handle.displayConnected = true) :
    (_oled_display_next_line env m f).handle.displayConnected = true ∧
    (_oled_display_next_line env m f).handle.printMode = m.handle.printMode ∧
    (_oled_display_next_line env m f).handle.textLine < 8 := by
  rw [next_line_handle env m f hc]
  exact ⟨hc, rfl, clamp_lt_lines _⟩

theorem print_char_keeps (env : Env) (m : Machine) (c : Nat)
    (hc : m.handle.displayConnected = true) (hl : m.handle.textLine < 8) :
    (oled_display_print_char env m c).handle.displayConnected = true ∧
    (oled_display_print_char env m c).handle.printMode = m.handle.printMode ∧
    (oled_display_print_char env m c).handle.textLine < 8 := by
  by_cases h10 : 10 = c
  · subst h10
    rw [print_char_newline env m hc]
    exact next_line_keeps env m true hc
  · by_cases hp : 32 ≤ c ∧ 128 > c
    · rw [print_char_printable_handle env m c hc hp.1 hp.2]
      have hk := next_line_keeps env m false hc
      split
      · exact hk
      · exact ⟨hc, rfl, hl⟩
    · have : oled_display_print_char env m c = m := by
        simp [oled_display_print_char, hc, h10, hp]
      rw [this]
      exact ⟨hc, rfl, hl⟩

theorem print_loop_keeps (env : Env) (text : List Nat) (m : Machine)
    (hc : m.handle.displayConnected = true) (hl : m.handle.textLine < 8) :
    (print_loop env text m).handle.displayConnected = true ∧
    (print_loop env text m).handle.printMode = m.handle.printMode ∧
    (print_loop env text m).handle.textLine < 8 := by
  induction text generalizing m with
  | nil => exact ⟨hc, rfl, hl⟩
  | cons c cs ih =>
    unfold print_loop
    split
    · have hk := print_char_keeps env m c hc hl
      have := ih (oled_display_print_char env m c) hk.1 hk.2.2
      exact ⟨this.1, this.2.1.trans hk.2.1, this.2.2⟩
    · exact ⟨hc, rfl, hl⟩

theorem print_keeps (env : Env) (m : Machine) (text : List Nat)
    (hc : m.handle.displayConnected = true) (hl : m.handle.textLine < 8) :
    (oled_display_print env m text).handle.displayConnected = true ∧
    (oled_display_print env m text).handle.printMode = m.handle.printMode ∧
    (oled_display_print env m text).handle.textLine < 8 := by
  unfold oled_display_print
  rw [if_pos hc]
  exact print_loop_keeps env text m hc hl

theorem position_buffer_set (buf : List Nat) (hb : PositionBufferOk buf) (p l h : Nat) :
    ((buf.set 1 p).set 3 l).set 5 h = position_command p l h := by
  obtain ⟨hlen, h0, h2, h4⟩ := hb
  match buf, hlen with
  | [a0, a1, a2, a3, a4, a5], _ =>
    simp at h0 h2 h4
    subst h0 h2 h4
    rfl

theorem position_command_ok (p l h : Nat) : PositionBufferOk (position_command p l h) := by
  simp [PositionBufferOk, position_command]

theorem set_cursor_eq (env : Env) (m : Machine) (l c : Nat)
    (hc : m.handle.displayConnected = true) (hl : l < 8) (hcol : c < 16)
    (hb : PositionBufferOk m.g_arusPositionCommandBuffer) :
    oled_display_set_cursor env m l c =
      { handle := { m.handle with textLine := l, textColumn := c }
        g_displayCommandBuffer := m.g_displayCommandBuffer
        g_arusPositionCommandBuffer :=
          position_command (OPC_PAGE_ADDRESS ||| page_of m.handle.lineOffset l)
            (OPC_COLUMN_ADDRESS_LOW |||
              (pixel_column m.handle.displayColumnOffset c &&& MASK_COLUMN_ADDRESS_LOW))
            (OPC_COLUMN_ADDRESS_HIGH |||
              ((pixel_column m.handle.displayColumnOffset c &&& MASK_COLUMN_ADDRESS_HIGH) >>> 4))
        bus := m.bus ++ [⟨m.handle.port, m.handle.address,
          position_command (OPC_PAGE_ADDRESS ||| page_of m.handle.lineOffset l)
            (OPC_COLUMN_ADDRESS_LOW |||
              (pixel_column m.handle.displayColumnOffset c &&& MASK_COLUMN_ADDRESS_LOW))
            (OPC_COLUMN_ADDRESS_HIGH |||
              ((pixel_column m.handle.displayColumnOffset c &&& MASK_COLUMN_ADDRESS_HIGH) >>> 4))⟩] } := by
  have hg : m.handle.displayConnected = true ∧ TEXT_LINES > l ∧ TEXT_COLUMNS > c := ⟨hc, hl, hcol⟩
  unfold oled_display_set_cursor
  rw [if_pos hg]
  simp only [i2c_master_write_to_device, IDX_PAGE_ADDRESS, IDX_COLUMN_ADDRESS_LOW,
    IDX_COLUMN_ADDRESS_HIGH]
  rw [position_buffer_set _ hb]
  simp [page_of, pixel_column, position_command]

theorem clear_line_loop_eq (env : Env) (k n : Nat) (m : Machine) :
    clear_line_loop env k n m =
      { m with
        bus := m.bus ++ List.replicate n
          ⟨m.handle.port, m.handle.address, PREFIX_DATA :: List.replicate k 0x00⟩ } := by
  induction n generalizing m with
  | zero => simp [clear_line_loop]
  | succ n ih =>
    rw [clear_line_loop, ih]
    simp [i2c_master_cmd_begin, List.replicate_succ]

theorem clear_line_eq (env : Env) (m : Machine) (l : Nat)
    (hc : m.handle.displayConnected = true)
    (hb : PositionBufferOk m.g_arusPositionCommandBuffer) :
    oled_display_clear_line env m l =
      { handle := { m.handle with textLine := l, textColumn := 0 }
        g_displayCommandBuffer := m.g_displayCommandBuffer
        g_arusPositionCommandBuffer :=
          position_command (OPC_PAGE_ADDRESS ||| page_of m.handle.lineOffset l)
            ((OPC_COLUMN_ADDRESS_LOW ||| m.handle.displayColumnOffset) % 256)
            OPC_COLUMN_ADDRESS_HIGH
        bus := m.bus ++
          [⟨m.handle.port, m.handle.address,
            position_command (OPC_PAGE_ADDRESS ||| page_of m.handle.lineOffset l)
              OPC_COLUMN_ADDRESS_LOW OPC_COLUMN_ADDRESS_HIGH⟩] ++
          List.replicate (sweep_bursts m.handle.chipType)
            ⟨m.handle.port, m.handle.address,
              PREFIX_DATA :: List.replicate (sweep_bytes m.handle.chipType) 0x00⟩ ++
          [⟨m.handle.port, m.handle.address,
            position_command (OPC_PAGE_ADDRESS ||| page_of m.handle.lineOffset l)
              ((OPC_COLUMN_ADDRESS_LOW ||| m.handle.displayColumnOffset) % 256)
              OPC_COLUMN_ADDRESS_HIGH⟩] } := by
  unfold oled_display_clear_line
  rw [if_pos hc]
  simp only [i2c_master_write_to_device, IDX_PAGE_ADDRESS, IDX_COLUMN_ADDRESS_LOW,
    IDX_COLUMN_ADDRESS_HIGH, clear_line_loop_eq]
  rw [position_buffer_set _ hb]
  simp [page_of, position_command, sweep_bursts, sweep_bytes]

theorem page_of_eq_mod (lineOffset textLine : Nat) (hl : textLine < 8) (ho : lineOffset < 8) :
    page_of lineOffset textLine = (textLine + lineOffset) % 8 := by
  unfold page_of
  interval_cases textLine <;> interval_cases lineOffset <;> rfl

theorem display_buffer_cases (buf : List Nat) (hb : DisplayBufferOk buf) :
    ∃ a b, buf = [PREFIX_LAST_COMMAND, a, b] := by
  obtain ⟨hlen, h0⟩ := hb
  match buf, hlen with
  | [a0, a1, a2], _ =>
    simp at h0
    subst h0
    exact ⟨a1, a2, rfl⟩

theorem send_opcode_eq (env : Env) (m : Machine) (o : Nat)
    (hb : DisplayBufferOk m.g_displayCommandBuffer) :
    _oled_display_send_opcode env m o =
      { m with
        g_displayCommandBuffer := m.g_displayCommandBuffer.set 1 o
        bus := m.bus ++ [⟨m.handle.port, m.handle.address, [PREFIX_LAST_COMMAND, o]⟩] } := by
  obtain ⟨a, b, hab⟩ := display_buffer_cases _ hb
  simp [_oled_display_send_opcode, i2c_master_write_to_device, hab]

theorem send_parameter_eq (env : Env) (m : Machine) (o p : Nat)
    (hb : DisplayBufferOk m.g_displayCommandBuffer) :
    _oled_display_send_parameter env m o p =
      { m with
        g_displayCommandBuffer := [PREFIX_LAST_COMMAND, o, p]
        bus := m.bus ++ [⟨m.handle.port, m.handle.address, [PREFIX_LAST_COMMAND, o, p]⟩] } := by
  obtain ⟨a, b, hab⟩ := display_buffer_cases _ hb
  simp [_oled_display_send_parameter, i2c_master_write_to_device, hab]

theorem display_buffer_set_ok (buf : List Nat) (hb : DisplayBufferOk buf) (o : Nat) :
    DisplayBufferOk (buf.set 1 o) := by
  obtain ⟨a, b, hab⟩ := display_buffer_cases _ hb
  subst hab
  simp [DisplayBufferOk]

theorem next_line_split (env : Env) (m : Machine) (f : Bool) :
    _oled_display_next_line env m f =
      if print_mode_t.PM_OVERWRITE_NEXT_LINE.toNat <
          (oled_display_set_cursor env (next_line_target env m f)
            (next_line_target env m f).handle.textLine
            (next_line_target env m f).handle.textColumn).handle.printMode.toNat then
        oled_display_clear_actual_line env
          (oled_display_set_cursor env (next_line_target env m f)
            (next_line_target env m f).handle.textLine
            (next_line_target env m f).handle.textColumn)
      else
        oled_display_set_cursor env (next_line_target env m f)
          (next_line_target env m f).handle.textLine
          (next_line_target env m f).handle.textColumn := rfl

theorem next_line_target_eq (env : Env) (m : Machine) (f : Bool)
    (hb : DisplayBufferOk m.g_displayCommandBuffer) :
    next_line_target env m f =
      { handle := { m.handle with
          textColumn := 0
          textLine := advanced_line m.handle f
          lineOffset := advanced_offset m.handle }
        g_displayCommandBuffer :=
          if scrolls m.handle then
            [PREFIX_LAST_COMMAND, OPC_DISPLAY_LINE_OFFSET, (advanced_offset m.handle <<< 3) % 256]
          else m.g_displayCommandBuffer
        g_arusPositionCommandBuffer := m.g_arusPositionCommandBuffer
        bus := m.bus ++ scroll_bursts m.handle } := by
  obtain ⟨h, b1, b2, bus⟩ := m
  obtain ⟨port, chip, addr, mode, co, line, col, lo, conn, inv⟩ := h
  simp only at hb
  by_cases h7 : 7 = line <;> by_cases h8 : 8 ≤ (line + 1) % 256 <;> by_cases h9 : 8 ≤ line <;>
    by_cases h10 : 8 ≤ (lo + 1) % 256 <;>
    cases mode <;> cases f <;>
    simp [next_line_target, _oled_display_shift_display_one_line, send_parameter_eq, hb,
      advanced_line, advanced_offset, scrolls, scroll_bursts, TEXT_LINES,
      h7, h8, h9, h10]

theorem set_cursor_bus (env : Env) (m : Machine) (l c : Nat)
    (hc : m.handle.displayConnected = true) (hl : l < 8) (hcol : c < 16)
    (hb : PositionBufferOk m.g_arusPositionCommandBuffer) :
    (oled_display_set_cursor env m l c).bus = m.bus ++ [cursor_burst m.handle l c] := by
  rw [set_cursor_eq env m l c hc hl hcol hb]
  rfl

theorem set_cursor_buffers (env : Env) (m : Machine) (l c : Nat) (hb : BuffersOk m) :
    BuffersOk (oled_display_set_cursor env m l c) := by
  by_cases hg : m.handle.displayConnected = true ∧ l < 8 ∧ c < 16
  · rw [set_cursor_eq env m l c hg.1 hg.2.1 hg.2.2 hb.2]
    exact ⟨hb.1, position_command_ok _ _ _⟩
  · have : oled_display_set_cursor env m l c = m := by
      unfold oled_display_set_cursor
      exact if_neg hg
    rw [this]
    exact hb

theorem clear_line_bus (env : Env) (m : Machine) (l : Nat)
    (hc : m.handle.displayConnected = true)
    (hb : PositionBufferOk m.g_arusPositionCommandBuffer) :
    (oled_display_clear_line env m l).bus = m.bus ++ clear_line_bursts m.handle l := by
  rw [clear_line_eq env m l hc hb]
  simp [clear_line_bursts]

theorem clear_line_buffers (env : Env) (m : Machine) (l : Nat) (hb : BuffersOk m) :
    BuffersOk (oled_display_clear_line env m l) := by
  by_cases hc : m.handle.displayConnected = true
  · rw [clear_line_eq env m l hc hb.2]
    exact ⟨hb.1, position_command_ok _ _ _⟩
  · have : oled_display_clear_line env m l = m := by
      unfold oled_display_clear_line
      exact if_neg hc
    rw [this]
    exact hb

theorem next_line_target_buffers (env : Env) (m : Machine) (f : Bool) (hb : BuffersOk m) :
    BuffersOk (next_line_target env m f) := by
  rw [next_line_target_eq env m f hb.1]
  refine ⟨?_, hb.2⟩
  simp only
  split
  · simp [DisplayBufferOk]
  · exact hb.1

theorem advanced_line_lt (h : oled_display_handle_t) (f : Bool) : advanced_line h f < 8 :=
  clamp_lt_lines _

theorem next_line_bus (env : Env) (m : Machine) (f : Bool)
    (hc : m.handle.displayConnected = true) (hb : BuffersOk m) :
    (_oled_display_next_line env m f).bus =
      m.bus ++ scroll_bursts m.handle ++
        [cursor_burst (_oled_display_next_line env m f).handle
          (_oled_display_next_line env m f).handle.textLine 0] ++
        (if m.handle.printMode = print_mode_t.PM_SCROLL_LINE then
          clear_line_bursts (_oled_display_next_line env m f).handle
            (_oled_display_next_line env m f).handle.textLine
         else []) := by
  have ht := next_line_target_eq env m f hb.1
  have htb := next_line_target_buffers env m f hb
  have htc : (next_line_target env m f).handle.displayConnected = true := by rw [ht]; exact hc
  have htl : (next_line_target env m f).handle.textLine < 8 := by
    rw [ht]; exact advanced_line_lt _ _
  have htcol : (next_line_target env m f).handle.textColumn = 0 := by rw [ht]
  have hs := set_cursor_eq env (next_line_target env m f)
    (next_line_target env m f).handle.textLine (next_line_target env m f).handle.textColumn
    htc htl (by rw [htcol]; decide) htb.2
  rw [next_line_split, hs]
  cases hm : m.handle.printMode <;>
    simp [ht, hm, print_mode_t.toNat, oled_display_clear_actual_line, clear_line_eq, hc,
      position_command_ok, cursor_burst, clear_line_bursts]

theorem send_opcode_buffers (env : Env) (m : Machine) (o : Nat) (hb : BuffersOk m) :
    BuffersOk (_oled_display_send_opcode env m o) := by
  rw [send_opcode_eq env m o hb.1]
  exact ⟨display_buffer_set_ok _ hb.1 o, hb.2⟩

theorem send_parameter_buffers (env : Env) (m : Machine) (o p : Nat) (hb : BuffersOk m) :
    BuffersOk (_oled_display_send_parameter env m o p) := by
  rw [send_parameter_eq env m o p hb.1]
  refine ⟨?_, hb.2⟩
  simp [DisplayBufferOk]

theorem send_opcode_buffers_iff (env : Env) (m : Machine) (o : Nat) :
    BuffersOk (_oled_display_send_opcode env m o) ↔ BuffersOk m := by
  simp only [BuffersOk, DisplayBufferOk, _oled_display_send_opcode, i2c_master_write_to_device,
    List.length_set]
  rw [List.getElem?_set_ne (by decide)]

theorem send_parameter_buffers_iff (env : Env) (m : Machine) (o p : Nat) :
    BuffersOk (_oled_display_send_parameter env m o p) ↔ BuffersOk m := by
  simp only [BuffersOk, DisplayBufferOk, _oled_display_send_parameter,
    i2c_master_write_to_device, List.length_set]
  rw [List.getElem?_set_ne (by decide), List.getElem?_set_ne (by decide)]

theorem init_sh1106_buffers (env : Env) (m : Machine) (hb : BuffersOk m) :
    BuffersOk (_oled_display_init_sh1106 env m) := by
  simp only [_oled_display_init_sh1106, send_opcode_buffers_iff, send_parameter_buffers_iff]
  exact hb

theorem init_ssd1306_buffers (env : Env) (m : Machine) (hb : BuffersOk m) :
    BuffersOk (_oled_display_init_ssd1306 env m) := by
  simp only [_oled_display_init_ssd1306, send_opcode_buffers_iff, send_parameter_buffers_iff]
  exact hb

@[simp] theorem init_sh1106_handle (env : Env) (m : Machine) :
    (_oled_display_init_sh1106 env m).handle = m.handle := by
  simp only [_oled_display_init_sh1106, send_opcode_handle, send_parameter_handle]

@[simp] theorem init_ssd1306_handle (env : Env) (m : Machine) :
    (_oled_display_init_ssd1306 env m).handle = m.handle := by
  simp only [_oled_display_init_ssd1306, send_opcode_handle, send_parameter_handle]

theorem clear_loop_buffers (env : Env) (n s : Nat) (m : Machine) (hb : BuffersOk m) :
    BuffersOk (clear_loop env n s m) := by
  induction n generalizing s m with
  | zero => exact hb
  | succ n ih =>
    rw [clear_loop]
    exact ih _ _ (clear_line_buffers env m s hb)

theorem clear_loop_handle (env : Env) (n s : Nat) (m : Machine) :
    ∃ l c, (clear_loop env n s m).handle = { m.handle with textLine := l, textColumn := c } := by
  induction n generalizing s m with
  | zero => exact ⟨m.handle.textLine, m.handle.textColumn, rfl⟩
  | succ n ih =>
    rw [clear_loop]
    obtain ⟨l, c, h⟩ := ih ((s + 1) % 256) (oled_display_clear_line env m s)
    rw [h, clear_line_handle]
    split
    · exact ⟨l, c, rfl⟩
    · exact ⟨l, c, rfl⟩

theorem clear_handle (env : Env) (m : Machine) (hc : m.handle.displayConnected = true) :
    (oled_display_clear env m).handle =
      { m.handle with textLine := 0, textColumn := 0, lineOffset := 0 } := by
  unfold oled_display_clear
  rw [if_pos hc]
  obtain ⟨l, c, h⟩ := clear_loop_handle env TEXT_LINES 0 m
  simp only [set_cursor_handle, send_parameter_handle, h, hc]
  simp

theorem clear_buffers (env : Env) (m : Machine) (hb : BuffersOk m) :
    BuffersOk (oled_display_clear env m) := by
  unfold oled_display_clear
  split
  · apply set_cursor_buffers
    apply send_parameter_buffers
    have := clear_loop_buffers env TEXT_LINES 0 m hb
    exact this
  · exact hb

/-- State that `oled_display_init` leaves behind when it reports success. -/
theorem init_connect_success (env : Env) (m : Machine) (port : Nat) (chip : chip_type_t)
    (a : Nat) (hb : BuffersOk m)
    (h0 : (init_connect env m port chip a).2 = 0) :
    (init_connect env m port chip a).1.handle =
      { m.handle with
        address := a
        displayConnected := true
        displayColumnOffset :=
          if chip_type_t.CHIP_TYPE_SSD1306 = chip then m.handle.displayColumnOffset
          else DISPLAY_COLUMN_OFFSET_DEFAULT
        textLine := 0, textColumn := 0, lineOffset := 0 } ∧
    BuffersOk (init_connect env m port chip a).1 := by
  unfold init_connect at h0 ⊢
  by_cases hp : (i2c_master_write_to_device env m port a m.g_arusPositionCommandBuffer 0).2 = true
  · simp only [hp, if_true]
    constructor
    · rw [clear_handle]
      · cases chip <;> simp
      · cases chip <;> simp
    · apply clear_buffers
      simp only [send_opcode_buffers_iff]
      split
      · exact init_ssd1306_buffers env _ hb
      · exact init_sh1106_buffers env _ hb
  · simp [hp] at h0

theorem init_success (env : Env) (m : Machine) (port : Nat) (chip : chip_type_t) (address : Nat)
    (hb : BuffersOk m) (h0 : (oled_display_init env m port chip address).2 = 0) :
    (oled_display_init env m port chip address).1.handle =
      { port := port, chipType := chip
        address := (oled_display_init env m port chip address).1.handle.address
        printMode := print_mode_t.PM_SCROLL_LINE
        displayColumnOffset :=
          if chip_type_t.CHIP_TYPE_SSD1306 = chip then 0 else DISPLAY_COLUMN_OFFSET_DEFAULT
        textLine := 0, textColumn := 0, lineOffset := 0
        displayConnected := true, inverse := false } ∧
    BuffersOk (oled_display_init env m port chip address).1 := by
  unfold oled_display_init at h0 ⊢
  simp only at h0 ⊢
  split at h0
  · simp at h0
  · rename_i hv
    rw [if_neg hv]
    split at h0
    · rename_i hd
      rw [if_pos hd]
      split at h0
      · rename_i h1
        rw [if_pos h1]
        have := init_connect_success env _ port chip DISPLAY_ADDRESS_ONE (by exact hb) h0
        refine ⟨?_, this.2⟩
        rw [this.1]; rfl
      · rename_i h1
        rw [if_neg h1]
        split at h0
        · rename_i h2
          rw [if_pos h2]
          have := init_connect_success env _ port chip DISPLAY_ADDRESS_TWO (by exact hb) h0
          refine ⟨?_, this.2⟩
          rw [this.1]; rfl
        · simp at h0
    · rename_i hd
      rw [if_neg hd]
      have := init_connect_success env _ port chip address (by exact hb) h0
      refine ⟨?_, this.2⟩
      rw [this.1]

theorem print_char_nowrap_eq (env : Env) (m : Machine) (c : Nat)
    (hc : m.handle.displayConnected = true) (h1 : 32 ≤ c) (h2 : c < 128)
    (hcol : m.handle.textColumn < 16) :
    oled_display_print_char env m c =
      { m with
        handle := { m.handle with textColumn := m.handle.textColumn + 1 }
        bus := m.bus ++ [glyph_burst env m.handle c] } := by
  have h10 : ¬ (10 = c) := by omega
  have h128 : 128 > c := h2
  have hn : ¬ (TEXT_COLUMNS ≤ m.handle.textColumn) := by simp only [TEXT_COLUMNS]; omega
  have hmod : (m.handle.textColumn + 1) % 256 = m.handle.textColumn + 1 := by omega
  simp [oled_display_print_char, hc, h10, h1, h128, hn, hmod, i2c_master_cmd_begin, glyph_burst]

theorem print_char_wrap_eq (env : Env) (m : Machine) (c : Nat)
    (hc : m.handle.displayConnected = true) (h1 : 32 ≤ c) (h2 : c < 128)
    (hcol : 16 ≤ m.handle.textColumn) :
    oled_display_print_char env m c =
      { _oled_display_next_line env m false with
        handle := { (_oled_display_next_line env m false).handle with textColumn := 1 }
        bus := (_oled_display_next_line env m false).bus ++
          [glyph_burst env (_oled_display_next_line env m false).handle c] } := by
  have h10 : ¬ (10 = c) := by omega
  have h128 : 128 > c := h2
  have hn : TEXT_COLUMNS ≤ m.handle.textColumn := hcol
  have hz : (_oled_display_next_line env m false).handle.textColumn = 0 := by
    rw [next_line_handle env m false hc]
  simp [oled_display_print_char, hc, h10, h1, h128, hn, hz, i2c_master_cmd_begin, glyph_burst]

theorem print_char_ignored (env : Env) (m : Machine) (c : Nat)
    (h10 : c ≠ 10) (hp : ¬ (32 ≤ c ∧ c < 128)) :
    oled_display_print_char env m c = m := by
  have h10b : ¬ (10 = c) := fun h => h10 h.symm
  have hp2 : ¬ (32 ≤ c ∧ 128 > c) := hp
  simp [oled_display_print_char, h10b, hp2]

theorem print_loop_replicate_succ (env : Env) (c : Nat) (hc0 : c ≠ 0) (n : Nat) (m : Machine) :
    print_loop env (List.replicate (n + 1) c) m =
      oled_display_print_char env (print_loop env (List.replicate n c) m) c := by
  have h0 : (0 : Nat) ≠ c := fun h => hc0 h.symm
  induction n generalizing m with
  | zero => simp [print_loop, h0]
  | succ n ih =>
    rw [List.replicate_succ, print_loop, if_pos h0, ih]
    conv => rhs; rw [List.replicate_succ, print_loop, if_pos h0]

theorem print_loop_replicate_nowrap (env : Env) (c : Nat) (h1 : 32 ≤ c) (h2 : c < 128)
    (n : Nat) (m : Machine) (hc : m.handle.displayConnected = true)
    (hcol : m.handle.textColumn + n ≤ 16) :
    print_loop env (List.replicate n c) m =
      { m with
        handle := { m.handle with textColumn := m.handle.textColumn + n }
        bus := m.bus ++ List.replicate n (glyph_burst env m.handle c) } := by
  induction n with
  | zero => simp [print_loop]
  | succ n ih =>
    rw [print_loop_replicate_succ env c (by omega), ih (by omega)]
    refine (print_char_nowrap_eq env _ c ?_ h1 h2 ?_).trans ?_
    · exact hc
    · simp only; omega
    · simp [glyph_burst, List.replicate_succ', Nat.add_assoc]

theorem print_char_wrap_scroll (env : Env) (m : Machine) (c : Nat)
    (hc : m.handle.displayConnected = true) (hb : BuffersOk m)
    (hm : m.handle.printMode = print_mode_t.PM_SCROLL_LINE)
    (hl : m.handle.textLine < 7) (hcol : 16 ≤ m.handle.textColumn)
    (h1 : 32 ≤ c) (h2 : c < 128) :
    (oled_display_print_char env m c).handle =
      { m.handle with textLine := m.handle.textLine + 1, textColumn := 1 } ∧
    (oled_display_print_char env m c).bus =
      m.bus ++ [cursor_burst m.handle (m.handle.textLine + 1) 0] ++
        clear_line_bursts m.handle (m.handle.textLine + 1) ++ [glyph_burst env m.handle c] := by
  have hw := print_char_wrap_eq env m c hc h1 h2 hcol
  have h7 : ¬ (7 = m.handle.textLine) := by omega
  have hs : (m.handle.textLine + 1) % 256 = m.handle.textLine + 1 := by omega
  have h8 : ¬ (8 ≤ m.handle.textLine + 1) := by omega
  have hnh : (_oled_display_next_line env m false).handle =
      { m.handle with textLine := m.handle.textLine + 1, textColumn := 0 } := by
    rw [next_line_handle env m false hc]
    simp [hm, TEXT_LINES, h7, hs, h8]
  have hsc : scroll_bursts m.handle = [] := by
    simp [scroll_bursts, scrolls, TEXT_LINES, h7]
  have hnb := next_line_bus env m false hc hb
  rw [hnh, if_pos hm, hsc] at hnb
  rw [hw]
  refine ⟨?_, ?_⟩
  · simp only [hnh]
  · simp only [hnb, hnh]
    simp [cursor_burst, clear_line_bursts, glyph_burst]

theorem cursor_burst_not_data (h : oled_display_handle_t) (l c : Nat) :
    is_data_burst (cursor_burst h l c) = false := by
  simp [is_data_burst, cursor_burst, position_command]

theorem scroll_bursts_not_data (h : oled_display_handle_t) :
    ∀ b ∈ scroll_bursts h, is_data_burst b = false := by
  intro b hb
  unfold scroll_bursts at hb
  split at hb
  · simp at hb
    subst hb
    simp [is_data_burst]
  · simp at hb

theorem clear_line_bursts_has_data (h : oled_display_handle_t) (l : Nat) :
    ∃ b ∈ clear_line_bursts h l, is_data_burst b = true := by
  refine ⟨⟨h.port, h.address, PREFIX_DATA :: List.replicate (sweep_bytes h.chipType) 0x00⟩, ?_, ?_⟩
  · unfold clear_line_bursts
    have hpos : sweep_bursts h.chipType ≠ 0 := by
      unfold sweep_bursts; split <;> decide
    simp [List.mem_replicate, hpos]
  · simp [is_data_burst]

/-- The static initialisers of the two command buffers hold the framing bytes. -/
theorem power_on_buffers : BuffersOk power_on_machine := by decide

theorem next_line_buffers (env : Env) (m : Machine) (f : Bool) (hb : BuffersOk m) :
    BuffersOk (_oled_display_next_line env m f) := by
  rw [next_line_split]
  have ht := next_line_target_buffers env m f hb
  split
  · exact clear_line_buffers env _ _ (set_cursor_buffers env _ _ _ ht)
  · exact set_cursor_buffers env _ _ _ ht

theorem print_char_buffers (env : Env) (m : Machine) (c : Nat) (hb : BuffersOk m) :
    BuffersOk (oled_display_print_char env m c) := by
  unfold oled_display_print_char
  split
  · split
    · exact next_line_buffers env m true hb
    · split
      · split
        · exact next_line_buffers env m false hb
        · exact hb
      · exact hb
  · exact hb

theorem print_loop_buffers (env : Env) (text : List Nat) (m : Machine) (hb : BuffersOk m) :
    BuffersOk (print_loop env text m) := by
  induction text generalizing m with
  | nil => exact hb
  | cons c cs ih =>
    unfold print_loop
    split
    · exact ih _ (print_char_buffers env m c hb)
    · exact hb

theorem print_buffers (env : Env) (m : Machine) (text : List Nat) (hb : BuffersOk m) :
    BuffersOk (oled_display_print env m text) := by
  unfold oled_display_print
  split
  · exact print_loop_buffers env text m hb
  · exact hb

theorem println_buffers (env : Env) (m : Machine) (text : List Nat) (hb : BuffersOk m) :
    BuffersOk (oled_display_println env m text) := by
  unfold oled_display_println
  split
  · exact next_line_buffers env _ true (print_buffers env m text hb)
  · exact hb

theorem println_eq (env : Env) (m : Machine) (text : List Nat)
    (hc : m.handle.displayConnected = true) :
    oled_display_println env m text =
      _oled_display_next_line env (oled_display_print env m text) true := by
  simp [oled_display_println, hc]

theorem pixel_column_nibbles (co c : Nat) (hco : co ≤ 3) (hc : c < 16) :
    pixel_column co c = c * 8 + co ∧
    pixel_column co c &&& MASK_COLUMN_ADDRESS_LOW = (c * 8 + co) % 16 ∧
    (pixel_column co c &&& MASK_COLUMN_ADDRESS_HIGH) >>> 4 = (c * 8 + co) / 16 := by
  unfold pixel_column
  interval_cases c <;> interval_cases co <;> decide

theorem clear_line_bursts_congr (h h' : oled_display_handle_t) (l : Nat)
    (hp : h'.port = h.port) (ha : h'.address = h.address) (ho : h'.lineOffset = h.lineOffset)
    (hch : h'.chipType = h.chipType)
    (hco : h'.displayColumnOffset = h.displayColumnOffset) :
    clear_line_bursts h' l = clear_line_bursts h l := by
  simp [clear_line_bursts, hp, ha, ho, hch, hco]

theorem clear_loop_bursts_congr (h h' : oled_display_handle_t) (n s : Nat)
    (hp : h'.port = h.port) (ha : h'.address = h.address) (ho : h'.lineOffset = h.lineOffset)
    (hch : h'.chipType = h.chipType)
    (hco : h'.displayColumnOffset = h.displayColumnOffset) :
    clear_loop_bursts h' n s = clear_loop_bursts h n s := by
  induction n generalizing s with
  | zero => rfl
  | succ n ih =>
    rw [clear_loop_bursts, clear_loop_bursts, ih, clear_line_bursts_congr h h' s hp ha ho hch hco]

theorem clear_loop_bus (env : Env) (n s : Nat) (m : Machine)
    (hc : m.handle.displayConnected = true) (hb : BuffersOk m) :
    (clear_loop env n s m).bus = m.bus ++ clear_loop_bursts m.handle n s := by
  induction n generalizing s m with
  | zero => simp [clear_loop, clear_loop_bursts]
  | succ n ih =>
    have hh := clear_line_handle env m s
    rw [if_pos hc] at hh
    rw [clear_loop, ih _ _ (by rw [hh]; exact hc) (clear_line_buffers env m s hb),
      clear_line_bus env m s hc hb.2, clear_loop_bursts,
      clear_loop_bursts_congr m.handle _ n _ (by rw [hh]) (by rw [hh]) (by rw [hh])
        (by rw [hh]) (by rw [hh])]
    simp

theorem clear_loop_connected (env : Env) (n s : Nat) (m : Machine) :
    (clear_loop env n s m).handle.displayConnected = m.handle.displayConnected ∧
    (clear_loop env n s m).handle.port = m.handle.port ∧
    (clear_loop env n s m).handle.address = m.handle.address ∧
    (clear_loop env n s m).handle.displayColumnOffset = m.handle.displayColumnOffset := by
  obtain ⟨l, c, h⟩ := clear_loop_handle env n s m
  rw [h]
  exact ⟨rfl, rfl, rfl, rfl⟩

theorem clear_bus (env : Env) (m : Machine)
    (hc : m.handle.displayConnected = true) (hb : BuffersOk m) :
    (oled_display_clear env m).bus =
      m.bus ++ clear_loop_bursts m.handle TEXT_LINES 0 ++
        [⟨m.handle.port, m.handle.address,
          [PREFIX_LAST_COMMAND, OPC_DISPLAY_LINE_OFFSET, 0]⟩] ++
        [cursor_burst { m.handle with lineOffset := 0 } 0 0] := by
  unfold oled_display_clear
  rw [if_pos hc]
  have hlb := clear_loop_buffers env TEXT_LINES 0 m hb
  obtain ⟨hlc, hlp, hla, hlco⟩ := clear_loop_connected env TEXT_LINES 0 m
  simp only
  rw [set_cursor_bus, send_parameter_eq]
  · simp only [clear_loop_bus env TEXT_LINES 0 m hc hb, hlp, hla, cursor_burst, hlco]
  · exact hlb.1
  · rw [send_parameter_handle]; exact hlc.trans hc
  · decide
  · decide
  · exact ((send_parameter_buffers_iff env _ _ _).2 (by exact hlb)).2

theorem glyph_columns_eq_map (env : Env) (inverse : Bool) (n u : Nat) (hu : u + n ≤ 65536) :
    glyph_columns env inverse n u =
      (List.range n).map fun i =>
        if inverse = true then 255 - env.font8x8_simple (u + i) % 256
        else env.font8x8_simple (u + i) % 256 := by
  induction n generalizing u with
  | zero => rfl
  | succ n ih =>
    rw [glyph_columns, List.range_succ_eq_map, List.map_cons, List.map_map]
    cases n with
    | zero => simp [glyph_columns]
    | succ k =>
      have hmod : (u + 1) % 65536 = u + 1 := by omega
      rw [hmod, ih (u + 1) (by omega)]
      simp [Function.comp_def, Nat.add_assoc, Nat.add_comm 1]

theorem glyph_columns_eq_glyph_bytes (env : Env) (inverse : Bool) (c : Nat) (h2 : c < 128) :
    glyph_columns env inverse PIXELS_CHAR_WIDTH (((c - 32) <<< 3) % 65536) =
      glyph_bytes env inverse c := by
  have h : ((c - 32) <<< 3) % 65536 = (c - 32) * 8 := by
    rw [Nat.shiftLeft_eq]; omega
  rw [h, glyph_columns_eq_map env inverse 8 _ (by omega)]
  rfl

theorem complement_eq_xor (b : Nat) (hb : b < 256) : 255 - b = b ^^^ 255 := by
  interval_cases b <;> rfl

theorem send_opcode_extends (env : Env) (m : Machine) (o : Nat) :
    m.bus <+: (_oled_display_send_opcode env m o).bus :=
  List.prefix_append _ _

theorem send_parameter_extends (env : Env) (m : Machine) (o p : Nat) :
    m.bus <+: (_oled_display_send_parameter env m o p).bus :=
  List.prefix_append _ _

theorem set_cursor_extends (env : Env) (m : Machine) (l c : Nat) :
    m.bus <+: (oled_display_set_cursor env m l c).bus := by
  unfold oled_display_set_cursor
  split
  · exact List.prefix_append _ _
  · exact List.prefix_refl _

theorem clear_line_loop_extends (env : Env) (k n : Nat) (m : Machine) :
    m.bus <+: (clear_line_loop env k n m).bus := by
  rw [clear_line_loop_eq]
  exact List.prefix_append _ _

theorem clear_line_extends (env : Env) (m : Machine) (l : Nat) :
    m.bus <+: (oled_display_clear_line env m l).bus := by
  unfold oled_display_clear_line
  split
  · simp only [i2c_master_write_to_device, clear_line_loop_eq, List.append_assoc]
    exact List.prefix_append _ _
  · exact List.prefix_refl _

theorem clear_loop_extends (env : Env) (n s : Nat) (m : Machine) :
    m.bus <+: (clear_loop env n s m).bus := by
  induction n generalizing s m with
  | zero => exact List.prefix_refl _
  | succ n ih =>
    rw [clear_loop]
    exact (clear_line_extends env m s).trans (ih _ _)

theorem prefix_step_opcode {b : List Burst} (env : Env) (m : Machine) (o : Nat)
    (h : b <+: m.bus) : b <+: (_oled_display_send_opcode env m o).bus :=
  h.trans (send_opcode_extends env m o)

theorem prefix_step_parameter {b : List Burst} (env : Env) (m : Machine) (o p : Nat)
    (h : b <+: m.bus) : b <+: (_oled_display_send_parameter env m o p).bus :=
  h.trans (send_parameter_extends env m o p)

theorem clear_extends (env : Env) (m : Machine) :
    m.bus <+: (oled_display_clear env m).bus := by
  simp only [oled_display_clear]
  split
  · refine List.IsPrefix.trans ?_ (set_cursor_extends env _ _ _)
    apply prefix_step_parameter
    exact clear_loop_extends env TEXT_LINES 0 m
  · exact List.prefix_refl _

theorem init_sh1106_extends (env : Env) (m : Machine) :
    m.bus <+: (_oled_display_init_sh1106 env m).bus := by
  simp only [_oled_display_init_sh1106]
  apply prefix_step_parameter
  apply prefix_step_opcode
  apply prefix_step_parameter
  apply prefix_step_opcode
  apply prefix_step_parameter
  apply prefix_step_parameter
  apply prefix_step_parameter
  apply prefix_step_parameter
  apply prefix_step_opcode
  apply prefix_step_parameter
  apply prefix_step_parameter
  apply prefix_step_parameter
  apply prefix_step_opcode
  apply prefix_step_opcode
  exact List.prefix_refl _

theorem init_ssd1306_extends (env : Env) (m : Machine) :
    m.bus <+: (_oled_display_init_ssd1306 env m).bus := by
  simp only [_oled_display_init_ssd1306]
  apply prefix_step_opcode
  apply prefix_step_opcode
  apply prefix_step_parameter
  apply prefix_step_parameter
  apply prefix_step_parameter
  apply prefix_step_parameter
  apply prefix_step_parameter
  apply prefix_step_parameter
  apply prefix_step_opcode
  apply prefix_step_parameter
  apply prefix_step_parameter
  apply prefix_step_parameter
  apply prefix_step_opcode
  exact List.prefix_refl _

/-- The presence write of `init_connect` is not acknowledged: status 2, nothing else is
written, the handle is untouched. -/
theorem init_connect_nack (env : Env) (m : Machine) (port : Nat) (chip : chip_type_t) (a : Nat)
    (h : env.transport m.bus (probe port a) = false) :
    init_connect env m port chip a = ({ m with bus := m.bus ++ [probe port a] }, 2) := by
  have hp : (i2c_master_write_to_device env m port a m.g_arusPositionCommandBuffer 0).2 = false := by
    simpa [i2c_master_write_to_device, probe] using h
  unfold init_connect
  simp only [hp]
  simp [i2c_master_write_to_device, probe]

/-- The presence write of `init_connect` is acknowledged: status 0, the display is
connected under address `a`, and the presence write precedes everything else written. -/
theorem init_connect_ack (env : Env) (m : Machine) (port : Nat) (chip : chip_type_t) (a : Nat)
    (h : env.transport m.bus (probe port a) = true) :
    (init_connect env m port chip a).2 = 0 ∧
    (init_connect env m port chip a).1.handle =
      { m.handle with
        address := a
        displayConnected := true
        displayColumnOffset :=
          if chip_type_t.CHIP_TYPE_SSD1306 = chip then m.handle.displayColumnOffset
          else DISPLAY_COLUMN_OFFSET_DEFAULT
        textLine := 0, textColumn := 0, lineOffset := 0 } ∧
    m.bus ++ [probe port a] <+: (init_connect env m port chip a).1.bus := by
  have hp : (i2c_master_write_to_device env m port a m.g_arusPositionCommandBuffer 0).2 = true := by
    simpa [i2c_master_write_to_device, probe] using h
  unfold init_connect
  simp only [hp, if_true]
  refine ⟨trivial, ?_, ?_⟩
  · rw [clear_handle]
    · cases chip <;> simp
    · cases chip <;> simp
  · refine List.IsPrefix.trans ?_ (clear_extends env _)
    apply prefix_step_opcode
    apply prefix_step_opcode
    apply prefix_step_opcode
    apply prefix_step_opcode
    apply prefix_step_opcode
    apply prefix_step_opcode
    split
    · refine List.IsPrefix.trans ?_ (init_ssd1306_extends env _)
      simp [i2c_master_write_to_device, probe]
    · refine List.IsPrefix.trans ?_ (init_sh1106_extends env _)
      simp [i2c_master_write_to_device, probe]

/-- `oled_display_init` with address 255, in terms of the two probes and `init_connect`. -/
theorem init_auto_eq (env : Env) (m : Machine) (port : Nat) (chip : chip_type_t) :
    oled_display_init env m port chip 255 =
      if env.transport m.bus (probe port 60) = true then
        init_connect env
          { m with handle := init_handle port chip 255, bus := m.bus ++ [probe port 60] }
          port chip 60
      else if env.transport (m.bus ++ [probe port 60]) (probe port 61) = true then
        init_connect env
          { m with
            handle := init_handle port chip 255
            bus := m.bus ++ [probe port 60, probe port 61] }
          port chip 61
      else
        ({ m with
            handle := init_handle port chip 255
            bus := m.bus ++ [probe port 60, probe port 61] }, 2) := by
  unfold oled_display_init
  simp [i2c_master_write_to_device, probe, init_handle]

/-- `oled_display_init` with address 60 or 61 is `init_connect` on the reset handle. -/
theorem init_explicit_eq (env : Env) (m : Machine) (port : Nat) (chip : chip_type_t)
    (address : Nat) (ha : address = 60 ∨ address = 61) :
    oled_display_init env m port chip address =
      init_connect env { m with handle := init_handle port chip address } port chip address := by
  unfold oled_display_init
  rcases ha with ha | ha <;> subst ha <;> simp [init_handle]

/-- Outcome of `init_connect` on a state whose display is not connected, by the answer to
its presence write. -/
theorem init_connect_outcome (env : Env) (m : Machine) (port : Nat) (chip : chip_type_t)
    (a : Nat) (hd : m.handle.displayConnected = false) :
    m.bus ++ [probe port a] <+: (init_connect env m port chip a).1.bus ∧
    ((init_connect env m port chip a).2 = 0 ↔ env.transport m.bus (probe port a) = true) ∧
    ((init_connect env m port chip a).2 = 0 →
      (init_connect env m port chip a).1.handle.address = a ∧
      (init_connect env m port chip a).1.handle.displayConnected = true) ∧
    ((init_connect env m port chip a).2 ≠ 0 →
      (init_connect env m port chip a).2 = 2 ∧
      (init_connect env m port chip a).1.bus = m.bus ++ [probe port a] ∧
      (init_connect env m port chip a).1.handle.displayConnected = false) := by
  cases h : env.transport m.bus (probe port a)
  · rw [init_connect_nack env m port chip a h]
    simp [hd]
  · obtain ⟨h0, hh, hp⟩ := init_connect_ack env m port chip a h
    refine ⟨hp, ?_, ?_, ?_⟩
    · simp [h0]
    · intro _
      rw [hh]
      exact ⟨rfl, rfl⟩
    · intro hne
      exact absurd h0 hne

/-- With a bus driver whose answer to a presence write depends on the address only,
`oled_display_init` with address 255 returns status 2 exactly when neither address 60 nor
address 61 acknowledges, and status 0 otherwise. -/
theorem init_auto_stable_transport (env : Env) (m : Machine) (port : Nat) (chip : chip_type_t)
    (hs : ∀ (e e' : List Burst) (a : Nat),
      env.transport e (probe port a) = env.transport e' (probe port a)) :
    ((oled_display_init env m port chip 255).2 = 2 ↔
      env.transport m.bus (probe port 60) = false ∧
      env.transport m.bus (probe port 61) = false) ∧
    ((oled_display_init env m port chip 255).2 = 0 ∨
      (oled_display_init env m port chip 255).2 = 2) := by
  rw [init_auto_eq]
  have hB : env.transport (m.bus ++ [probe port 60]) (probe port 61) =
      env.transport m.bus (probe port 61) := hs _ _ _
  rw [hB]
  cases hA : env.transport m.bus (probe port 60)
  · cases hB2 : env.transport m.bus (probe port 61)
    · simp
    · have h := init_connect_ack env
        { m with
          handle := init_handle port chip 255
          bus := m.bus ++ [probe port 60, probe port 61] }
        port chip 61 (by rw [← hB2]; exact hs _ _ _)
      simp [h.1]
  · have h := init_connect_ack env
      { m with handle := init_handle port chip 255, bus := m.bus ++ [probe port 60] }
      port chip 60 (by rw [← hA]; exact hs _ _ _)
    simp [h.1]

theorem init_sh1106_bus (env : Env) (m : Machine)
    (hb : DisplayBufferOk m.g_displayCommandBuffer) :
    (_oled_display_init_sh1106 env m).bus =
      m.bus ++ command_bursts m.handle (power_on_commands chip_type_t.CHIP_TYPE_SH1106) := by
  obtain ⟨a, b, hab⟩ := display_buffer_cases _ hb
  obtain ⟨h, b1, b2, bus⟩ := m
  simp only at hab
  subst hab
  simp [_oled_display_init_sh1106, _oled_display_send_opcode, _oled_display_send_parameter,
    i2c_master_write_to_device, command_bursts, power_on_commands]
  rfl

theorem init_ssd1306_bus (env : Env) (m : Machine)
    (hb : DisplayBufferOk m.g_displayCommandBuffer) :
    (_oled_display_init_ssd1306 env m).bus =
      m.bus ++ command_bursts m.handle (power_on_commands chip_type_t.CHIP_TYPE_SSD1306) := by
  obtain ⟨a, b, hab⟩ := display_buffer_cases _ hb
  obtain ⟨h, b1, b2, bus⟩ := m
  simp only at hab
  subst hab
  simp [_oled_display_init_ssd1306, _oled_display_send_opcode, _oled_display_send_parameter,
    i2c_master_write_to_device, command_bursts, power_on_commands]
  rfl

theorem home_commands_bus (env : Env) (m : Machine)
    (hb : DisplayBufferOk m.g_displayCommandBuffer) :
    (_oled_display_send_opcode env
      (_oled_display_send_opcode env
        (_oled_display_send_opcode env
          (_oled_display_send_opcode env
            (_oled_display_send_opcode env
              (_oled_display_send_opcode env m OPC_PAGE_ADDRESS)
              OPC_COLUMN_ADDRESS_LOW)
            OPC_COLUMN_ADDRESS_HIGH)
          OPC_DISPLAY_ON)
        OPC_SEG_ROTATION_RIGHT)
      OPC_OUTPUT_SCAN_NORMAL).bus =
      m.bus ++ command_bursts m.handle init_home_commands := by
  obtain ⟨a, b, hab⟩ := display_buffer_cases _ hb
  obtain ⟨h, b1, b2, bus⟩ := m
  simp only at hab
  subst hab
  simp [_oled_display_send_opcode, i2c_master_write_to_device, command_bursts,
    init_home_commands]

theorem clear_bus_eq (env : Env) (m : Machine)
    (hc : m.handle.displayConnected = true) (hb : BuffersOk m) :
    (oled_display_clear env m).bus = m.bus ++ clear_bursts m.handle := by
  rw [clear_bus env m hc hb, clear_bursts]
  simp

/-- Bus record of `init_connect` when its presence write is acknowledged: the presence
write, the power-on sequence of the chip, the six home / display-on / orientation opcodes,
and the transactions of `oled_display_clear`. -/
theorem init_connect_bus (env : Env) (m : Machine) (port : Nat) (chip : chip_type_t) (a : Nat)
    (hb : BuffersOk m) (h : env.transport m.bus (probe port a) = true) :
    (init_connect env m port chip a).1.bus =
      m.bus ++ [probe port a] ++
        command_bursts { m.handle with address := a } (power_on_commands chip) ++
        command_bursts { m.handle with address := a } init_home_commands ++
        clear_bursts
          { m.handle with
            address := a
            displayConnected := true
            displayColumnOffset :=
              if chip_type_t.CHIP_TYPE_SSD1306 = chip then m.handle.displayColumnOffset
              else DISPLAY_COLUMN_OFFSET_DEFAULT } := by
  have hp : (i2c_master_write_to_device env m port a m.g_arusPositionCommandBuffer 0).2 = true := by
    simpa [i2c_master_write_to_device, probe] using h
  have hbm : BuffersOk (i2c_master_write_to_device env m port a m.g_arusPositionCommandBuffer 0).1 :=
    hb
  unfold init_connect
  simp only [hp, if_true]
  cases chip
  · simp only [if_neg (show ¬ chip_type_t.CHIP_TYPE_SSD1306 = chip_type_t.CHIP_TYPE_SH1106 by
      decide)]
    rw [clear_bus_eq, home_commands_bus, init_sh1106_bus]
    · simp only [send_opcode_handle, init_sh1106_handle]
      simp [i2c_master_write_to_device, probe, command_bursts]
    · exact hb.1
    · exact (init_sh1106_buffers env _ (by exact hbm)).1
    · simp only [send_opcode_handle, init_sh1106_handle]
    · simp only [send_opcode_buffers_iff]
      exact init_sh1106_buffers env _ (by exact hbm)
  · simp only [if_true]
    rw [clear_bus_eq, home_commands_bus, init_ssd1306_bus]
    · simp only [send_opcode_handle, init_ssd1306_handle]
      simp [i2c_master_write_to_device, probe, command_bursts]
    · exact hb.1
    · exact (init_ssd1306_buffers env _ (by exact hbm)).1
    · simp only [send_opcode_handle, init_ssd1306_handle]
    · simp only [send_opcode_buffers_iff]
      exact init_ssd1306_buffers env _ (by exact hbm)

theorem init_connect_zero_ack (env : Env) (m : Machine) (port : Nat) (chip : chip_type_t)
    (a : Nat) (h0 : (init_connect env m port chip a).2 = 0) :
    env.transport m.bus (probe port a) = true := by
  cases h : env.transport m.bus (probe port a)
  · rw [init_connect_nack env m port chip a h] at h0
    simp at h0
  · rfl

/-- State and bus record after `init_connect` returned status 0 on a state holding the
handle values `oled_display_init` stores first. -/
theorem init_connect_success_full (env : Env) (m : Machine) (port : Nat) (chip : chip_type_t)
    (x a : Nat) (hb : BuffersOk m) (hh : m.handle = init_handle port chip x)
    (h0 : (init_connect env m port chip a).2 = 0) :
    (init_connect env m port chip a).1.handle =
      { port := port, chipType := chip, address := a
        printMode := print_mode_t.PM_SCROLL_LINE
        displayColumnOffset :=
          if chip_type_t.CHIP_TYPE_SSD1306 = chip then 0 else DISPLAY_COLUMN_OFFSET_DEFAULT
        textLine := 0, textColumn := 0, lineOffset := 0
        displayConnected := true, inverse := false } ∧
    (init_connect env m port chip a).1.bus =
      m.bus ++ [probe port a] ++
        command_bursts (init_connect env m port chip a).1.handle (power_on_commands chip) ++
        command_bursts (init_connect env m port chip a).1.handle init_home_commands ++
        clear_bursts (init_connect env m port chip a).1.handle := by
  have hack := init_connect_zero_ack env m port chip a h0
  obtain ⟨_, hhandle, _⟩ := init_connect_ack env m port chip a hack
  have hbus := init_connect_bus env m port chip a hb hack
  have hfin : (init_connect env m port chip a).1.handle =
      { port := port, chipType := chip, address := a
        printMode := print_mode_t.PM_SCROLL_LINE
        displayColumnOffset :=
          if chip_type_t.CHIP_TYPE_SSD1306 = chip then 0 else DISPLAY_COLUMN_OFFSET_DEFAULT
        textLine := 0, textColumn := 0, lineOffset := 0
        displayConnected := true, inverse := false } := by
    rw [hhandle, hh]
    cases chip <;> simp [init_handle]
  refine ⟨hfin, ?_⟩
  rw [hbus, hfin, hh]
  cases chip <;> simp [init_handle, command_bursts, clear_bursts, cursor_burst,
    clear_loop_bursts, clear_line_bursts]

theorem init_invalid_eq (env : Env) (m : Machine) (port : Nat) (chip : chip_type_t)
    (address : Nat) (h60 : address ≠ 60) (h61 : address ≠ 61) (h255 : address ≠ 255) :
    oled_display_init env m port chip address =
      ({ m with handle := init_handle port chip address }, 1) := by
  have hg : DISPLAY_ADDRESS_ONE ≠ address ∧ DISPLAY_ADDRESS_TWO ≠ address
      ∧ DISPLAY_ADDRESS_DEFAULT ≠ address :=
    ⟨fun h => h60 h.symm, fun h => h61 h.symm, fun h => h255 h.symm⟩
  unfold oled_display_init
  simp only [if_pos hg]
  rfl

/-- A successful `oled_display_init` is `init_connect` with status 0 on a state that holds
the reset handle and whose bus record is the old one extended by presence writes only. -/
theorem init_success_connect (env : Env) (m0 : Machine) (port : Nat) (chip : chip_type_t)
    (address : Nat) (h0 : (oled_display_init env m0 port chip address).2 = 0) :
    ∃ (probes : List Burst) (a : Nat),
      (∀ b ∈ probes, b.bytes = []) ∧ (a = 60 ∨ a = 61) ∧
      oled_display_init env m0 port chip address =
        init_connect env
          { m0 with handle := init_handle port chip address, bus := m0.bus ++ probes }
          port chip a := by
  by_cases h255 : address = 255
  · subst h255
    rw [init_auto_eq] at h0 ⊢
    split at h0
    · rename_i hA
      rw [if_pos hA]
      exact ⟨[probe port 60], 60, by simp [probe], Or.inl rfl, rfl⟩
    · rename_i hA
      rw [if_neg hA]
      split at h0
      · rename_i hB
        rw [if_pos hB]
        exact ⟨[probe port 60, probe port 61], 61, by simp [probe], Or.inr rfl, rfl⟩
      · simp at h0
  · by_cases ha : address = 60 ∨ address = 61
    · rw [init_explicit_eq env m0 port chip address ha]
      exact ⟨[], address, by simp, ha, by simp⟩
    · rw [init_invalid_eq env m0 port chip address (fun h => ha (Or.inl h))
        (fun h => ha (Or.inr h)) h255] at h0
      simp at h0

theorem disconnected_noop (env : Env) (m : Machine) (c : PublicCall)
    (hd : m.handle.displayConnected = false) (hs : c.is_setter = false) :
    apply_call env m c = m := by
  cases c <;>
    simp_all [apply_call, PublicCall.is_setter, oled_display_print_char, oled_display_print,
      oled_display_println, oled_display_clear, oled_display_clear_line,
      oled_display_clear_actual_line, oled_display_set_cursor, oled_display_home,
      oled_display_set_inverse, oled_display_flip]

theorem setter_effect (env : Env) (m : Machine) (c : PublicCall) (hs : c.is_setter = true) :
    (apply_call env m c).bus = m.bus ∧
    (apply_call env m c).g_displayCommandBuffer = m.g_displayCommandBuffer ∧
    (apply_call env m c).g_arusPositionCommandBuffer = m.g_arusPositionCommandBuffer ∧
    (apply_call env m c).handle.displayConnected = m.handle.displayConnected ∧
    (apply_call env m c).handle.textLine = m.handle.textLine ∧
    (apply_call env m c).handle.textColumn = m.handle.textColumn ∧
    (apply_call env m c).handle.lineOffset = m.handle.lineOffset ∧
    (apply_call env m c).handle.chipType = m.handle.chipType ∧
    (apply_call env m c).handle.port = m.handle.port ∧
    (apply_call env m c).handle.address = m.handle.address := by
  cases c <;> simp [PublicCall.is_setter] at hs
  · simp [apply_call, oled_display_set_inverse_font]
  · simp [apply_call, oled_display_set_print_mode]
  · simp only [apply_call, oled_display_set_display_column_offset]
    split
    · split <;> simp
    · simp

theorem disconnected_step (env : Env) (m : Machine) (c : PublicCall)
    (hd : m.handle.displayConnected = false) :
    (apply_call env m c).bus = m.bus ∧
    (apply_call env m c).handle.displayConnected = false := by
  cases hs : c.is_setter
  · rw [disconnected_noop env m c hd hs]
    exact ⟨rfl, hd⟩
  · obtain ⟨h1, _, _, h4, _⟩ := setter_effect env m c hs
    exact ⟨h1, h4.trans hd⟩

theorem disconnected_run (env : Env) (calls : List PublicCall) (m : Machine)
    (hd : m.handle.displayConnected = false) :
    (run_calls env m calls).bus = m.bus ∧
    (run_calls env m calls).handle.displayConnected = false := by
  induction calls generalizing m with
  | nil => exact ⟨rfl, hd⟩
  | cons c cs ih =>
    obtain ⟨h1, h2⟩ := disconnected_step env m c hd
    obtain ⟨h3, h4⟩ := ih (apply_call env m c) h2
    exact ⟨h3.trans h1, h4⟩

theorem next_line_inv (env : Env) (m : Machine) (f : Bool)
    (hc : m.handle.displayConnected = true) (hi : StateInv m.handle) :
    StateInv (_oled_display_next_line env m f).handle := by
  obtain ⟨h1, _, h3, h4⟩ := hi
  rw [next_line_handle env m f hc]
  refine ⟨?_, Nat.zero_le _, h3, h4⟩
  simp only [TEXT_LINES]
  split
  · split <;> omega
  · exact h1

theorem print_char_inv (env : Env) (m : Machine) (c : Nat) (hi : StateInv m.handle) :
    StateInv (oled_display_print_char env m c).handle := by
  by_cases hc : m.handle.displayConnected = true
  · by_cases h10 : c = 10
    · subst h10
      rw [print_char_newline env m hc]
      exact next_line_inv env m true hc hi
    · by_cases hp : 32 ≤ c ∧ c < 128
      · rw [print_char_printable_handle env m c hc hp.1 hp.2]
        split
        · obtain ⟨h1, _, h3, h4⟩ := next_line_inv env m false hc hi
          exact ⟨h1, (show (1 : Nat) ≤ 16 by decide), h3, h4⟩
        · rename_i hcol
          obtain ⟨h1, h2, h3, h4⟩ := hi
          refine ⟨h1, ?_, h3, h4⟩
          simp only [TEXT_COLUMNS] at hcol ⊢
          omega
      · rw [print_char_ignored env m c h10 hp]
        exact hi
  · have : oled_display_print_char env m c = m := by
      simp [oled_display_print_char, hc]
    rw [this]
    exact hi

theorem print_loop_inv (env : Env) (text : List Nat) (m : Machine) (hi : StateInv m.handle) :
    StateInv (print_loop env text m).handle := by
  induction text generalizing m with
  | nil => exact hi
  | cons c cs ih =>
    unfold print_loop
    split
    · exact ih _ (print_char_inv env m c hi)
    · exact hi

theorem print_char_connected (env : Env) (m : Machine) (c : Nat) :
    (oled_display_print_char env m c).handle.displayConnected = m.handle.displayConnected := by
  by_cases hc : m.handle.displayConnected = true
  · by_cases h10 : c = 10
    · subst h10
      rw [print_char_newline env m hc, (next_line_keeps env m true hc).1, hc]
    · by_cases hp : 32 ≤ c ∧ c < 128
      · rw [print_char_printable_handle env m c hc hp.1 hp.2]
        split
        · exact (next_line_keeps env m false hc).1.trans hc.symm
        · rfl
      · rw [print_char_ignored env m c h10 hp]
  · have : oled_display_print_char env m c = m := by
      simp [oled_display_print_char, hc]
    rw [this]

theorem print_loop_connected (env : Env) (text : List Nat) (m : Machine) :
    (print_loop env text m).handle.displayConnected = m.handle.displayConnected := by
  induction text generalizing m with
  | nil => rfl
  | cons c cs ih =>
    unfold print_loop
    split
    · rw [ih, print_char_connected]
    · rfl

theorem print_connected (env : Env) (m : Machine) (text : List Nat) :
    (oled_display_print env m text).handle.displayConnected = m.handle.displayConnected := by
  unfold oled_display_print
  split
  · exact print_loop_connected env text m
  · rfl

theorem print_inv (env : Env) (m : Machine) (text : List Nat) (hi : StateInv m.handle) :
    StateInv (oled_display_print env m text).handle := by
  unfold oled_display_print
  split
  · exact print_loop_inv env text m hi
  · exact hi

theorem println_inv (env : Env) (m : Machine) (text : List Nat) (hi : StateInv m.handle) :
    StateInv (oled_display_println env m text).handle := by
  unfold oled_display_println
  split
  · rename_i hc
    exact next_line_inv env _ true ((print_connected env m text).trans hc)
      (print_inv env m text hi)
  · exact hi

theorem clear_line_inv (env : Env) (m : Machine) (l : Nat) (hi : StateInv m.handle) :
    StateInv (oled_display_clear_line env m l).handle := by
  rw [clear_line_handle]
  split
  · exact ⟨hi.1, Nat.zero_le _, hi.2.2⟩
  · exact hi

theorem set_cursor_inv (env : Env) (m : Machine) (l c : Nat) (hi : StateInv m.handle) :
    StateInv (oled_display_set_cursor env m l c).handle := by
  rw [set_cursor_handle]
  split
  · rename_i hg
    exact ⟨hi.1, Nat.le_of_lt hg.2.2, hi.2.2⟩
  · exact hi

theorem clear_inv (env : Env) (m : Machine) (hi : StateInv m.handle) :
    StateInv (oled_display_clear env m).handle := by
  by_cases hc : m.handle.displayConnected = true
  · rw [clear_handle env m hc]
    exact ⟨(show (0 : Nat) < 8 by decide), Nat.zero_le _, hi.2.2⟩
  · have : oled_display_clear env m = m := by simp [oled_display_clear, hc]
    rw [this]
    exact hi

theorem flip_handle (env : Env) (m : Machine) (b : Bool)
    (hc : m.handle.displayConnected = true) :
    (oled_display_flip env m b).handle =
      { m.handle with textLine := 0, textColumn := 0, lineOffset := 0 } := by
  unfold oled_display_flip
  rw [if_pos hc]
  cases b
  · simp only [Bool.false_eq_true, if_false]
    rw [clear_handle env _ (by simpa using hc)]
    simp
  · simp only [if_true]
    rw [clear_handle env _ (by simpa using hc)]
    simp

theorem set_inverse_handle (env : Env) (m : Machine) (b : Bool) :
    (oled_display_set_inverse env m b).handle = m.handle := by
  unfold oled_display_set_inverse
  split
  · split <;> rfl
  · rfl

/-- Every public call preserves the range invariant. -/
theorem apply_call_inv (env : Env) (m : Machine) (c : PublicCall) (hi : StateInv m.handle) :
    StateInv (apply_call env m c).handle := by
  cases c with
  | print_char c => exact print_char_inv env m c hi
  | print t => exact print_inv env m t hi
  | println t => exact println_inv env m t hi
  | clear => exact clear_inv env m hi
  | clear_line l => exact clear_line_inv env m l hi
  | clear_actual_line => exact clear_line_inv env m _ hi
  | set_cursor l c => exact set_cursor_inv env m l c hi
  | home => exact set_cursor_inv env m 0 0 hi
  | set_inverse b =>
    simp only [apply_call, set_inverse_handle]
    exact hi
  | flip b =>
    by_cases hc : m.handle.displayConnected = true
    · simp only [apply_call, flip_handle env m b hc]
      exact ⟨(show (0 : Nat) < 8 by decide), Nat.zero_le _, hi.2.2⟩
    · have : oled_display_flip env m b = m := by simp [oled_display_flip, hc]
      simp only [apply_call, this]
      exact hi
  | set_inverse_font b => exact hi
  | set_print_mode p => exact hi
  | set_display_column_offset n =>
    obtain ⟨h1, h2, h3, h4⟩ := hi
    simp only [apply_call, oled_display_set_display_column_offset,
      DISPLAY_COLUMN_OFFSET_MAX]
    split
    · split
      · exact ⟨h1, h2, Nat.zero_le _, fun _ => rfl⟩
      · rename_i hn hchip
        exact ⟨h1, h2, hn, fun hs => absurd hs.symm hchip⟩
    · exact ⟨h1, h2, h3, h4⟩

/-- The handle `oled_display_init` leaves, whatever its status: the reset handle, or the
reset handle connected under address 60 or 61 with the default column offset of the chip. -/
theorem init_handle_cases (env : Env) (m0 : Machine) (port : Nat) (chip : chip_type_t)
    (address : Nat) :
    (oled_display_init env m0 port chip address).1.handle = init_handle port chip address ∨
    ∃ a, (oled_display_init env m0 port chip address).1.handle =
      { init_handle port chip address with
        address := a
        displayConnected := true
        displayColumnOffset :=
          if chip_type_t.CHIP_TYPE_SSD1306 = chip then 0 else DISPLAY_COLUMN_OFFSET_DEFAULT } := by
  have key : ∀ (m : Machine) (a : Nat), m.handle = init_handle port chip address →
      (init_connect env m port chip a).1.handle = init_handle port chip address ∨
      ∃ a', (init_connect env m port chip a).1.handle =
        { init_handle port chip address with
          address := a'
          displayConnected := true
          displayColumnOffset :=
            if chip_type_t.CHIP_TYPE_SSD1306 = chip then 0 else DISPLAY_COLUMN_OFFSET_DEFAULT } := by
    intro m a hm
    cases h : env.transport m.bus (probe port a)
    · left
      rw [init_connect_nack env m port chip a h]
      exact hm
    · right
      refine ⟨a, ?_⟩
      rw [(init_connect_ack env m port chip a h).2.1, hm]
      cases chip <;> simp [init_handle]
  by_cases h255 : address = 255
  · subst h255
    rw [init_auto_eq]
    split
    · exact key _ 60 rfl
    · split
      · exact key _ 61 rfl
      · left; rfl
  · by_cases ha : address = 60 ∨ address = 61
    · rw [init_explicit_eq env m0 port chip address ha]
      exact key _ address rfl
    · left
      rw [init_invalid_eq env m0 port chip address (fun h => ha (Or.inl h))
        (fun h => ha (Or.inr h)) h255]

theorem init_inv (env : Env) (m0 : Machine) (port : Nat) (chip : chip_type_t) (address : Nat) :
    StateInv (oled_display_init env m0 port chip address).1.handle := by
  rcases init_handle_cases env m0 port chip address with h | ⟨a, h⟩
  · rw [h]
    exact ⟨(show (0 : Nat) < 8 by decide), Nat.zero_le _, Nat.zero_le _, fun _ => rfl⟩
  · rw [h]
    refine ⟨(show (0 : Nat) < 8 by decide), Nat.zero_le _, ?_, ?_⟩
    · cases chip <;> simp [DISPLAY_COLUMN_OFFSET_DEFAULT]
    · intro hs
      simp only [init_handle] at hs
      subst hs
      rfl

/-- The range invariant holds in every reachable state. -/
theorem reachable_inv (env : Env) (m : Machine) (hr : Reachable env m) : StateInv m.handle := by
  induction hr with
  | init m0 port chip address => exact init_inv env m0 port chip address
  | call m c _ ih => exact apply_call_inv env m c ih

theorem reachable_run (env : Env) (calls : List PublicCall) (m : Machine)
    (hr : Reachable env m) : Reachable env (run_calls env m calls) := by
  induction calls generalizing m with
  | nil => exact hr
  | cons c cs ih => exact ih _ (Reachable.call m c hr)

theorem flip_bus (env : Env) (m : Machine) (b : Bool)
    (hc : m.handle.displayConnected = true) (hb : BuffersOk m) :
    (oled_display_flip env m b).bus =
      m.bus ++
        [⟨m.handle.port, m.handle.address,
            [PREFIX_LAST_COMMAND,
              if b = true then OPC_SEG_ROTATION_LEFT else OPC_SEG_ROTATION_RIGHT]⟩,
          ⟨m.handle.port, m.handle.address,
            [PREFIX_LAST_COMMAND,
              if b = true then OPC_OUTPUT_SCAN_INVERSE else OPC_OUTPUT_SCAN_NORMAL]⟩] ++
        clear_bursts m.handle := by
  unfold oled_display_flip
  rw [if_pos hc]
  cases b
  · simp only [Bool.false_eq_true, if_false]
    rw [clear_bus_eq env _ (by simpa using hc) (by simpa [send_opcode_buffers_iff] using hb),
      send_opcode_eq env _ _ (display_buffer_set_ok _ hb.1 _), send_opcode_eq env m _ hb.1]
    simp [send_opcode_eq env m _ hb.1]
  · simp only [if_true]
    rw [clear_bus_eq env _ (by simpa using hc) (by simpa [send_opcode_buffers_iff] using hb),
      send_opcode_eq env _ _ (display_buffer_set_ok _ hb.1 _), send_opcode_eq env m _ hb.1]
    simp [send_opcode_eq env m _ hb.1]

/-- Every public call other than `oled_display_clear_line` with a line `≥ 8` keeps
`textLine < 8`. -/
theorem apply_call_line_lt (env : Env) (m : Machine) (c : PublicCall)
    (hl : m.handle.textLine < 8) (hcl : ∀ l, c = PublicCall.clear_line l → l < 8) :
    (apply_call env m c).handle.textLine < 8 := by
  by_cases hc : m.handle.displayConnected = true
  · cases c with
    | print_char c => exact (print_char_keeps env m c hc hl).2.2
    | print t => exact (print_keeps env m t hc hl).2.2
    | println t =>
      simp only [apply_call, oled_display_println, hc, if_true]
      exact (next_line_keeps env _ true (print_keeps env m t hc hl).1).2.2
    | clear =>
      simp only [apply_call, clear_handle env m hc]
      decide
    | clear_line l =>
      simp only [apply_call, clear_line_handle, hc, if_true]
      exact hcl l rfl
    | clear_actual_line =>
      simp only [apply_call, oled_display_clear_actual_line, clear_line_handle, hc, if_true]
      exact hl
    | set_cursor l c =>
      simp only [apply_call, set_cursor_handle]
      split
      · rename_i hg; exact hg.2.1
      · exact hl
    | home =>
      simp only [apply_call, oled_display_home, set_cursor_handle]
      split
      · exact (show (0 : Nat) < 8 by decide)
      · exact hl
    | set_inverse b =>
      simp only [apply_call, set_inverse_handle]
      exact hl
    | flip b =>
      simp only [apply_call, flip_handle env m b hc]
      decide
    | set_inverse_font b => exact hl
    | set_print_mode p => exact hl
    | set_display_column_offset n => exact (setter_effect env m (PublicCall.set_display_column_offset n) rfl).2.2.2.2.1 ▸ hl
  · have hd : m.handle.displayConnected = false := by simpa using hc
    cases hs : c.is_setter
    · rw [disconnected_noop env m c hd hs]
      exact hl
    · exact (setter_effect env m c hs).2.2.2.2.1 ▸ hl

/-- A call other than `print_char` and `print` that leaves the column at 16 found it
at 16. -/
theorem apply_call_column_sixteen (env : Env) (m : Machine) (c : PublicCall)
    (hn : ∀ x, c ≠ PublicCall.print_char x) (hp : ∀ t, c ≠ PublicCall.print t)
    (h16 : (apply_call env m c).handle.textColumn = 16) :
    m.handle.textColumn = 16 := by
  by_cases hc : m.handle.displayConnected = true
  · cases c with
    | print_char x => exact absurd rfl (hn x)
    | print t => exact absurd rfl (hp t)
    | println t =>
      simp only [apply_call, oled_display_println, hc, if_true] at h16
      rw [next_line_handle env _ true ((print_connected env m t).trans hc)] at h16
      simp at h16
    | clear =>
      simp [apply_call, clear_handle env m hc] at h16
    | clear_line l =>
      simp [apply_call, clear_line_handle, hc] at h16
    | clear_actual_line =>
      simp [apply_call, oled_display_clear_actual_line, clear_line_handle, hc] at h16
    | set_cursor l c =>
      simp only [apply_call, set_cursor_handle] at h16
      split at h16
      · rename_i hg
        simp only at h16
        have := hg.2.2
        simp only [TEXT_COLUMNS] at this
        omega
      · exact h16
    | home =>
      simp only [apply_call, oled_display_home, set_cursor_handle] at h16
      split at h16
      · simp at h16
      · exact h16
    | set_inverse b =>
      simpa only [apply_call, set_inverse_handle] using h16
    | flip b =>
      simp [apply_call, flip_handle env m b hc] at h16
    | set_inverse_font b => exact h16
    | set_print_mode p => exact h16
    | set_display_column_offset n =>
      exact (setter_effect env m (PublicCall.set_display_column_offset n) rfl).2.2.2.2.2.1 ▸ h16
  · have hd : m.handle.displayConnected = false := by simpa using hc
    cases hs : c.is_setter
    · rw [disconnected_noop env m c hd hs] at h16
      exact h16
    · exact (setter_effect env m c hs).2.2.2.2.2.1 ▸ h16

/-- When `oled_display_print_char` leaves the column at 16, starting from a column `≤ 16`,
it either rendered a glyph at column 15 or did nothing at all. -/
theorem print_char_column_sixteen (env : Env) (m : Machine) (c : Nat)
    (hle : m.handle.textColumn ≤ 16)
    (h16 : (oled_display_print_char env m c).handle.textColumn = 16) :
    (m.handle.textColumn = 15 ∧ m.handle.displayConnected = true ∧ 32 ≤ c ∧ c < 128) ∨
    (m.handle.textColumn = 16 ∧ oled_display_print_char env m c = m) := by
  by_cases hc : m.handle.displayConnected = true
  · by_cases h10 : c = 10
    · subst h10
      rw [print_char_newline env m hc, next_line_handle env m true hc] at h16
      simp at h16
    · by_cases hp : 32 ≤ c ∧ c < 128
      · rw [print_char_printable_handle env m c hc hp.1 hp.2] at h16
        split at h16
        · simp at h16
        · left
          simp only at h16
          exact ⟨by omega, hc, hp.1, hp.2⟩
      · right
        rw [print_char_ignored env m c h10 hp] at h16 ⊢
        exact ⟨h16, rfl⟩
  · right
    have : oled_display_print_char env m c = m := by
      simp [oled_display_print_char, hc]
    rw [this] at h16 ⊢
    exact ⟨h16, rfl⟩

theorem flip_buffers (env : Env) (m : Machine) (b : Bool) (hb : BuffersOk m) :
    BuffersOk (oled_display_flip env m b) := by
  unfold oled_display_flip
  split
  · cases b
    · simp only [Bool.false_eq_true, if_false]
      exact clear_buffers env _ (by simpa [send_opcode_buffers_iff] using hb)
    · simp only [if_true]
      exact clear_buffers env _ (by simpa [send_opcode_buffers_iff] using hb)
  · exact hb

theorem set_inverse_bus (env : Env) (m : Machine) (b : Bool)
    (hc : m.handle.displayConnected = true)
    (hb : DisplayBufferOk m.g_displayCommandBuffer) :
    (oled_display_set_inverse env m b).bus =
      m.bus ++ [⟨m.handle.port, m.handle.address,
        [PREFIX_LAST_COMMAND, if b = true then OPC_MODE_INVERSE else OPC_MODE_NORMAL]⟩] := by
  unfold oled_display_set_inverse
  rw [if_pos hc]
  cases b
  · simp only [Bool.false_eq_true, if_false]
    rw [send_opcode_eq env m _ hb]
  · simp only [if_true]
    rw [send_opcode_eq env m _ hb]

theorem print_loop_eq_foldl (env : Env) (text : List Nat) (m : Machine) :
    print_loop env text m =
      (text.takeWhile fun c => c != 0).foldl (oled_display_print_char env) m := by
  induction text generalizing m with
  | nil => rfl
  | cons c cs ih =>
    unfold print_loop
    by_cases h0 : c = 0
    · subst h0
      simp
    · have h0b : (0 : Nat) ≠ c := fun h => h0 h.symm
      rw [if_pos h0b, ih]
      simp [List.takeWhile_cons, h0]

theorem takeWhile_nonzero (text : List Nat) (h0 : ∀ c ∈ text, c ≠ 0) :
    (text.takeWhile fun c => c != 0) = text := by
  rw [List.takeWhile_eq_self_iff]
  intro c hc
  simpa using h0 c hc

theorem foldl_print_char_disconnected (env : Env) (text : List Nat) (m : Machine)
    (hd : ¬ m.handle.displayConnected = true) :
    text.foldl (oled_display_print_char env) m = m := by
  induction text with
  | nil => rfl
  | cons c cs ih =>
    have : oled_display_print_char env m c = m := by
      simp [oled_display_print_char, hd]
    rw [List.foldl_cons, this, ih]

theorem print_eq_foldl (env : Env) (m : Machine) (text : List Nat) :
    oled_display_print env m text =
      (text.takeWhile fun c => c != 0).foldl (oled_display_print_char env) m := by
  unfold oled_display_print
  split
  · exact print_loop_eq_foldl env text m
  · rename_i hd
    exact (foldl_print_char_disconnected env _ m hd).symm

theorem println_eq_print_newline (env : Env) (m : Machine) (text : List Nat)
    (h0 : ∀ c ∈ text, c ≠ 0) :
    oled_display_println env m text = oled_display_print env m (text ++ [10]) := by
  have h1 : ∀ c ∈ text ++ [10], c ≠ 0 := by
    intro c hc
    rcases List.mem_append.1 hc with h | h
    · exact h0 c h
    · rw [List.mem_singleton.1 h]; decide
  rw [print_eq_foldl env m (text ++ [10]), takeWhile_nonzero _ h1, List.foldl_append]
  simp only [List.foldl_cons, List.foldl_nil]
  rw [← takeWhile_nonzero text h0, ← print_eq_foldl, takeWhile_nonzero text h0]
  by_cases hc : m.handle.displayConnected = true
  · rw [println_eq env m text hc,
      print_char_newline env _ ((print_connected env m text).trans hc)]
  · have hp : oled_display_print env m text = m := by
      unfold oled_display_print
      exact if_neg hc
    have hl : oled_display_println env m text = m := by
      unfold oled_display_println
      exact if_neg hc
    rw [hp, hl]
    simp [oled_display_print_char, hc]

theorem send_opcode_transport (t1 t2 : List Burst → Burst → Bool) (font : Nat → Nat)
    (m : Machine) (o : Nat) :
    _oled_display_send_opcode ⟨t1, font⟩ m o = _oled_display_send_opcode ⟨t2, font⟩ m o := rfl

theorem send_parameter_transport (t1 t2 : List Burst → Burst → Bool) (font : Nat → Nat)
    (m : Machine) (o p : Nat) :
    _oled_display_send_parameter ⟨t1, font⟩ m o p =
      _oled_display_send_parameter ⟨t2, font⟩ m o p := rfl

theorem shift_transport (t1 t2 : List Burst → Burst → Bool) (font : Nat → Nat)
    (m : Machine) :
    _oled_display_shift_display_one_line ⟨t1, font⟩ m =
      _oled_display_shift_display_one_line ⟨t2, font⟩ m := rfl

theorem set_cursor_transport (t1 t2 : List Burst → Burst → Bool) (font : Nat → Nat)
    (m : Machine) (l c : Nat) :
    oled_display_set_cursor ⟨t1, font⟩ m l c = oled_display_set_cursor ⟨t2, font⟩ m l c := by
  unfold oled_display_set_cursor
  split <;> rfl

theorem clear_line_loop_transport (t1 t2 : List Burst → Burst → Bool) (font : Nat → Nat)
    (k n : Nat) (m : Machine) :
    clear_line_loop ⟨t1, font⟩ k n m = clear_line_loop ⟨t2, font⟩ k n m := by
  induction n generalizing m with
  | zero => rfl
  | succ n ih =>
    unfold clear_line_loop
    rw [ih]
    rfl

theorem clear_line_transport (t1 t2 : List Burst → Burst → Bool) (font : Nat → Nat)
    (m : Machine) (l : Nat) :
    oled_display_clear_line ⟨t1, font⟩ m l = oled_display_clear_line ⟨t2, font⟩ m l := by
  unfold oled_display_clear_line
  split
  · simp only [clear_line_loop_transport t1 t2 font]
    rfl
  · rfl

theorem clear_loop_transport (t1 t2 : List Burst → Burst → Bool) (font : Nat → Nat)
    (n s : Nat) (m : Machine) :
    clear_loop ⟨t1, font⟩ n s m = clear_loop ⟨t2, font⟩ n s m := by
  induction n generalizing s m with
  | zero => rfl
  | succ n ih =>
    unfold clear_loop
    rw [ih, clear_line_transport t1 t2 font]

theorem clear_transport (t1 t2 : List Burst → Burst → Bool) (font : Nat → Nat)
    (m : Machine) :
    oled_display_clear ⟨t1, font⟩ m = oled_display_clear ⟨t2, font⟩ m := by
  unfold oled_display_clear
  split
  · simp only [clear_loop_transport t1 t2 font, send_parameter_transport t1 t2 font,
      set_cursor_transport t1 t2 font]
  · rfl

theorem next_line_transport (t1 t2 : List Burst → Burst → Bool) (font : Nat → Nat)
    (m : Machine) (f : Bool) :
    _oled_display_next_line ⟨t1, font⟩ m f = _oled_display_next_line ⟨t2, font⟩ m f := by
  unfold _oled_display_next_line oled_display_clear_actual_line
  simp only [shift_transport t1 t2 font, set_cursor_transport t1 t2 font,
    clear_line_transport t1 t2 font]

theorem glyph_columns_transport (t1 t2 : List Burst → Burst → Bool) (font : Nat → Nat)
    (inverse : Bool) (n u : Nat) :
    glyph_columns ⟨t1, font⟩ inverse n u = glyph_columns ⟨t2, font⟩ inverse n u := by
  induction n generalizing u with
  | zero => rfl
  | succ n ih =>
    unfold glyph_columns
    rw [ih]

theorem print_char_transport (t1 t2 : List Burst → Burst → Bool) (font : Nat → Nat)
    (m : Machine) (c : Nat) :
    oled_display_print_char ⟨t1, font⟩ m c = oled_display_print_char ⟨t2, font⟩ m c := by
  unfold oled_display_print_char
  simp only [next_line_transport t1 t2 font, glyph_columns_transport t1 t2 font,
    i2c_master_cmd_begin]

theorem print_loop_transport (t1 t2 : List Burst → Burst → Bool) (font : Nat → Nat)
    (text : List Nat) (m : Machine) :
    print_loop ⟨t1, font⟩ text m = print_loop ⟨t2, font⟩ text m := by
  induction text generalizing m with
  | nil => rfl
  | cons c cs ih =>
    unfold print_loop
    rw [ih, print_char_transport t1 t2 font]

theorem apply_call_transport (t1 t2 : List Burst → Burst → Bool) (font : Nat → Nat)
    (m : Machine) (c : PublicCall) :
    apply_call ⟨t1, font⟩ m c = apply_call ⟨t2, font⟩ m c := by
  cases c <;>
    simp only [apply_call, oled_display_print, oled_display_println, oled_display_home,
      oled_display_clear_actual_line, oled_display_set_inverse, oled_display_flip,
      print_char_transport t1 t2 font, print_loop_transport t1 t2 font,
      next_line_transport t1 t2 font, clear_transport t1 t2 font,
      clear_line_transport t1 t2 font, set_cursor_transport t1 t2 font,
      send_opcode_transport t1 t2 font]

theorem run_calls_transport (t1 t2 : List Burst → Burst → Bool) (font : Nat → Nat)
    (calls : List PublicCall) (m : Machine) :
    run_calls ⟨t1, font⟩ m calls = run_calls ⟨t2, font⟩ m calls := by
  induction calls generalizing m with
  | nil => rfl
  | cons c cs ih =>
    unfold run_calls
    rw [ih, apply_call_transport t1 t2 font]

/-- In print mode `PM_OVERWRITE_SAME_LINE` a character other than the newline leaves the
line and the line offset as they are. -/
theorem print_char_same_line (env : Env) (m : Machine) (c : Nat)
    (hc : m.handle.displayConnected = true)
    (hm : m.handle.printMode = print_mode_t.PM_OVERWRITE_SAME_LINE)
    (hl : m.handle.textLine < 8) (h10 : c ≠ 10) :
    (oled_display_print_char env m c).handle.displayConnected = true ∧
    (oled_display_print_char env m c).handle.printMode = print_mode_t.PM_OVERWRITE_SAME_LINE ∧
    (oled_display_print_char env m c).handle.textLine = m.handle.textLine ∧
    (oled_display_print_char env m c).handle.lineOffset = m.handle.lineOffset := by
  by_cases hp : 32 ≤ c ∧ c < 128
  · rw [print_char_printable_handle env m c hc hp.1 hp.2]
    split
    · have hk := next_line_keeps env m false hc
      have hcs := next_line_cursor_overwrite_same env m false hc hm hl
      simp only [cursorState, Bool.false_eq_true, if_false, Prod.mk.injEq] at hcs
      exact ⟨hk.1, hk.2.1.trans hm, hcs.1, hcs.2.2⟩
    · exact ⟨hc, hm, rfl, rfl⟩
  · rw [print_char_ignored env m c h10 hp]
    exact ⟨hc, hm, rfl, rfl⟩

theorem print_loop_same_line (env : Env) (text : List Nat) (m : Machine)
    (hc : m.handle.displayConnected = true)
    (hm : m.handle.printMode = print_mode_t.PM_OVERWRITE_SAME_LINE)
    (hl : m.handle.textLine < 8) (h10 : ∀ c ∈ text, c ≠ 10) :
    (print_loop env text m).handle.textLine = m.handle.textLine ∧
    (print_loop env text m).handle.lineOffset = m.handle.lineOffset := by
  induction text generalizing m with
  | nil => exact ⟨rfl, rfl⟩
  | cons c cs ih =>
    unfold print_loop
    split
    · have hk := print_char_same_line env m c hc hm hl (h10 c (List.mem_cons_self _ _))
      have := ih (oled_display_print_char env m c) hk.1 hk.2.1 (by rw [hk.2.2.1]; exact hl)
        (fun x hx => h10 x (List.mem_cons_of_mem _ hx))
      exact ⟨this.1.trans hk.2.2.1, this.2.trans hk.2.2.2⟩
    · exact ⟨rfl, rfl⟩

/-- In print mode `PM_SCROLL_LINE` a line advance from line 7 stays in line 7. -/
theorem next_line_scroll_last (env : Env) (m : Machine) (f : Bool)
    (hc : m.handle.displayConnected = true)
    (hm : m.handle.printMode = print_mode_t.PM_SCROLL_LINE)
    (hl : m.handle.textLine = 7) :
    (_oled_display_next_line env m f).handle.printMode = print_mode_t.PM_SCROLL_LINE ∧
    (_oled_display_next_line env m f).handle.textLine = 7 := by
  rw [next_line_handle env m f hc]
  simp [hm, hl, TEXT_LINES]

theorem print_char_scroll_last (env : Env) (m : Machine) (c : Nat)
    (hm : m.handle.printMode = print_mode_t.PM_SCROLL_LINE)
    (hl : m.handle.textLine = 7) :
    (oled_display_print_char env m c).handle.printMode = print_mode_t.PM_SCROLL_LINE ∧
    (oled_display_print_char env m c).handle.textLine = 7 := by
  by_cases hc : m.handle.displayConnected = true
  · by_cases h10 : c = 10
    · subst h10
      rw [print_char_newline env m hc]
      exact next_line_scroll_last env m true hc hm hl
    · by_cases hp : 32 ≤ c ∧ c < 128
      · rw [print_char_printable_handle env m c hc hp.1 hp.2]
        split
        · exact next_line_scroll_last env m false hc hm hl
        · exact ⟨hm, hl⟩
      · rw [print_char_ignored env m c h10 hp]
        exact ⟨hm, hl⟩
  · have : oled_display_print_char env m c = m := by
      simp [oled_display_print_char, hc]
    rw [this]
    exact ⟨hm, hl⟩

theorem print_loop_scroll_last (env : Env) (text : List Nat) (m : Machine)
    (hm : m.handle.printMode = print_mode_t.PM_SCROLL_LINE)
    (hl : m.handle.textLine = 7) :
    (print_loop env text m).handle.printMode = print_mode_t.PM_SCROLL_LINE ∧
    (print_loop env text m).handle.textLine = 7 := by
  induction text generalizing m with
  | nil => exact ⟨hm, hl⟩
  | cons c cs ih =>
    unfold print_loop
    split
    · have hk := print_char_scroll_last env m c hm hl
      exact ih _ hk.1 hk.2
    · exact ⟨hm, hl⟩

theorem print_scroll_last (env : Env) (m : Machine) (text : List Nat)
    (hm : m.handle.printMode = print_mode_t.PM_SCROLL_LINE)
    (hl : m.handle.textLine = 7) :
    (oled_display_print env m text).handle.printMode = print_mode_t.PM_SCROLL_LINE ∧
    (oled_display_print env m text).handle.textLine = 7 := by
  unfold oled_display_print
  split
  · exact print_loop_scroll_last env text m hm hl
  · exact ⟨hm, hl⟩

theorem println_scroll_last (env : Env) (m : Machine) (text : List Nat)
    (hm : m.handle.printMode = print_mode_t.PM_SCROLL_LINE)
    (hl : m.handle.textLine = 7) :
    (oled_display_println env m text).handle.printMode = print_mode_t.PM_SCROLL_LINE ∧
    (oled_display_println env m text).handle.textLine = 7 := by
  unfold oled_display_println
  split
  · rename_i hc
    have hp := print_scroll_last env m text hm hl
    exact next_line_scroll_last env _ true ((print_connected env m text).trans hc) hp.1 hp.2
  · exact ⟨hm, hl⟩

theorem output_call_scroll_last (env : Env) (m : Machine) (c : PublicCall)
    (ho : c.is_output = true)
    (hm : m.handle.printMode = print_mode_t.PM_SCROLL_LINE)
    (hl : m.handle.textLine = 7) :
    (apply_call env m c).handle.printMode = print_mode_t.PM_SCROLL_LINE ∧
    (apply_call env m c).handle.textLine = 7 := by
  cases c with
  | print_char x => exact print_char_scroll_last env m x hm hl
  | print t => exact print_scroll_last env m t hm hl
  | println t => exact println_scroll_last env m t hm hl
  | _ => simp [PublicCall.is_output] at ho

theorem output_calls_scroll_last (env : Env) (calls : List PublicCall) (m : Machine)
    (ho : ∀ c ∈ calls, c.is_output = true)
    (hm : m.handle.printMode = print_mode_t.PM_SCROLL_LINE)
    (hl : m.handle.textLine = 7) :
    (run_calls env m calls).handle.printMode = print_mode_t.PM_SCROLL_LINE ∧
    (run_calls env m calls).handle.textLine = 7 := by
  induction calls generalizing m with
  | nil => exact ⟨hm, hl⟩
  | cons c cs ih =>
    unfold run_calls
    have hk := output_call_scroll_last env m c (ho c (List.mem_cons_self _ _)) hm hl
    exact ih _ (fun x hx => ho x (List.mem_cons_of_mem _ hx)) hk.1 hk.2

/-- Printable characters that fit into the rest of the line only move the column. -/
theorem print_loop_printable_nowrap (env : Env) (text : List Nat) (m : Machine)
    (hc : m.handle.displayConnected = true)
    (hp : ∀ c ∈ text, 32 ≤ c ∧ c < 128)
    (hcol : m.handle.textColumn + text.length ≤ 16) :
    (print_loop env text m).handle =
      { m.handle with textColumn := m.handle.textColumn + text.length } := by
  induction text generalizing m with
  | nil => rfl
  | cons c cs ih =>
    have hpc := hp c (List.mem_cons_self _ _)
    have h0 : (0 : Nat) ≠ c := by omega
    simp only [List.length_cons] at hcol
    unfold print_loop
    rw [if_pos h0, ih _ (by rw [print_char_connected]; exact hc)
      (fun x hx => hp x (List.mem_cons_of_mem _ hx))
      (by rw [print_char_nowrap_eq env m c hc hpc.1 hpc.2 (by omega)]; simp only; omega),
      print_char_nowrap_eq env m c hc hpc.1 hpc.2 (by omega)]
    simp only [List.length_cons]
    congr 1
    omega

/-- Cursor after a line advance, for every state: the line is in range and the column 0. -/
theorem next_line_range (env : Env) (m : Machine) (f : Bool) :
    (_oled_display_next_line env m f).handle.textLine < 8 ∧
    (_oled_display_next_line env m f).handle.textColumn = 0 := by
  by_cases hc : m.handle.displayConnected = true
  · rw [next_line_handle env m f hc]
    exact ⟨clamp_lt_lines _, rfl⟩
  · obtain ⟨h, b1, b2, bus⟩ := m
    obtain ⟨port, chip, addr, mode, co, line, col, lo, conn, inv⟩ := h
    simp only at hc
    have hcf : conn = false := by simpa using hc
    subst hcf
    by_cases h7 : 7 = line <;> by_cases h8 : 8 ≤ (line + 1) % 256 <;> by_cases h9 : 8 ≤ line <;>
      cases mode <;> cases f <;>
      simp [_oled_display_next_line, oled_display_clear_actual_line, set_cursor_handle,
        clear_line_handle, shift_handle, print_mode_t.toNat, TEXT_LINES, TEXT_COLUMNS,
        h7, h8, h9] <;>
      omega

theorem shift_line_offset (env : Env) (m : Machine) (ho : m.handle.lineOffset < 8) :
    (_oled_display_shift_display_one_line env m).handle.lineOffset =
      (m.handle.lineOffset + 1) % 8 := by
  rw [shift_handle]
  simp only [TEXT_LINES]
  split <;> omega

theorem page_of_shifted (o k : Nat) (ho : o < 8) (hk : k < 7) :
    page_of ((o + 1) % 8) k = page_of o (k + 1) := by
  rw [page_of_eq_mod _ _ (by omega) (Nat.mod_lt _ (by decide)),
    page_of_eq_mod _ _ (by omega) ho]
  omega

theorem page_of_shifted_last (o : Nat) (ho : o < 8) :
    page_of ((o + 1) % 8) 7 = page_of o 0 := by
  rw [page_of_eq_mod _ _ (by decide) (Nat.mod_lt _ (by decide)),
    page_of_eq_mod _ _ (by decide) ho]
  omega

theorem pages_perm (o : Nat) (ho : o < 8) :
    List.Perm ((List.range 8).map (page_of o)) (List.range 8) := by
  interval_cases o <;> decide

/-- Printable characters that fit into the rest of the line write one data transaction
each and only move the column. -/
theorem print_loop_printable_nowrap_eq (env : Env) (text : List Nat) (m : Machine)
    (hc : m.handle.displayConnected = true)
    (hp : ∀ c ∈ text, 32 ≤ c ∧ c < 128)
    (hcol : m.handle.textColumn + text.length ≤ 16) :
    print_loop env text m =
      { m with
        handle := { m.handle with textColumn := m.handle.textColumn + text.length }
        bus := m.bus ++ text.map (glyph_burst env m.handle) } := by
  induction text generalizing m with
  | nil => simp [print_loop]
  | cons c cs ih =>
    have hpc := hp c (List.mem_cons_self _ _)
    have h0 : (0 : Nat) ≠ c := by omega
    simp only [List.length_cons] at hcol
    unfold print_loop
    rw [if_pos h0, print_char_nowrap_eq env m c hc hpc.1 hpc.2 (by omega),
      ih _ (by exact hc) (fun x hx => hp x (List.mem_cons_of_mem _ hx))
        (by simp only; omega)]
    simp only [List.length_cons, List.map_cons, List.append_assoc, List.singleton_append]
    congr 2
    · omega

/-- Cursor after a forced line advance on a connected display with the line in range. -/
theorem next_line_forced_cursor (env : Env) (m : Machine)
    (hc : m.handle.displayConnected = true) (hl : m.handle.textLine < 8) :
    cursorState (_oled_display_next_line env m true) =
      if m.handle.printMode = print_mode_t.PM_SCROLL_LINE then
        if m.handle.textLine = 7 then
          (7, 0, if 8 ≤ (m.handle.lineOffset + 1) % 256 then 0
            else (m.handle.lineOffset + 1) % 256)
        else (m.handle.textLine + 1, 0, m.handle.lineOffset)
      else ((m.handle.textLine + 1) % 8, 0, m.handle.lineOffset) := by
  unfold cursorState
  rw [next_line_handle env m true hc]
  obtain ⟨h, b1, b2, bus⟩ := m
  obtain ⟨port, chip, addr, mode, co, line, col, lo, conn, inv⟩ := h
  simp only at hl
  have h2 : (line + 1) % 256 = line + 1 := by omega
  by_cases h7 : line = 7
  · subst h7
    cases mode <;> simp [TEXT_LINES]
  · have h7b : ¬ (7 = line) := fun h => h7 h.symm
    have h8 : ¬ (8 ≤ line + 1) := by omega
    have h9 : (line + 1) % 8 = line + 1 := by omega
    cases mode <;> simp [TEXT_LINES, h2, h7, h7b, h8, h9]

/-! ## The claims -/

/-- C1: in print mode `PM_SCROLL_LINE` on a connected display, every line advance (the
line advance itself for either value of its flag, a `'\n'` character, a `println`, and a
printable character arriving while `textColumn ≥ 16`) with `textLine = 7` and
`lineOffset < 8` sets `lineOffset` to `(lineOffset + 1) mod 8` and leaves `textLine = 7`;
with `textLine < 7` it sets `textLine` to `textLine + 1` and leaves `lineOffset`
unchanged.  The line advance of `println` of any text is the forced line advance applied
to the state that `print` leaves. -/
theorem C1_scroll_line_advance (env : Env) (m : Machine)
    (hc : m.handle.displayConnected = true)
    (hm : m.handle.printMode = print_mode_t.PM_SCROLL_LINE) :
    (m.handle.textLine = 7 → m.handle.lineOffset < 8 →
      (∀ f : Bool,
        (_oled_display_next_line env m f).handle.textLine = 7 ∧
        (_oled_display_next_line env m f).handle.lineOffset = (m.handle.lineOffset + 1) % 8) ∧
      ((oled_display_print_char env m 10).handle.textLine = 7 ∧
        (oled_display_print_char env m 10).handle.lineOffset = (m.handle.lineOffset + 1) % 8) ∧
      ((oled_display_println env m []).handle.textLine = 7 ∧
        (oled_display_println env m []).handle.lineOffset = (m.handle.lineOffset + 1) % 8) ∧
      (∀ c : Nat, 32 ≤ c → c < 128 → 16 ≤ m.handle.textColumn →
        (oled_display_print_char env m c).handle.textLine = 7 ∧
        (oled_display_print_char env m c).handle.lineOffset = (m.handle.lineOffset + 1) % 8)) ∧
    (m.handle.textLine < 7 →
      (∀ f : Bool,
        (_oled_display_next_line env m f).handle.textLine = m.handle.textLine + 1 ∧
        (_oled_display_next_line env m f).handle.lineOffset = m.handle.lineOffset) ∧
      ((oled_display_print_char env m 10).handle.textLine = m.handle.textLine + 1 ∧
        (oled_display_print_char env m 10).handle.lineOffset = m.handle.lineOffset) ∧
      ((oled_display_println env m []).handle.textLine = m.handle.textLine + 1 ∧
        (oled_display_println env m []).handle.lineOffset = m.handle.lineOffset) ∧
      (∀ c : Nat, 32 ≤ c → c < 128 → 16 ≤ m.handle.textColumn →
        (oled_display_print_char env m c).handle.textLine = m.handle.textLine + 1 ∧
        (oled_display_print_char env m c).handle.lineOffset = m.handle.lineOffset)) ∧
    (∀ text : List Nat, oled_display_println env m text =
      _oled_display_next_line env (oled_display_print env m text) true) := by
  have key7 : m.handle.textLine = 7 → m.handle.lineOffset < 8 → ∀ f : Bool,
      (_oled_display_next_line env m f).handle.textLine = 7 ∧
      (_oled_display_next_line env m f).handle.lineOffset = (m.handle.lineOffset + 1) % 8 := by
    intro hl ho f
    rw [next_line_handle env m f hc]
    simp only [hm, hl, TEXT_LINES]
    constructor
    · simp
    · simp only [and_self, if_true]
      split <;> omega
  have keylt : m.handle.textLine < 7 → ∀ f : Bool,
      (_oled_display_next_line env m f).handle.textLine = m.handle.textLine + 1 ∧
      (_oled_display_next_line env m f).handle.lineOffset = m.handle.lineOffset := by
    intro hl f
    rw [next_line_handle env m f hc]
    have h1 : ¬ (7 = m.handle.textLine) := by omega
    have h2 : (m.handle.textLine + 1) % 256 = m.handle.textLine + 1 := by omega
    have h3 : ¬ (8 ≤ m.handle.textLine + 1) := by omega
    simp [hm, TEXT_LINES, h1, h2, h3]
  refine ⟨fun hl ho => ⟨key7 hl ho, ?_, ?_, ?_⟩, fun hl => ⟨keylt hl, ?_, ?_, ?_⟩,
    fun text => println_eq env m text hc⟩
  · rw [print_char_newline env m hc]; exact key7 hl ho true
  · rw [println_nil env m hc]; exact key7 hl ho true
  · intro c h1 h2 hcol
    rw [print_char_printable_handle env m c hc h1 h2, if_pos hcol]
    exact key7 hl ho false
  · rw [print_char_newline env m hc]; exact keylt hl true
  · rw [println_nil env m hc]; exact keylt hl true
  · intro c h1 h2 hcol
    rw [print_char_printable_handle env m c hc h1 h2, if_pos hcol]
    exact keylt hl false

/-- Evaluation of C1 on a scrolling display in line 7 (wrap by a printable character) and
in line 2 (newline). -/
theorem C1_scroll_line_advance_witness :
    ((sample_machine print_mode_t.PM_SCROLL_LINE 7 16 3).handle.displayConnected = true ∧
      (sample_machine print_mode_t.PM_SCROLL_LINE 7 16 3).handle.printMode =
        print_mode_t.PM_SCROLL_LINE ∧
      (sample_machine print_mode_t.PM_SCROLL_LINE 7 16 3).handle.textLine = 7 ∧
      (sample_machine print_mode_t.PM_SCROLL_LINE 7 16 3).handle.lineOffset < 8) ∧
    ((oled_display_print_char sample_env
        (sample_machine print_mode_t.PM_SCROLL_LINE 7 16 3) 88).handle.textLine = 7 ∧
      (oled_display_print_char sample_env
        (sample_machine print_mode_t.PM_SCROLL_LINE 7 16 3) 88).handle.lineOffset =
        ((sample_machine print_mode_t.PM_SCROLL_LINE 7 16 3).handle.lineOffset + 1) % 8) ∧
    ((oled_display_print_char sample_env
        (sample_machine print_mode_t.PM_SCROLL_LINE 2 5 3) 10).handle.textLine =
        (sample_machine print_mode_t.PM_SCROLL_LINE 2 5 3).handle.textLine + 1 ∧
      (oled_display_print_char sample_env
        (sample_machine print_mode_t.PM_SCROLL_LINE 2 5 3) 10).handle.lineOffset =
        (sample_machine print_mode_t.PM_SCROLL_LINE 2 5 3).handle.lineOffset) :=
  ⟨⟨rfl, rfl, rfl, by decide⟩,
    ((C1_scroll_line_advance sample_env (sample_machine print_mode_t.PM_SCROLL_LINE 7 16 3)
      rfl rfl).1 rfl (by decide)).2.2.2 88 (by decide) (by decide) (by decide),
    ((C1_scroll_line_advance sample_env (sample_machine print_mode_t.PM_SCROLL_LINE 2 5 3)
      rfl rfl).2.1 (by decide)).2.1⟩

/-- C2: in print mode `PM_OVERWRITE_NEXT_LINE` on a connected display with `textLine < 8`,
every line advance (forced or natural) sets `textLine` to `(textLine + 1) mod 8` and
`textColumn` to 0 and leaves `lineOffset` unchanged; a printable character arriving at
the end of the line is then rendered at column 0, so the column ends at 1.  From line 7
the new line is 0.  The line advance of `println` of any text is the forced line advance
applied to the state that `print` leaves. -/
theorem C2_overwrite_next_line_advance (env : Env) (m : Machine)
    (hc : m.handle.displayConnected = true)
    (hm : m.handle.printMode = print_mode_t.PM_OVERWRITE_NEXT_LINE)
    (hl : m.handle.textLine < 8) :
    (∀ f : Bool, cursorState (_oled_display_next_line env m f) =
        ((m.handle.textLine + 1) % 8, 0, m.handle.lineOffset)) ∧
    cursorState (oled_display_print_char env m 10) =
        ((m.handle.textLine + 1) % 8, 0, m.handle.lineOffset) ∧
    cursorState (oled_display_println env m []) =
        ((m.handle.textLine + 1) % 8, 0, m.handle.lineOffset) ∧
    (∀ c : Nat, 32 ≤ c → c < 128 → 16 ≤ m.handle.textColumn →
      cursorState (oled_display_print_char env m c) =
        ((m.handle.textLine + 1) % 8, 1, m.handle.lineOffset)) ∧
    (m.handle.textLine = 7 → ∀ f : Bool,
      (_oled_display_next_line env m f).handle.textLine = 0) ∧
    (∀ text : List Nat, oled_display_println env m text =
      _oled_display_next_line env (oled_display_print env m text) true) := by
  have key := fun f => next_line_cursor_overwrite_next env m f hc hm hl
  refine ⟨key, ?_, ?_, ?_, ?_, fun text => println_eq env m text hc⟩
  · rw [print_char_newline env m hc]; exact key true
  · rw [println_nil env m hc]; exact key true
  · intro c h1 h2 hcol
    have h := key false
    simp only [cursorState, Prod.mk.injEq] at h ⊢
    rw [print_char_printable_handle env m c hc h1 h2, if_pos hcol]
    exact ⟨h.1, rfl, h.2.2⟩
  · intro h7 f
    have h := key f
    simp only [cursorState, Prod.mk.injEq, h7] at h
    exact h.1

/-- Evaluation of C2 for a newline in line 7. -/
theorem C2_overwrite_next_line_advance_witness :
    ((sample_machine print_mode_t.PM_OVERWRITE_NEXT_LINE 7 16 0).handle.displayConnected = true ∧
      (sample_machine print_mode_t.PM_OVERWRITE_NEXT_LINE 7 16 0).handle.textLine < 8) ∧
    cursorState (oled_display_print_char sample_env
      (sample_machine print_mode_t.PM_OVERWRITE_NEXT_LINE 7 16 0) 10) =
      (((sample_machine print_mode_t.PM_OVERWRITE_NEXT_LINE 7 16 0).handle.textLine + 1) % 8, 0,
        (sample_machine print_mode_t.PM_OVERWRITE_NEXT_LINE 7 16 0).handle.lineOffset) :=
  ⟨⟨rfl, by decide⟩,
    (C2_overwrite_next_line_advance sample_env
      (sample_machine print_mode_t.PM_OVERWRITE_NEXT_LINE 7 16 0) rfl rfl (by decide)).2.1⟩

/-- C3: in print mode `PM_OVERWRITE_SAME_LINE` on a connected display with `textLine < 8`,
a natural end-of-line wrap (printable character while `textColumn ≥ 16`) keeps `textLine`
and restarts at column 0 (the glyph goes there, the column ends at 1), whereas `'\n'`,
the forced line advance, and the line advance at the end of `println` of any text set
`textLine` to `(textLine + 1) mod 8` and `textColumn` to 0; from line 7 the output
continues at line 0, column 0. -/
theorem C3_overwrite_same_line_advance (env : Env) (m : Machine)
    (hc : m.handle.displayConnected = true)
    (hm : m.handle.printMode = print_mode_t.PM_OVERWRITE_SAME_LINE)
    (hl : m.handle.textLine < 8) :
    (∀ c : Nat, 32 ≤ c → c < 128 → 16 ≤ m.handle.textColumn →
      cursorState (_oled_display_next_line env m false) =
        (m.handle.textLine, 0, m.handle.lineOffset) ∧
      cursorState (oled_display_print_char env m c) =
        (m.handle.textLine, 1, m.handle.lineOffset)) ∧
    cursorState (oled_display_print_char env m 10) =
        ((m.handle.textLine + 1) % 8, 0, m.handle.lineOffset) ∧
    cursorState (_oled_display_next_line env m true) =
        ((m.handle.textLine + 1) % 8, 0, m.handle.lineOffset) ∧
    (∀ text : List Nat,
      (oled_display_println env m text).handle.textLine =
        ((oled_display_print env m text).handle.textLine + 1) % 8 ∧
      (oled_display_println env m text).handle.textColumn = 0) ∧
    (m.handle.textLine = 7 →
      cursorState (oled_display_print_char env m 10) = (0, 0, m.handle.lineOffset) ∧
      cursorState (oled_display_println env m []) = (0, 0, m.handle.lineOffset)) := by
  have key := fun f => next_line_cursor_overwrite_same env m f hc hm hl
  have kt := key true
  have kf := key false
  simp only [if_true] at kt
  simp only [Bool.false_eq_true, if_false] at kf
  refine ⟨?_, ?_, kt, ?_, ?_⟩
  · intro c h1 h2 hcol
    refine ⟨kf, ?_⟩
    simp only [cursorState, Prod.mk.injEq] at kf ⊢
    rw [print_char_printable_handle env m c hc h1 h2, if_pos hcol]
    exact ⟨kf.1, rfl, kf.2.2⟩
  · rw [print_char_newline env m hc]; exact kt
  · intro text
    have hk := print_keeps env m text hc hl
    have h := next_line_cursor_overwrite_same env (oled_display_print env m text) true hk.1
      (hk.2.1.trans hm) hk.2.2
    simp only [cursorState, if_true, Prod.mk.injEq] at h
    simp only [oled_display_println, hc, if_true]
    exact ⟨h.1, h.2.1⟩
  · intro h7
    rw [print_char_newline env m hc, println_nil env m hc, kt, h7]
    exact ⟨rfl, rfl⟩

/-- Evaluation of C3 in line 7: natural wrap and newline. -/
theorem C3_overwrite_same_line_advance_witness :
    ((sample_machine print_mode_t.PM_OVERWRITE_SAME_LINE 7 16 0).handle.displayConnected = true ∧
      (sample_machine print_mode_t.PM_OVERWRITE_SAME_LINE 7 16 0).handle.textLine < 8) ∧
    cursorState (oled_display_print_char sample_env
      (sample_machine print_mode_t.PM_OVERWRITE_SAME_LINE 7 16 0) 88) =
      ((sample_machine print_mode_t.PM_OVERWRITE_SAME_LINE 7 16 0).handle.textLine, 1,
        (sample_machine print_mode_t.PM_OVERWRITE_SAME_LINE 7 16 0).handle.lineOffset) ∧
    cursorState (oled_display_print_char sample_env
      (sample_machine print_mode_t.PM_OVERWRITE_SAME_LINE 7 16 0) 10) =
      (0, 0, (sample_machine print_mode_t.PM_OVERWRITE_SAME_LINE 7 16 0).handle.lineOffset) :=
  ⟨⟨rfl, by decide⟩,
    ((C3_overwrite_same_line_advance sample_env
      (sample_machine print_mode_t.PM_OVERWRITE_SAME_LINE 7 16 0) rfl rfl (by decide)).1
        88 (by decide) (by decide) (by decide)).2,
    ((C3_overwrite_same_line_advance sample_env
      (sample_machine print_mode_t.PM_OVERWRITE_SAME_LINE 7 16 0) rfl rfl (by decide)).2.2.2.2
        rfl).1⟩

/-- C4: on a connected display with `textLine < 8`, `lineOffset < 8` and `textColumn = 15`,
one printable character leaves line and line offset unchanged and sets the column to 16;
one more printable character performs `_oled_display_next_line` with `shiftLine = false`
and then renders at column 0, so that the column ends at 1 and line / line offset are:
`PM_SCROLL_LINE`: `line + 1`, or line 7 kept with the offset advanced mod 8;
`PM_OVERWRITE_NEXT_LINE`: `(line + 1) mod 8`; `PM_OVERWRITE_SAME_LINE`: unchanged. -/
theorem C4_wrap_at_last_column (env : Env) (m : Machine) (c1 c2 : Nat)
    (hc : m.handle.displayConnected = true)
    (hl : m.handle.textLine < 8) (ho : m.handle.lineOffset < 8)
    (hcol : m.handle.textColumn = 15)
    (h1 : 32 ≤ c1 ∧ c1 < 128) (h2 : 32 ≤ c2 ∧ c2 < 128) :
    cursorState (oled_display_print_char env m c1) =
      (m.handle.textLine, 16, m.handle.lineOffset) ∧
    (oled_display_print_char env (oled_display_print_char env m c1) c2).handle =
      { (_oled_display_next_line env (oled_display_print_char env m c1) false).handle with
        textColumn := 1 } ∧
    cursorState (oled_display_print_char env (oled_display_print_char env m c1) c2) =
      (match m.handle.printMode with
       | print_mode_t.PM_SCROLL_LINE =>
           if m.handle.textLine = 7 then (7, 1, (m.handle.lineOffset + 1) % 8)
           else (m.handle.textLine + 1, 1, m.handle.lineOffset)
       | print_mode_t.PM_OVERWRITE_NEXT_LINE =>
           ((m.handle.textLine + 1) % 8, 1, m.handle.lineOffset)
       | print_mode_t.PM_OVERWRITE_SAME_LINE =>
           (m.handle.textLine, 1, m.handle.lineOffset)) := by
  have e1 : (oled_display_print_char env m c1).handle = { m.handle with textColumn := 16 } := by
    rw [print_char_printable_handle env m c1 hc h1.1 h1.2]
    simp [hcol, TEXT_COLUMNS]
  have hc1 : (oled_display_print_char env m c1).handle.displayConnected = true := by
    simp [e1, hc]
  have e2 := print_char_printable_handle env (oled_display_print_char env m c1) c2 hc1 h2.1 h2.2
  have hcol1 : TEXT_COLUMNS ≤ (oled_display_print_char env m c1).handle.textColumn := by
    simp [e1]
  rw [if_pos hcol1] at e2
  refine ⟨?_, e2, ?_⟩
  · simp [cursorState, e1]
  · unfold cursorState
    rw [e2, next_line_handle env _ false hc1, e1]
    have hs : (m.handle.textLine + 1) % 256 = m.handle.textLine + 1 := by omega
    cases hm : m.handle.printMode <;> simp [TEXT_LINES, hs]
    · omega
    · split <;> omega
    · by_cases h7 : m.handle.textLine = 7
      · simp [h7]
        split <;> omega
      · have h7b : ¬ (7 = m.handle.textLine) := fun h => h7 h.symm
        simp [h7, h7b]
        omega

/-- Evaluation of C4 on a scrolling display in line 7 with line offset 7. -/
theorem C4_wrap_at_last_column_witness :
    ((sample_machine print_mode_t.PM_SCROLL_LINE 7 15 7).handle.displayConnected = true ∧
      (sample_machine print_mode_t.PM_SCROLL_LINE 7 15 7).handle.textLine < 8 ∧
      (sample_machine print_mode_t.PM_SCROLL_LINE 7 15 7).handle.lineOffset < 8 ∧
      (sample_machine print_mode_t.PM_SCROLL_LINE 7 15 7).handle.textColumn = 15) ∧
    cursorState (oled_display_print_char sample_env
      (sample_machine print_mode_t.PM_SCROLL_LINE 7 15 7) 65) = (7, 16, 7) ∧
    cursorState (oled_display_print_char sample_env (oled_display_print_char sample_env
      (sample_machine print_mode_t.PM_SCROLL_LINE 7 15 7) 65) 66) = (7, 1, 0) :=
  ⟨⟨rfl, by decide, by decide, rfl⟩,
    (C4_wrap_at_last_column sample_env (sample_machine print_mode_t.PM_SCROLL_LINE 7 15 7) 65 66
      rfl (by decide) (by decide) rfl (by decide) (by decide)).1,
    (C4_wrap_at_last_column sample_env (sample_machine print_mode_t.PM_SCROLL_LINE 7 15 7) 65 66
      rfl (by decide) (by decide) rfl (by decide) (by decide)).2.2⟩

/-- C5: a line advance on a connected display writes, after the optional scroll command
and the cursor-positioning transaction for the new current line, the complete
`oled_display_clear_line` sequence (positioning to pixel column 0, zero-fill sweep,
positioning to the first text column) for the new current line when the print mode is
`PM_SCROLL_LINE`; in the two overwrite modes it writes exactly one cursor-positioning
transaction.  Hence a data transaction is written if and only if the mode is
`PM_SCROLL_LINE`. -/
theorem C5_line_cleared_iff_scroll_mode (env : Env) (m : Machine) (f : Bool)
    (hc : m.handle.displayConnected = true) (hb : BuffersOk m) :
    (m.handle.printMode = print_mode_t.PM_SCROLL_LINE →
      (_oled_display_next_line env m f).bus =
        m.bus ++ scroll_bursts m.handle ++
          [cursor_burst (_oled_display_next_line env m f).handle
            (_oled_display_next_line env m f).handle.textLine 0] ++
          clear_line_bursts (_oled_display_next_line env m f).handle
            (_oled_display_next_line env m f).handle.textLine) ∧
    (m.handle.printMode ≠ print_mode_t.PM_SCROLL_LINE →
      (_oled_display_next_line env m f).bus =
        m.bus ++ [cursor_burst (_oled_display_next_line env m f).handle
          (_oled_display_next_line env m f).handle.textLine 0]) ∧
    ((∃ b ∈ (_oled_display_next_line env m f).bus.drop m.bus.length, is_data_burst b = true) ↔
      m.handle.printMode = print_mode_t.PM_SCROLL_LINE) := by
  have hbus := next_line_bus env m f hc hb
  have hns : m.handle.printMode ≠ print_mode_t.PM_SCROLL_LINE → scroll_bursts m.handle = [] := by
    intro h
    have : ¬ scrolls m.handle := fun hs => h hs.1.symm
    simp [scroll_bursts, this]
  refine ⟨?_, ?_, ?_⟩
  · intro hm
    rw [hbus, if_pos hm]
  · intro hm
    rw [hbus, if_neg hm, hns hm]
    simp
  · rw [hbus]
    simp only [List.append_assoc, List.drop_left]
    constructor
    · rintro ⟨b, hmem, hd⟩
      by_contra hm
      rw [if_neg hm, hns hm] at hmem
      simp only [List.nil_append, List.append_nil, List.mem_singleton] at hmem
      rw [hmem, cursor_burst_not_data] at hd
      exact Bool.false_ne_true hd
    · intro hm
      rw [if_pos hm]
      obtain ⟨b, hmem, hd⟩ := clear_line_bursts_has_data (_oled_display_next_line env m f).handle
        (_oled_display_next_line env m f).handle.textLine
      exact ⟨b, by simp [hmem], hd⟩

/-- Evaluation of C5 for an overwrite mode and for the scroll mode in line 7. -/
theorem C5_line_cleared_iff_scroll_mode_witness :
    ((sample_machine print_mode_t.PM_OVERWRITE_NEXT_LINE 3 9 2).handle.displayConnected = true ∧
      BuffersOk (sample_machine print_mode_t.PM_OVERWRITE_NEXT_LINE 3 9 2)) ∧
    (_oled_display_next_line sample_env
      (sample_machine print_mode_t.PM_OVERWRITE_NEXT_LINE 3 9 2) true).bus =
      (sample_machine print_mode_t.PM_OVERWRITE_NEXT_LINE 3 9 2).bus ++
        [cursor_burst (_oled_display_next_line sample_env
            (sample_machine print_mode_t.PM_OVERWRITE_NEXT_LINE 3 9 2) true).handle
          (_oled_display_next_line sample_env
            (sample_machine print_mode_t.PM_OVERWRITE_NEXT_LINE 3 9 2) true).handle.textLine 0] ∧
    (_oled_display_next_line sample_env
      (sample_machine print_mode_t.PM_SCROLL_LINE 7 9 2) false).bus =
      (sample_machine print_mode_t.PM_SCROLL_LINE 7 9 2).bus ++
        scroll_bursts (sample_machine print_mode_t.PM_SCROLL_LINE 7 9 2).handle ++
        [cursor_burst (_oled_display_next_line sample_env
            (sample_machine print_mode_t.PM_SCROLL_LINE 7 9 2) false).handle
          (_oled_display_next_line sample_env
            (sample_machine print_mode_t.PM_SCROLL_LINE 7 9 2) false).handle.textLine 0] ++
        clear_line_bursts (_oled_display_next_line sample_env
            (sample_machine print_mode_t.PM_SCROLL_LINE 7 9 2) false).handle
          (_oled_display_next_line sample_env
            (sample_machine print_mode_t.PM_SCROLL_LINE 7 9 2) false).handle.textLine :=
  ⟨⟨rfl, by decide⟩,
    (C5_line_cleared_iff_scroll_mode sample_env
      (sample_machine print_mode_t.PM_OVERWRITE_NEXT_LINE 3 9 2) true rfl (by decide)).2.1
        (by decide),
    (C5_line_cleared_iff_scroll_mode sample_env
      (sample_machine print_mode_t.PM_SCROLL_LINE 7 9 2) false rfl (by decide)).1 rfl⟩

/-- C6: after a successful `oled_display_init` (cursor at home, `PM_SCROLL_LINE`, line
offset 0), printing sixteen `'X'` leaves the cursor at line 0 with the wrap pending
(column 16); printing seventeen `'X'` ends at line 1, column 1, line offset 0, and writes
exactly: sixteen glyph transactions, the positioning for line 1 column 0 (page byte
`0xB1`), the clear sequence of line 1, and the seventeenth glyph transaction.  No scroll
command (`0xD3`) is written. -/
theorem C6_seventeen_chars_after_init (env : Env) (m0 m : Machine) (port : Nat)
    (chip : chip_type_t) (address : Nat) (hb : BuffersOk m0)
    (hinit : oled_display_init env m0 port chip address = (m, 0)) :
    cursorState m = (0, 0, 0) ∧
    m.handle.printMode = print_mode_t.PM_SCROLL_LINE ∧
    cursorState (oled_display_print env m (List.replicate 16 88)) = (0, 16, 0) ∧
    cursorState (oled_display_print env m (List.replicate 17 88)) = (1, 1, 0) ∧
    (oled_display_print env m (List.replicate 17 88)).bus =
      m.bus ++
      List.replicate 16
        ⟨m.handle.port, m.handle.address, 0x40 :: glyph_columns env false 8 448⟩ ++
      [⟨m.handle.port, m.handle.address,
        [0x80, 0xB1, 0x80, m.handle.displayColumnOffset, 0x00, 0x10]⟩] ++
      ([⟨m.handle.port, m.handle.address, [0x80, 0xB1, 0x80, 0x00, 0x00, 0x10]⟩] ++
        List.replicate (sweep_bursts chip)
          ⟨m.handle.port, m.handle.address, 0x40 :: List.replicate (sweep_bytes chip) 0x00⟩ ++
        [⟨m.handle.port, m.handle.address,
          [0x80, 0xB1, 0x80, m.handle.displayColumnOffset, 0x00, 0x10]⟩]) ++
      [⟨m.handle.port, m.handle.address, 0x40 :: glyph_columns env false 8 448⟩] := by
  have h0 : (oled_display_init env m0 port chip address).2 = 0 := by rw [hinit]
  obtain ⟨hh, hbm⟩ := init_success env m0 port chip address hb h0
  rw [hinit] at hh hbm
  simp only at hh hbm
  have hc : m.handle.displayConnected = true := by rw [hh]
  have hmode : m.handle.printMode = print_mode_t.PM_SCROLL_LINE := by rw [hh]
  have hline : m.handle.textLine = 0 := by rw [hh]
  have hcol : m.handle.textColumn = 0 := by rw [hh]
  have hlo : m.handle.lineOffset = 0 := by rw [hh]
  have hchip : m.handle.chipType = chip := by rw [hh]
  have hinv : m.handle.inverse = false := by rw [hh]
  have hglyph : glyph_burst env m.handle 88 =
      ⟨m.handle.port, m.handle.address, 0x40 :: glyph_columns env false 8 448⟩ := by
    simp [glyph_burst, hinv]
  have hco : m.handle.displayColumnOffset = 0 ∨ m.handle.displayColumnOffset = 2 := by
    rw [hh]; cases chip <;> simp
  have h16 := print_loop_replicate_nowrap env 88 (by decide) (by decide) 16 m hc
    (by rw [hcol])
  have h17 : print_loop env (List.replicate 17 88) m =
      oled_display_print_char env (print_loop env (List.replicate 16 88) m) 88 :=
    print_loop_replicate_succ env 88 (by decide) 16 m
  generalize hg : print_loop env (List.replicate 16 88) m = m16 at h16 h17
  have eh : m16.handle = { m.handle with textColumn := 16 } := by rw [h16, hcol]
  have eb : m16.bus = m.bus ++ List.replicate 16 (glyph_burst env m.handle 88) := by rw [h16]
  have eg : glyph_burst env m16.handle 88 = glyph_burst env m.handle 88 := by rw [eh]; rfl
  have hb16 : BuffersOk m16 := by rw [h16]; exact hbm
  have hc16 : m16.handle.displayConnected = true := by rw [eh]; exact hc
  have hm16 : m16.handle.printMode = print_mode_t.PM_SCROLL_LINE := by rw [eh]; exact hmode
  have hl16 : m16.handle.textLine = 0 := by rw [eh]; exact hline
  have hcol16 : m16.handle.textColumn = 16 := by rw [eh]
  have hw := print_char_wrap_scroll env m16 88 hc16 hb16 hm16 (by omega) (by omega)
    (by decide) (by decide)
  have hpage : OPC_PAGE_ADDRESS ||| page_of 0 1 = 0xB1 := by decide
  refine ⟨?_, hmode, ?_, ?_, ?_⟩
  · simp [cursorState, hline, hcol, hlo]
  · simp only [oled_display_print, hc, if_true, hg, cursorState, eh]
    simp [hline, hlo]
  · simp only [oled_display_print, hc, if_true, h17, cursorState, hw.1, eh]
    simp [hline, hlo]
  · simp only [oled_display_print, hc, if_true, h17, hw.2, eb, hl16]
    rw [eg, hglyph]
    simp only [eh, cursor_burst, clear_line_bursts, hlo, hpage, hchip]
    rcases hco with hco | hco
    · simp [hco, position_command, pixel_column]
    · simp [hco, position_command, pixel_column]
      decide

/-- Evaluation of C6 for an SH1106 found by address probing. -/
theorem C6_seventeen_chars_after_init_witness :
    (BuffersOk power_on_machine ∧
      oled_display_init sample_env power_on_machine 0 chip_type_t.CHIP_TYPE_SH1106
          DISPLAY_ADDRESS_DEFAULT =
        ((oled_display_init sample_env power_on_machine 0 chip_type_t.CHIP_TYPE_SH1106
          DISPLAY_ADDRESS_DEFAULT).1, 0)) ∧
    cursorState (oled_display_print sample_env
      (oled_display_init sample_env power_on_machine 0 chip_type_t.CHIP_TYPE_SH1106
        DISPLAY_ADDRESS_DEFAULT).1 (List.replicate 17 88)) = (1, 1, 0) :=
  ⟨⟨by decide, Prod.ext rfl (by decide)⟩,
    (C6_seventeen_chars_after_init sample_env power_on_machine
      (oled_display_init sample_env power_on_machine 0 chip_type_t.CHIP_TYPE_SH1106
        DISPLAY_ADDRESS_DEFAULT).1 0 chip_type_t.CHIP_TYPE_SH1106 DISPLAY_ADDRESS_DEFAULT
      (by decide) (Prod.ext rfl (by decide))).2.2.2.1⟩

/-- C7: on a connected display, for every `line < 8` and `column < 16`,
`oled_display_set_cursor` stores exactly `(line, column)` as the cursor position and leaves
every other field of the handle unchanged. -/
theorem C7_set_cursor_stores_position (env : Env) (m : Machine) (line column : Nat)
    (hc : m.handle.displayConnected = true) (hl : line < 8) (hcol : column < 16) :
    (oled_display_set_cursor env m line column).handle =
      { m.handle with textLine := line, textColumn := column } := by
  rw [set_cursor_handle]
  exact if_pos ⟨hc, hl, hcol⟩

/-- Evaluation of C7 at the last text position. -/
theorem C7_set_cursor_stores_position_witness :
    ((sample_machine print_mode_t.PM_SCROLL_LINE 0 0 5).handle.displayConnected = true ∧
      7 < 8 ∧ 15 < 16) ∧
    (oled_display_set_cursor sample_env (sample_machine print_mode_t.PM_SCROLL_LINE 0 0 5)
      7 15).handle =
      { (sample_machine print_mode_t.PM_SCROLL_LINE 0 0 5).handle with
        textLine := 7, textColumn := 15 } :=
  ⟨⟨rfl, by decide, by decide⟩,
    C7_set_cursor_stores_position sample_env (sample_machine print_mode_t.PM_SCROLL_LINE 0 0 5)
      7 15 rfl (by decide) (by decide)⟩

/-- C8: `oled_display_set_cursor` with `line ≥ 8` or `column ≥ 16` is rejected silently:
handle, command buffers and bus record are all unchanged (nothing is written). -/
theorem C8_set_cursor_out_of_range (env : Env) (m : Machine) (line column : Nat)
    (h : 8 ≤ line ∨ 16 ≤ column) :
    oled_display_set_cursor env m line column = m := by
  unfold oled_display_set_cursor
  apply if_neg
  simp only [TEXT_LINES, TEXT_COLUMNS]
  omega

/-- Evaluation of C8 at line 8. -/
theorem C8_set_cursor_out_of_range_witness :
    (8 ≤ 8 ∨ 16 ≤ 3) ∧
    oled_display_set_cursor sample_env (sample_machine print_mode_t.PM_SCROLL_LINE 2 4 5) 8 3 =
      sample_machine print_mode_t.PM_SCROLL_LINE 2 4 5 :=
  ⟨by decide,
    C8_set_cursor_out_of_range sample_env (sample_machine print_mode_t.PM_SCROLL_LINE 2 4 5) 8 3
      (by decide)⟩

/-- C9, as stated, fails: code 127 lies outside `[32,127)` and is not `'\n'`, yet on a
connected display `oled_display_print_char` renders it (one data transaction with the
glyph at table index `(127 - 32) * 8 = 760`) and advances the column. -/
theorem C9_code_127_is_printed :
    ¬ (32 ≤ 127 ∧ 127 < 127) ∧ (127 : Nat) ≠ 10 ∧
    (sample_machine print_mode_t.PM_SCROLL_LINE 0 0 0).handle.displayConnected = true ∧
    oled_display_print_char sample_env (sample_machine print_mode_t.PM_SCROLL_LINE 0 0 0) 127 ≠
      sample_machine print_mode_t.PM_SCROLL_LINE 0 0 0 ∧
    (oled_display_print_char sample_env
      (sample_machine print_mode_t.PM_SCROLL_LINE 0 0 0) 127).handle.textColumn = 1 ∧
    (oled_display_print_char sample_env
      (sample_machine print_mode_t.PM_SCROLL_LINE 0 0 0) 127).bus =
      [⟨0, 60, [0x40, 248, 249, 250, 251, 252, 253, 254, 255]⟩] := by
  decide

/-- C9 (amended): `oled_display_print_char` with a character code outside `[32,128)` other
than `'\n'` (10) is a no-op: handle, command buffers and bus record are unchanged. -/
theorem C9_print_char_ignores_other_codes (env : Env) (m : Machine) (c : Nat)
    (h10 : c ≠ 10) (hp : ¬ (32 ≤ c ∧ c < 128)) :
    oled_display_print_char env m c = m :=
  print_char_ignored env m c h10 hp

/-- Evaluation of the amended C9 at code 200. -/
theorem C9_print_char_ignores_other_codes_witness :
    ((200 : Nat) ≠ 10 ∧ ¬ (32 ≤ 200 ∧ 200 < 128)) ∧
    oled_display_print_char sample_env (sample_machine print_mode_t.PM_SCROLL_LINE 2 4 5) 200 =
      sample_machine print_mode_t.PM_SCROLL_LINE 2 4 5 :=
  ⟨by decide,
    C9_print_char_ignores_other_codes sample_env
      (sample_machine print_mode_t.PM_SCROLL_LINE 2 4 5) 200 (by decide) (by decide)⟩

/-- C10: for every logical line `< 8` and line offset `< 8`, the page-address byte that
`oled_display_set_cursor` and `oled_display_clear_line` (in both of its positioning
transactions) place at index 1 of the position command is `0xB0 | ((line + lineOffset)
mod 8)`, which is `0xB0 + (line + lineOffset) mod 8`. -/
theorem C10_physical_page (env : Env) (m : Machine) (line : Nat)
    (hc : m.handle.displayConnected = true)
    (hb : PositionBufferOk m.g_arusPositionCommandBuffer)
    (hl : line < 8) (ho : m.handle.lineOffset < 8) :
    page_of m.handle.lineOffset line = (line + m.handle.lineOffset) % 8 ∧
    (OPC_PAGE_ADDRESS ||| ((line + m.handle.lineOffset) % 8)) =
      0xB0 + (line + m.handle.lineOffset) % 8 ∧
    (∀ column, column < 16 → ∃ low high,
      (oled_display_set_cursor env m line column).bus = m.bus ++
        [⟨m.handle.port, m.handle.address,
          [0x80, OPC_PAGE_ADDRESS ||| ((line + m.handle.lineOffset) % 8), 0x80, low,
            0x00, high]⟩]) ∧
    (∃ low,
      (oled_display_clear_line env m line).bus = m.bus ++
        [⟨m.handle.port, m.handle.address,
          [0x80, OPC_PAGE_ADDRESS ||| ((line + m.handle.lineOffset) % 8), 0x80, 0x00,
            0x00, 0x10]⟩] ++
        List.replicate (sweep_bursts m.handle.chipType)
          ⟨m.handle.port, m.handle.address,
            0x40 :: List.replicate (sweep_bytes m.handle.chipType) 0x00⟩ ++
        [⟨m.handle.port, m.handle.address,
          [0x80, OPC_PAGE_ADDRESS ||| ((line + m.handle.lineOffset) % 8), 0x80, low,
            0x00, 0x10]⟩]) := by
  have hp := page_of_eq_mod m.handle.lineOffset line hl ho
  refine ⟨hp, ?_, ?_, ?_⟩
  · generalize m.handle.lineOffset = o at ho
    interval_cases line <;> interval_cases o <;> rfl
  · intro column hcol
    refine ⟨OPC_COLUMN_ADDRESS_LOW |||
        (pixel_column m.handle.displayColumnOffset column &&& MASK_COLUMN_ADDRESS_LOW),
      OPC_COLUMN_ADDRESS_HIGH |||
        ((pixel_column m.handle.displayColumnOffset column &&& MASK_COLUMN_ADDRESS_HIGH) >>> 4),
      ?_⟩
    rw [set_cursor_bus env m line column hc hl hcol hb, cursor_burst, hp]
    rfl
  · refine ⟨(OPC_COLUMN_ADDRESS_LOW ||| m.handle.displayColumnOffset) % 256, ?_⟩
    rw [clear_line_bus env m line hc hb, clear_line_bursts, hp]
    simp [position_command]

/-- Evaluation of C10 at line 6 with line offset 5. -/
theorem C10_physical_page_witness :
    ((sample_machine print_mode_t.PM_SCROLL_LINE 0 0 5).handle.displayConnected = true ∧
      PositionBufferOk
        (sample_machine print_mode_t.PM_SCROLL_LINE 0 0 5).g_arusPositionCommandBuffer ∧
      6 < 8 ∧ (sample_machine print_mode_t.PM_SCROLL_LINE 0 0 5).handle.lineOffset < 8) ∧
    page_of (sample_machine print_mode_t.PM_SCROLL_LINE 0 0 5).handle.lineOffset 6 =
      (6 + (sample_machine print_mode_t.PM_SCROLL_LINE 0 0 5).handle.lineOffset) % 8 :=
  ⟨⟨rfl, by decide, by decide, by decide⟩,
    (C10_physical_page sample_env (sample_machine print_mode_t.PM_SCROLL_LINE 0 0 5) 6
      rfl (by decide) (by decide) (by decide)).1⟩

/-- C11: on a connected display with `lineOffset < 8` and `displayColumnOffset ≤ 3`, for
all `line < 8` and `column < 16`, `oled_display_set_cursor` writes exactly one
transaction, of the six bytes `[0x80, 0xB0 | page, 0x80, 0x00 | low, 0x00, 0x10 | high]`
with `page = (line + lineOffset) mod 8` and `low`, `high` the low and high nibble of the
pixel column `column * 8 + displayColumnOffset` (which is what the masks and the shift of
the code extract). -/
theorem C11_set_cursor_burst (env : Env) (m : Machine) (line column : Nat)
    (hc : m.handle.displayConnected = true)
    (hb : PositionBufferOk m.g_arusPositionCommandBuffer)
    (ho : m.handle.lineOffset < 8) (hco : m.handle.displayColumnOffset ≤ 3)
    (hl : line < 8) (hcol : column < 16) :
    (oled_display_set_cursor env m line column).bus =
      m.bus ++ [⟨m.handle.port, m.handle.address,
        [0x80, 0xB0 ||| ((line + m.handle.lineOffset) % 8),
         0x80, 0x00 ||| ((column * 8 + m.handle.displayColumnOffset) % 16),
         0x00, 0x10 ||| ((column * 8 + m.handle.displayColumnOffset) / 16)]⟩] ∧
    (column * 8 + m.handle.displayColumnOffset) % 16 =
      (column * 8 + m.handle.displayColumnOffset) &&& 0x0F ∧
    (column * 8 + m.handle.displayColumnOffset) / 16 =
      ((column * 8 + m.handle.displayColumnOffset) &&& 0xF0) >>> 4 := by
  obtain ⟨h1, h2, h3⟩ := pixel_column_nibbles m.handle.displayColumnOffset column hco hcol
  refine ⟨?_, ?_, ?_⟩
  · rw [set_cursor_bus env m line column hc hl hcol hb, cursor_burst,
      page_of_eq_mod _ _ hl ho, h2, h3]
    rfl
  · rw [← h2, h1]
  · rw [← h3, h1]

/-- Evaluation of C11 at line 7, column 15 with line offset 5 and column offset 2. -/
theorem C11_set_cursor_burst_witness :
    ((sample_machine print_mode_t.PM_SCROLL_LINE 0 0 5).handle.displayConnected = true ∧
      PositionBufferOk
        (sample_machine print_mode_t.PM_SCROLL_LINE 0 0 5).g_arusPositionCommandBuffer ∧
      (sample_machine print_mode_t.PM_SCROLL_LINE 0 0 5).handle.lineOffset < 8 ∧
      (sample_machine print_mode_t.PM_SCROLL_LINE 0 0 5).handle.displayColumnOffset ≤ 3 ∧
      7 < 8 ∧ 15 < 16) ∧
    (oled_display_set_cursor sample_env (sample_machine print_mode_t.PM_SCROLL_LINE 0 0 5)
      7 15).bus = [⟨0, 60, [0x80, 0xB4, 0x80, 0x0A, 0x00, 0x17]⟩] :=
  ⟨⟨rfl, by decide, by decide, by decide, by decide, by decide⟩,
    (C11_set_cursor_burst sample_env (sample_machine print_mode_t.PM_SCROLL_LINE 0 0 5) 7 15
      rfl (by decide) (by decide) (by decide) (by decide) (by decide)).1⟩

/-- C12: every command transaction obeys the framing rule `command_frame`.  With the
command buffers holding their framing bytes: `_oled_display_send_opcode` writes the frame
of its single opcode; `_oled_display_send_parameter` writes the frame of its single opcode
followed by the parameter byte; the cursor-positioning transaction of
`oled_display_set_cursor` and the two of `oled_display_clear_line` are the frame of the
three opcodes page address, column address low, column address high. -/
theorem C12_command_framing (env : Env) (m : Machine) (hb : BuffersOk m) :
    (∀ o : Nat, (_oled_display_send_opcode env m o).bus =
      m.bus ++ [⟨m.handle.port, m.handle.address, command_frame [o]⟩]) ∧
    (∀ o p : Nat, (_oled_display_send_parameter env m o p).bus =
      m.bus ++ [⟨m.handle.port, m.handle.address, command_frame [o] ++ [p]⟩]) ∧
    (∀ l c : Nat, m.handle.displayConnected = true → l < 8 → c < 16 →
      (oled_display_set_cursor env m l c).bus =
        m.bus ++ [⟨m.handle.port, m.handle.address,
          command_frame
            [OPC_PAGE_ADDRESS ||| page_of m.handle.lineOffset l,
             OPC_COLUMN_ADDRESS_LOW |||
               (pixel_column m.handle.displayColumnOffset c &&& MASK_COLUMN_ADDRESS_LOW),
             OPC_COLUMN_ADDRESS_HIGH |||
               ((pixel_column m.handle.displayColumnOffset c &&& MASK_COLUMN_ADDRESS_HIGH)
                 >>> 4)]⟩]) ∧
    (∀ l : Nat, m.handle.displayConnected = true →
      (oled_display_clear_line env m l).bus =
        m.bus ++
        [⟨m.handle.port, m.handle.address,
          command_frame
            [OPC_PAGE_ADDRESS ||| page_of m.handle.lineOffset l,
             OPC_COLUMN_ADDRESS_LOW, OPC_COLUMN_ADDRESS_HIGH]⟩] ++
        List.replicate (sweep_bursts m.handle.chipType)
          ⟨m.handle.port, m.handle.address,
            PREFIX_DATA :: List.replicate (sweep_bytes m.handle.chipType) 0x00⟩ ++
        [⟨m.handle.port, m.handle.address,
          command_frame
            [OPC_PAGE_ADDRESS ||| page_of m.handle.lineOffset l,
             (OPC_COLUMN_ADDRESS_LOW ||| m.handle.displayColumnOffset) % 256,
             OPC_COLUMN_ADDRESS_HIGH]⟩]) := by
  refine ⟨?_, ?_, ?_, ?_⟩
  · intro o
    rw [send_opcode_eq env m o hb.1]
    rfl
  · intro o p
    rw [send_parameter_eq env m o p hb.1]
    rfl
  · intro l c hc hl hcol
    rw [set_cursor_bus env m l c hc hl hcol hb.2]
    rfl
  · intro l hc
    rw [clear_line_bus env m l hc hb.2]
    simp [clear_line_bursts, command_frame, position_command]

/-- Evaluation of C12 on the opcode and parameter transactions. -/
theorem C12_command_framing_witness :
    BuffersOk (sample_machine print_mode_t.PM_SCROLL_LINE 0 0 0) ∧
    (_oled_display_send_opcode sample_env (sample_machine print_mode_t.PM_SCROLL_LINE 0 0 0)
      OPC_MODE_INVERSE).bus = [⟨0, 60, [0x00, 0xA7]⟩] ∧
    (_oled_display_send_parameter sample_env
      (sample_machine print_mode_t.PM_SCROLL_LINE 0 0 0) OPC_SET_CONTRAST 0xCF).bus =
      [⟨0, 60, [0x00, 0x81, 0xCF]⟩] :=
  ⟨by decide,
    (C12_command_framing sample_env (sample_machine print_mode_t.PM_SCROLL_LINE 0 0 0)
      (by decide)).1 OPC_MODE_INVERSE,
    (C12_command_framing sample_env (sample_machine print_mode_t.PM_SCROLL_LINE 0 0 0)
      (by decide)).2.1 OPC_SET_CONTRAST 0xCF⟩

/-- C13, as stated, fails when the wrap is pending: printing `'X'` on a connected scrolling
display whose column is 16 performs the line advance first, so that seven data
transactions are written (six zero-fill transactions of the cleared line and the glyph)
among ten transactions in all, and the column ends at 1, not at 17. -/
theorem C13_wrap_pending_counterexample :
    (32 ≤ 88 ∧ 88 < 127) ∧
    (sample_machine print_mode_t.PM_SCROLL_LINE 0 16 0).handle.displayConnected = true ∧
    (sample_machine print_mode_t.PM_SCROLL_LINE 0 16 0).handle.textColumn = 16 ∧
    (oled_display_print_char sample_env
      (sample_machine print_mode_t.PM_SCROLL_LINE 0 16 0) 88).handle.textColumn = 1 ∧
    ((oled_display_print_char sample_env
      (sample_machine print_mode_t.PM_SCROLL_LINE 0 16 0) 88).bus.filter is_data_burst).length
      = 7 ∧
    (oled_display_print_char sample_env
      (sample_machine print_mode_t.PM_SCROLL_LINE 0 16 0) 88).bus.length = 10 := by
  decide

/-- C13 (amended): for every printable code `c` on a connected display, the last
transaction `oled_display_print_char` writes is the data transaction `0x40` followed by
the eight glyph bytes (font table entries `(c - 32) * 8 + i`, `i = 0..7`, each replaced by
its 8-bit complement exactly when the inverse font is selected).  With `textColumn < 16`
it is the only transaction written and the column increases by exactly 1; with
`textColumn ≥ 16` the transactions of the line advance precede it and the column ends
at 1. -/
theorem C13_glyph_burst (env : Env) (m : Machine) (c : Nat)
    (hc : m.handle.displayConnected = true) (h1 : 32 ≤ c) (h2 : c < 128) :
    (m.handle.textColumn < 16 →
      (oled_display_print_char env m c).bus =
        m.bus ++ [⟨m.handle.port, m.handle.address,
          0x40 :: glyph_bytes env m.handle.inverse c⟩] ∧
      (oled_display_print_char env m c).handle =
        { m.handle with textColumn := m.handle.textColumn + 1 }) ∧
    (16 ≤ m.handle.textColumn →
      (oled_display_print_char env m c).bus =
        (_oled_display_next_line env m false).bus ++ [⟨m.handle.port, m.handle.address,
          0x40 :: glyph_bytes env m.handle.inverse c⟩] ∧
      (oled_display_print_char env m c).handle =
        { (_oled_display_next_line env m false).handle with textColumn := 1 }) ∧
    (oled_display_print_char env m c).bus.getLast? =
      some ⟨m.handle.port, m.handle.address, 0x40 :: glyph_bytes env m.handle.inverse c⟩ ∧
    (glyph_bytes env m.handle.inverse c).length = 8 ∧
    glyph_bytes env false c =
      (List.range 8).map (fun i => env.font8x8_simple ((c - 32) * 8 + i) % 256) ∧
    glyph_bytes env true c = (glyph_bytes env false c).map (fun b => b ^^^ 255) := by
  have hg : glyph_burst env m.handle c =
      ⟨m.handle.port, m.handle.address, 0x40 :: glyph_bytes env m.handle.inverse c⟩ := by
    rw [glyph_burst, glyph_columns_eq_glyph_bytes env _ c h2]
  have hn := next_line_handle env m false hc
  have hgn : glyph_burst env (_oled_display_next_line env m false).handle c =
      glyph_burst env m.handle c := by
    rw [hn]; rfl
  have hlow : m.handle.textColumn < 16 →
      (oled_display_print_char env m c).bus =
        m.bus ++ [⟨m.handle.port, m.handle.address,
          0x40 :: glyph_bytes env m.handle.inverse c⟩] ∧
      (oled_display_print_char env m c).handle =
        { m.handle with textColumn := m.handle.textColumn + 1 } := by
    intro hcol
    rw [print_char_nowrap_eq env m c hc h1 h2 hcol, hg]
    exact ⟨rfl, rfl⟩
  have hhigh : 16 ≤ m.handle.textColumn →
      (oled_display_print_char env m c).bus =
        (_oled_display_next_line env m false).bus ++ [⟨m.handle.port, m.handle.address,
          0x40 :: glyph_bytes env m.handle.inverse c⟩] ∧
      (oled_display_print_char env m c).handle =
        { (_oled_display_next_line env m false).handle with textColumn := 1 } := by
    intro hcol
    rw [print_char_wrap_eq env m c hc h1 h2 hcol, hgn, hg]
    exact ⟨rfl, rfl⟩
  refine ⟨hlow, hhigh, ?_, ?_, rfl, ?_⟩
  · by_cases hcol : m.handle.textColumn < 16
    · rw [(hlow hcol).1, List.getLast?_append]
      rfl
    · rw [(hhigh (by omega)).1, List.getLast?_append]
      rfl
  · simp [glyph_bytes]
  · simp only [glyph_bytes, List.map_map]
    apply List.map_congr_left
    intro i _
    simp only [Function.comp_apply, if_true, Bool.false_eq_true, if_false]
    exact complement_eq_xor _ (Nat.mod_lt _ (by decide))

/-- Evaluation of the amended C13 for `'X'` at column 3 and at column 16. -/
theorem C13_glyph_burst_witness :
    ((sample_machine print_mode_t.PM_SCROLL_LINE 0 3 0).handle.displayConnected = true ∧
      32 ≤ 88 ∧ 88 < 128 ∧
      (sample_machine print_mode_t.PM_SCROLL_LINE 0 3 0).handle.textColumn < 16 ∧
      16 ≤ (sample_machine print_mode_t.PM_SCROLL_LINE 0 16 0).handle.textColumn) ∧
    (oled_display_print_char sample_env
      (sample_machine print_mode_t.PM_SCROLL_LINE 0 3 0) 88).bus =
      [⟨0, 60, [0x40, 192, 193, 194, 195, 196, 197, 198, 199]⟩] ∧
    (oled_display_print_char sample_env
      (sample_machine print_mode_t.PM_SCROLL_LINE 0 16 0) 88).handle =
      { (_oled_display_next_line sample_env
          (sample_machine print_mode_t.PM_SCROLL_LINE 0 16 0) false).handle with
        textColumn := 1 } :=
  ⟨⟨rfl, by decide, by decide, by decide, by decide⟩,
    ((C13_glyph_burst sample_env (sample_machine print_mode_t.PM_SCROLL_LINE 0 3 0) 88
      rfl (by decide) (by decide)).1 (by decide)).1,
    ((C13_glyph_burst sample_env (sample_machine print_mode_t.PM_SCROLL_LINE 0 16 0) 88
      rfl (by decide) (by decide)).2.1 (by decide)).2⟩

/-- C14: `oled_display_clear_line` on a connected display first writes the positioning
transaction for pixel column 0 of the row's page (column bytes `0x00` and `0x10`,
whatever the column offset), then exactly `N` data transactions of `0x40` followed by `M`
zero bytes, with `(N, M) = (8, 16)` on the SSD1306 and `(6, 22)` on the SH1106, and then
one more positioning transaction.  `N * M` is the pixel width 128 resp. 132, and a data
transaction (control byte and `M` zero bytes, also counting the address byte) stays below
31 bytes.  For `row < 8` and `lineOffset < 8` the page is `(row + lineOffset) mod 8`. -/
theorem C14_clear_line_sweep (env : Env) (m : Machine) (row : Nat)
    (hc : m.handle.displayConnected = true)
    (hb : PositionBufferOk m.g_arusPositionCommandBuffer) :
    (∃ last : Burst,
      (oled_display_clear_line env m row).bus =
        m.bus ++
        [⟨m.handle.port, m.handle.address,
          [0x80, 0xB0 ||| page_of m.handle.lineOffset row, 0x80, 0x00, 0x00, 0x10]⟩] ++
        List.replicate (sweep_bursts m.handle.chipType)
          ⟨m.handle.port, m.handle.address,
            0x40 :: List.replicate (sweep_bytes m.handle.chipType) 0x00⟩ ++
        [last] ∧
      is_data_burst last = false) ∧
    (sweep_bursts m.handle.chipType, sweep_bytes m.handle.chipType) =
      (match m.handle.chipType with
       | chip_type_t.CHIP_TYPE_SSD1306 => (8, 16)
       | chip_type_t.CHIP_TYPE_SH1106 => (6, 22)) ∧
    sweep_bursts m.handle.chipType * sweep_bytes m.handle.chipType =
      (match m.handle.chipType with
       | chip_type_t.CHIP_TYPE_SSD1306 => 128
       | chip_type_t.CHIP_TYPE_SH1106 => 132) ∧
    (0x40 :: List.replicate (sweep_bytes m.handle.chipType) 0x00).length + 1 < 31 ∧
    (row < 8 → m.handle.lineOffset < 8 →
      page_of m.handle.lineOffset row = (row + m.handle.lineOffset) % 8) := by
  refine ⟨⟨⟨m.handle.port, m.handle.address,
      position_command (OPC_PAGE_ADDRESS ||| page_of m.handle.lineOffset row)
        ((OPC_COLUMN_ADDRESS_LOW ||| m.handle.displayColumnOffset) % 256)
        OPC_COLUMN_ADDRESS_HIGH⟩, ?_, ?_⟩, ?_, ?_, ?_, ?_⟩
  · rw [clear_line_bus env m row hc hb]
    simp [clear_line_bursts, position_command]
  · simp [is_data_burst, position_command]
  · cases m.handle.chipType <;> rfl
  · cases m.handle.chipType <;> rfl
  · cases m.handle.chipType <;> simp [sweep_bytes]
  · intro hl ho
    exact page_of_eq_mod _ _ hl ho

/-- Evaluation of C14 on an SH1106 for row 3. -/
theorem C14_clear_line_sweep_witness :
    ((sample_machine print_mode_t.PM_SCROLL_LINE 0 0 0).handle.displayConnected = true ∧
      PositionBufferOk
        (sample_machine print_mode_t.PM_SCROLL_LINE 0 0 0).g_arusPositionCommandBuffer) ∧
    sweep_bursts (sample_machine print_mode_t.PM_SCROLL_LINE 0 0 0).handle.chipType *
      sweep_bytes (sample_machine print_mode_t.PM_SCROLL_LINE 0 0 0).handle.chipType = 132 :=
  ⟨⟨rfl, by decide⟩,
    (C14_clear_line_sweep sample_env (sample_machine print_mode_t.PM_SCROLL_LINE 0 0 0) 3
      rfl (by decide)).2.2.1⟩

/-- C15: for `row < 8` on a connected display with `lineOffset < 8` and
`displayColumnOffset ≤ 3`, `oled_display_clear_line` leaves the handle with `textLine =
row`, `textColumn = 0` and every other field unchanged, and the last transaction it
writes is the transaction `[0x80, 0xB0 | page, 0x80, displayColumnOffset, 0x00, 0x10]`
that `oled_display_set_cursor env · row 0` writes, both in the state before and in the
state after the call. -/
theorem C15_clear_line_repositions (env : Env) (m : Machine) (row : Nat)
    (hc : m.handle.displayConnected = true)
    (hb : PositionBufferOk m.g_arusPositionCommandBuffer)
    (hl : row < 8) (ho : m.handle.lineOffset < 8) (hco : m.handle.displayColumnOffset ≤ 3) :
    (oled_display_clear_line env m row).handle =
      { m.handle with textLine := row, textColumn := 0 } ∧
    (oled_display_clear_line env m row).bus.getLast? =
      some ⟨m.handle.port, m.handle.address,
        [0x80, 0xB0 ||| ((row + m.handle.lineOffset) % 8), 0x80,
          m.handle.displayColumnOffset, 0x00, 0x10]⟩ ∧
    (oled_display_clear_line env m row).bus.getLast? =
      (oled_display_set_cursor env m row 0).bus.getLast? ∧
    (oled_display_clear_line env m row).bus.getLast? =
      (oled_display_set_cursor env (oled_display_clear_line env m row) row 0).bus.getLast? := by
  have hh : (oled_display_clear_line env m row).handle =
      { m.handle with textLine := row, textColumn := 0 } := by
    rw [clear_line_handle, if_pos hc]
  have hcb : cursor_burst m.handle row 0 =
      ⟨m.handle.port, m.handle.address,
        [0x80, 0xB0 ||| ((row + m.handle.lineOffset) % 8), 0x80,
          m.handle.displayColumnOffset, 0x00, 0x10]⟩ := by
    obtain ⟨_, h2, h3⟩ := pixel_column_nibbles m.handle.displayColumnOffset 0 hco (by decide)
    rw [cursor_burst, page_of_eq_mod _ _ hl ho, h2, h3]
    have e1 : (0 * 8 + m.handle.displayColumnOffset) % 16 = m.handle.displayColumnOffset := by
      omega
    have e2 : (0 * 8 + m.handle.displayColumnOffset) / 16 = 0 := by omega
    rw [e1, e2]
    simp [position_command]
  have hlast : (oled_display_clear_line env m row).bus.getLast? =
      some ⟨m.handle.port, m.handle.address,
        [0x80, 0xB0 ||| ((row + m.handle.lineOffset) % 8), 0x80,
          m.handle.displayColumnOffset, 0x00, 0x10]⟩ := by
    rw [clear_line_bus env m row hc hb, clear_line_bursts, ← List.append_assoc,
      List.getLast?_append, page_of_eq_mod _ _ hl ho]
    have e : (OPC_COLUMN_ADDRESS_LOW ||| m.handle.displayColumnOffset) % 256 =
        m.handle.displayColumnOffset := by
      simp only [OPC_COLUMN_ADDRESS_LOW, Nat.zero_or]
      omega
    rw [e]
    rfl
  refine ⟨hh, hlast, ?_, ?_⟩
  · rw [hlast, set_cursor_bus env m row 0 hc hl (by decide) hb, List.getLast?_append, hcb]
    rfl
  · have hpb : PositionBufferOk
        (oled_display_clear_line env m row).g_arusPositionCommandBuffer := by
      rw [clear_line_eq env m row hc hb]
      exact position_command_ok _ _ _
    have hc2 : (oled_display_clear_line env m row).handle.displayConnected = true := by
      rw [hh]; exact hc
    have hcb2 : cursor_burst (oled_display_clear_line env m row).handle row 0 =
        cursor_burst m.handle row 0 := by
      rw [hh]; rfl
    rw [hlast, set_cursor_bus env _ row 0 hc2 hl (by decide) hpb, List.getLast?_append,
      hcb2, hcb]
    rfl

/-- Evaluation of C15 on an SH1106 for row 7 with line offset 6. -/
theorem C15_clear_line_repositions_witness :
    ((sample_machine print_mode_t.PM_SCROLL_LINE 2 9 6).handle.displayConnected = true ∧
      PositionBufferOk
        (sample_machine print_mode_t.PM_SCROLL_LINE 2 9 6).g_arusPositionCommandBuffer ∧
      7 < 8 ∧ (sample_machine print_mode_t.PM_SCROLL_LINE 2 9 6).handle.lineOffset < 8 ∧
      (sample_machine print_mode_t.PM_SCROLL_LINE 2 9 6).handle.displayColumnOffset ≤ 3) ∧
    (oled_display_clear_line sample_env
      (sample_machine print_mode_t.PM_SCROLL_LINE 2 9 6) 7).bus.getLast? =
      (oled_display_set_cursor sample_env
        (sample_machine print_mode_t.PM_SCROLL_LINE 2 9 6) 7 0).bus.getLast? :=
  ⟨⟨rfl, by decide, by decide, by decide, by decide⟩,
    (C15_clear_line_repositions sample_env (sample_machine print_mode_t.PM_SCROLL_LINE 2 9 6) 7
      rfl (by decide) (by decide) (by decide) (by decide)).2.2.1⟩

/-- C16: on a connected display, whatever the prior line, column and line offset,
`oled_display_clear` leaves `textLine = 0`, `textColumn = 0`, `lineOffset = 0` and every
other field of the handle unchanged; it writes the clear sequences of the lines 0..7
(under the old line offset), then the register write `[0x00, 0xD3, 0x00]`, then the
positioning transaction for the home position under line offset 0. -/
theorem C16_clear_resets (env : Env) (m : Machine)
    (hc : m.handle.displayConnected = true) (hb : BuffersOk m) :
    (oled_display_clear env m).handle =
      { m.handle with textLine := 0, textColumn := 0, lineOffset := 0 } ∧
    (oled_display_clear env m).bus =
      m.bus ++
      (clear_line_bursts m.handle 0 ++ clear_line_bursts m.handle 1 ++
        clear_line_bursts m.handle 2 ++ clear_line_bursts m.handle 3 ++
        clear_line_bursts m.handle 4 ++ clear_line_bursts m.handle 5 ++
        clear_line_bursts m.handle 6 ++ clear_line_bursts m.handle 7) ++
      [⟨m.handle.port, m.handle.address, [0x00, 0xD3, 0x00]⟩] ++
      [cursor_burst { m.handle with lineOffset := 0 } 0 0] ∧
    (∀ l : Nat, (oled_display_clear_line env m l).bus = m.bus ++ clear_line_bursts m.handle l) ∧
    (cursor_burst { m.handle with lineOffset := 0 } 0 0).bytes.take 2 = [0x80, 0xB0] := by
  refine ⟨clear_handle env m hc, ?_, fun l => clear_line_bus env m l hc hb.2, ?_⟩
  · rw [clear_bus env m hc hb]
    simp [clear_loop_bursts]
  · simp [cursor_burst, position_command, page_of, TEXT_LINES]

/-- Evaluation of C16 on a display at line 5, column 9 with line offset 3. -/
theorem C16_clear_resets_witness :
    ((sample_machine print_mode_t.PM_SCROLL_LINE 5 9 3).handle.displayConnected = true ∧
      BuffersOk (sample_machine print_mode_t.PM_SCROLL_LINE 5 9 3)) ∧
    (oled_display_clear sample_env (sample_machine print_mode_t.PM_SCROLL_LINE 5 9 3)).handle =
      { (sample_machine print_mode_t.PM_SCROLL_LINE 5 9 3).handle with
        textLine := 0, textColumn := 0, lineOffset := 0 } :=
  ⟨⟨rfl, by decide⟩,
    (C16_clear_resets sample_env (sample_machine print_mode_t.PM_SCROLL_LINE 5 9 3)
      rfl (by decide)).1⟩

/-- C17: for `lineOffset < 8`, `_oled_display_shift_display_one_line` sets `lineOffset` to
`(lineOffset + 1) mod 8`, leaves every other field of the handle unchanged, and writes
exactly one command transaction `[0x00, 0xD3, v]` whose value `v` is the new line offset
times 8, one of 0, 8, ..., 56. -/
theorem C17_shift_one_line (env : Env) (m : Machine)
    (hb : DisplayBufferOk m.g_displayCommandBuffer) (ho : m.handle.lineOffset < 8) :
    (_oled_display_shift_display_one_line env m).handle =
      { m.handle with lineOffset := (m.handle.lineOffset + 1) % 8 } ∧
    (_oled_display_shift_display_one_line env m).bus =
      m.bus ++ [⟨m.handle.port, m.handle.address,
        [0x00, 0xD3, ((m.handle.lineOffset + 1) % 8) * 8]⟩] ∧
    ((m.handle.lineOffset + 1) % 8) * 8 ∈ [0, 8, 16, 24, 32, 40, 48, 56] := by
  have hlo : (if TEXT_LINES ≤ (m.handle.lineOffset + 1) % 256 then 0
      else (m.handle.lineOffset + 1) % 256) = (m.handle.lineOffset + 1) % 8 := by
    simp only [TEXT_LINES]
    split <;> omega
  refine ⟨?_, ?_, ?_⟩
  · rw [shift_handle, hlo]
  · unfold _oled_display_shift_display_one_line
    simp only
    rw [send_parameter_eq env _ _ _ (by exact hb), hlo]
    have hv : (((m.handle.lineOffset + 1) % 8) <<< 3) % 256 =
        ((m.handle.lineOffset + 1) % 8) * 8 := by
      rw [Nat.shiftLeft_eq]; omega
    simp only [hv]
  · generalize m.handle.lineOffset = o at ho
    interval_cases o <;> decide

/-- Evaluation of C17 at line offset 7. -/
theorem C17_shift_one_line_witness :
    (DisplayBufferOk
        (sample_machine print_mode_t.PM_SCROLL_LINE 7 0 7).g_displayCommandBuffer ∧
      (sample_machine print_mode_t.PM_SCROLL_LINE 7 0 7).handle.lineOffset < 8) ∧
    (_oled_display_shift_display_one_line sample_env
      (sample_machine print_mode_t.PM_SCROLL_LINE 7 0 7)).bus =
      [⟨0, 60, [0x00, 0xD3, 0]⟩] :=
  ⟨⟨by decide, by decide⟩,
    (C17_shift_one_line sample_env (sample_machine print_mode_t.PM_SCROLL_LINE 7 0 7)
      (by decide) (by decide)).2.1⟩

/-- C18: `oled_display_init` with a requested address other than 60, 61 and 255 returns
status 1, leaves `displayConnected = false` and writes nothing to the bus, for every chip
type and every prior state. -/
theorem C18_init_invalid_address (env : Env) (m : Machine) (port : Nat) (chip : chip_type_t)
    (address : Nat) (h60 : address ≠ 60) (h61 : address ≠ 61) (h255 : address ≠ 255) :
    (oled_display_init env m port chip address).2 = 1 ∧
    (oled_display_init env m port chip address).1.handle.displayConnected = false ∧
    (oled_display_init env m port chip address).1.bus = m.bus := by
  have hg : DISPLAY_ADDRESS_ONE ≠ address ∧ DISPLAY_ADDRESS_TWO ≠ address
      ∧ DISPLAY_ADDRESS_DEFAULT ≠ address :=
    ⟨fun h => h60 h.symm, fun h => h61 h.symm, fun h => h255 h.symm⟩
  unfold oled_display_init
  simp only [if_pos hg]
  exact ⟨trivial, trivial, trivial⟩

/-- Evaluation of C18 at address 62. -/
theorem C18_init_invalid_address_witness :
    ((62 : Nat) ≠ 60 ∧ (62 : Nat) ≠ 61 ∧ (62 : Nat) ≠ 255) ∧
    (oled_display_init sample_env power_on_machine 0 chip_type_t.CHIP_TYPE_SSD1306 62).2 = 1 :=
  ⟨by decide,
    (C18_init_invalid_address sample_env power_on_machine 0 chip_type_t.CHIP_TYPE_SSD1306 62
      (by decide) (by decide) (by decide)).1⟩

/-- C19, as stated, fails: with a bus driver that acknowledges the probe of address 60 but
not its repetition, `oled_display_init` with address 255 returns status 2 although a
probe was acknowledged; it has written the probe of address 60 twice and never probed
address 61. -/
theorem C19_acknowledged_probe_yet_not_found :
    first_only_env.transport power_on_machine.bus (probe 0 DISPLAY_ADDRESS_ONE) = true ∧
    (oled_display_init first_only_env power_on_machine 0 chip_type_t.CHIP_TYPE_SH1106
      DISPLAY_ADDRESS_DEFAULT).2 = 2 ∧
    (oled_display_init first_only_env power_on_machine 0 chip_type_t.CHIP_TYPE_SH1106
      DISPLAY_ADDRESS_DEFAULT).1.bus =
      [probe 0 DISPLAY_ADDRESS_ONE, probe 0 DISPLAY_ADDRESS_ONE] := by
  decide

/-- C19 (amended): `oled_display_init` with address 255 probes address 60 and, only when
that is not acknowledged, address 61, each with a zero-length write.  When neither is
acknowledged it returns status 2 after these two probes.  Otherwise it repeats the probe
at the first of 60, 61 that acknowledged, and it returns status 0, with that address
stored and the display connected, if and only if the repeated probe is acknowledged too;
if not, it returns status 2 with nothing else written and the display not connected. -/
theorem C19_init_auto_probe (env : Env) (m : Machine) (port : Nat) (chip : chip_type_t) :
    (env.transport m.bus (probe port 60) = false →
      env.transport (m.bus ++ [probe port 60]) (probe port 61) = false →
      (oled_display_init env m port chip 255).2 = 2 ∧
      (oled_display_init env m port chip 255).1.bus =
        m.bus ++ [probe port 60, probe port 61] ∧
      (oled_display_init env m port chip 255).1.handle.displayConnected = false) ∧
    (env.transport m.bus (probe port 60) = true →
      m.bus ++ [probe port 60, probe port 60] <+: (oled_display_init env m port chip 255).1.bus ∧
      ((oled_display_init env m port chip 255).2 = 0 ↔
        env.transport (m.bus ++ [probe port 60]) (probe port 60) = true) ∧
      ((oled_display_init env m port chip 255).2 = 0 →
        (oled_display_init env m port chip 255).1.handle.address = 60 ∧
        (oled_display_init env m port chip 255).1.handle.displayConnected = true) ∧
      ((oled_display_init env m port chip 255).2 ≠ 0 →
        (oled_display_init env m port chip 255).2 = 2 ∧
        (oled_display_init env m port chip 255).1.bus =
          m.bus ++ [probe port 60, probe port 60] ∧
        (oled_display_init env m port chip 255).1.handle.displayConnected = false)) ∧
    (env.transport m.bus (probe port 60) = false →
      env.transport (m.bus ++ [probe port 60]) (probe port 61) = true →
      m.bus ++ [probe port 60, probe port 61, probe port 61] <+:
        (oled_display_init env m port chip 255).1.bus ∧
      ((oled_display_init env m port chip 255).2 = 0 ↔
        env.transport (m.bus ++ [probe port 60, probe port 61]) (probe port 61) = true) ∧
      ((oled_display_init env m port chip 255).2 = 0 →
        (oled_display_init env m port chip 255).1.handle.address = 61 ∧
        (oled_display_init env m port chip 255).1.handle.displayConnected = true) ∧
      ((oled_display_init env m port chip 255).2 ≠ 0 →
        (oled_display_init env m port chip 255).2 = 2 ∧
        (oled_display_init env m port chip 255).1.bus =
          m.bus ++ [probe port 60, probe port 61, probe port 61] ∧
        (oled_display_init env m port chip 255).1.handle.displayConnected = false)) := by
  rw [init_auto_eq]
  refine ⟨?_, ?_, ?_⟩
  · intro hA hB
    simp [hA, hB, init_handle]
  · intro hA
    rw [if_pos hA]
    have h := init_connect_outcome env
      { m with handle := init_handle port chip 255, bus := m.bus ++ [probe port 60] }
      port chip 60 rfl
    simpa using h
  · intro hA hB
    rw [if_neg (by simp [hA]), if_pos hB]
    have h := init_connect_outcome env
      { m with
        handle := init_handle port chip 255
        bus := m.bus ++ [probe port 60, probe port 61] }
      port chip 61 rfl
    simpa using h

/-- Evaluation of the amended C19 with a bus driver that acknowledges nothing. -/
theorem C19_init_auto_probe_witness :
    (silent_env.transport power_on_machine.bus (probe 0 60) = false ∧
      silent_env.transport (power_on_machine.bus ++ [probe 0 60]) (probe 0 61) = false) ∧
    (oled_display_init silent_env power_on_machine 0 chip_type_t.CHIP_TYPE_SH1106 255).2 = 2 ∧
    (oled_display_init silent_env power_on_machine 0 chip_type_t.CHIP_TYPE_SH1106 255).1.bus =
      power_on_machine.bus ++ [probe 0 60, probe 0 61] :=
  ⟨⟨rfl, rfl⟩,
    ((C19_init_auto_probe silent_env power_on_machine 0 chip_type_t.CHIP_TYPE_SH1106).1
      rfl rfl).1,
    ((C19_init_auto_probe silent_env power_on_machine 0 chip_type_t.CHIP_TYPE_SH1106).1
      rfl rfl).2.1⟩

/-- C20: `oled_display_init` with address 60 or 61 whose zero-length probe is not
acknowledged returns status 2, leaves `displayConnected = false`, and has written the
probe and nothing else (no initialisation and no clear transactions). -/
theorem C20_init_explicit_not_found (env : Env) (m : Machine) (port : Nat)
    (chip : chip_type_t) (address : Nat) (ha : address = 60 ∨ address = 61)
    (hn : env.transport m.bus (probe port address) = false) :
    (oled_display_init env m port chip address).2 = 2 ∧
    (oled_display_init env m port chip address).1.handle.displayConnected = false ∧
    (oled_display_init env m port chip address).1.bus = m.bus ++ [probe port address] := by
  rw [init_explicit_eq env m port chip address ha,
    init_connect_nack env _ port chip address (by exact hn)]
  exact ⟨rfl, rfl, rfl⟩

/-- Evaluation of C20 at address 61 with a bus driver that acknowledges nothing. -/
theorem C20_init_explicit_not_found_witness :
    (((61 : Nat) = 60 ∨ (61 : Nat) = 61) ∧
      silent_env.transport power_on_machine.bus (probe 0 61) = false) ∧
    (oled_display_init silent_env power_on_machine 0 chip_type_t.CHIP_TYPE_SSD1306 61).2 = 2 ∧
    (oled_display_init silent_env power_on_machine 0
      chip_type_t.CHIP_TYPE_SSD1306 61).1.bus = [probe 0 61] :=
  ⟨⟨by decide, rfl⟩,
    (C20_init_explicit_not_found silent_env power_on_machine 0 chip_type_t.CHIP_TYPE_SSD1306 61
      (by decide) rfl).1,
    (C20_init_explicit_not_found silent_env power_on_machine 0 chip_type_t.CHIP_TYPE_SSD1306 61
      (by decide) rfl).2.2⟩

/-- C21: whenever `oled_display_init` returns 0, the handle it leaves has
`displayConnected = true`, `textLine = 0`, `textColumn = 0`, `lineOffset = 0`,
`printMode = PM_SCROLL_LINE`, `inverse = false`, `displayColumnOffset = 0` on the SSD1306
and 2 on the SH1106, the given port and chip type, and address 60 or 61.  What it wrote
is, in order: zero-length presence writes, the power-on sequence of the chip, the six
home / display-on / orientation opcodes, and the transactions of a full
`oled_display_clear` (those a further `oled_display_clear` would write again). -/
theorem C21_init_success (env : Env) (m0 m : Machine) (port : Nat) (chip : chip_type_t)
    (address : Nat) (hb : BuffersOk m0)
    (hinit : oled_display_init env m0 port chip address = (m, 0)) :
    m.handle =
      { port := port, chipType := chip, address := m.handle.address
        printMode := print_mode_t.PM_SCROLL_LINE
        displayColumnOffset := if chip_type_t.CHIP_TYPE_SSD1306 = chip then 0 else 2
        textLine := 0, textColumn := 0, lineOffset := 0
        displayConnected := true, inverse := false } ∧
    (m.handle.address = 60 ∨ m.handle.address = 61) ∧
    (∃ probes : List Burst, (∀ b ∈ probes, b.bytes = []) ∧
      m.bus = m0.bus ++ probes ++
        command_bursts m.handle (power_on_commands chip) ++
        command_bursts m.handle init_home_commands ++
        clear_bursts m.handle) ∧
    (oled_display_clear env m).bus = m.bus ++ clear_bursts m.handle := by
  have h0 : (oled_display_init env m0 port chip address).2 = 0 := by rw [hinit]
  obtain ⟨probes, a, hpr, ha, heq⟩ := init_success_connect env m0 port chip address h0
  have hbm : BuffersOk (oled_display_init env m0 port chip address).1 :=
    (init_success env m0 port chip address hb h0).2
  rw [heq] at h0
  obtain ⟨hh, hbus⟩ := init_connect_success_full env _ port chip address a (by exact hb) rfl h0
  rw [← heq, hinit] at hh hbus
  rw [hinit] at hbm
  simp only at hh hbus hbm
  have haddr : m.handle.address = a := by rw [hh]
  refine ⟨?_, ?_, ⟨probes ++ [probe port a], ?_, ?_⟩, ?_⟩
  · rw [hh]
  · rw [haddr]; exact ha
  · intro b hbmem
    rcases List.mem_append.1 hbmem with h | h
    · exact hpr b h
    · rw [List.mem_singleton.1 h]; rfl
  · rw [hbus]
    simp
  · exact clear_bus_eq env m (by rw [hh]) hbm

/-- Evaluation of C21 for an SH1106 found by address probing. -/
theorem C21_init_success_witness :
    (BuffersOk power_on_machine ∧
      oled_display_init sample_env power_on_machine 0 chip_type_t.CHIP_TYPE_SH1106
          DISPLAY_ADDRESS_DEFAULT =
        ((oled_display_init sample_env power_on_machine 0 chip_type_t.CHIP_TYPE_SH1106
          DISPLAY_ADDRESS_DEFAULT).1, 0)) ∧
    ((oled_display_init sample_env power_on_machine 0 chip_type_t.CHIP_TYPE_SH1106
        DISPLAY_ADDRESS_DEFAULT).1.handle.address = 60 ∨
      (oled_display_init sample_env power_on_machine 0 chip_type_t.CHIP_TYPE_SH1106
        DISPLAY_ADDRESS_DEFAULT).1.handle.address = 61) :=
  ⟨⟨by decide, Prod.ext rfl (by decide)⟩,
    (C21_init_success sample_env power_on_machine
      (oled_display_init sample_env power_on_machine 0 chip_type_t.CHIP_TYPE_SH1106
        DISPLAY_ADDRESS_DEFAULT).1 0 chip_type_t.CHIP_TYPE_SH1106 DISPLAY_ADDRESS_DEFAULT
      (by decide) (Prod.ext rfl (by decide))).2.1⟩

/-- C22: when `oled_display_init` with address 255 finds neither probe acknowledged, it
returns status 2 and any sequence of later public calls other than `oled_display_init`
writes nothing: the bus record stays the one `oled_display_init` left (the old record
and the two probes), and the display stays not connected. -/
theorem C22_no_writes_after_failed_auto_init (env : Env) (m0 : Machine) (port : Nat)
    (chip : chip_type_t) (calls : List PublicCall)
    (hA : env.transport m0.bus (probe port 60) = false)
    (hB : env.transport (m0.bus ++ [probe port 60]) (probe port 61) = false) :
    (oled_display_init env m0 port chip 255).2 = 2 ∧
    (run_calls env (oled_display_init env m0 port chip 255).1 calls).bus =
      (oled_display_init env m0 port chip 255).1.bus ∧
    (run_calls env (oled_display_init env m0 port chip 255).1 calls).bus =
      m0.bus ++ [probe port 60, probe port 61] ∧
    (run_calls env (oled_display_init env m0 port chip 255).1 calls).handle.displayConnected =
      false := by
  have hi : oled_display_init env m0 port chip 255 =
      ({ m0 with
          handle := init_handle port chip 255
          bus := m0.bus ++ [probe port 60, probe port 61] }, 2) := by
    rw [init_auto_eq]
    simp [hA, hB]
  rw [hi]
  obtain ⟨h1, h2⟩ := disconnected_run env calls
    { m0 with
      handle := init_handle port chip 255
      bus := m0.bus ++ [probe port 60, probe port 61] } rfl
  exact ⟨rfl, h1, h1, h2⟩

/-- Evaluation of C22 with a bus driver that acknowledges nothing, for a print, a clear
and a flip. -/
theorem C22_no_writes_after_failed_auto_init_witness :
    (silent_env.transport power_on_machine.bus (probe 0 60) = false ∧
      silent_env.transport (power_on_machine.bus ++ [probe 0 60]) (probe 0 61) = false) ∧
    (run_calls silent_env
      (oled_display_init silent_env power_on_machine 0 chip_type_t.CHIP_TYPE_SH1106 255).1
      [PublicCall.print [72, 105], PublicCall.clear, PublicCall.flip true]).bus =
      power_on_machine.bus ++ [probe 0 60, probe 0 61] :=
  ⟨⟨rfl, rfl⟩,
    (C22_no_writes_after_failed_auto_init silent_env power_on_machine 0
      chip_type_t.CHIP_TYPE_SH1106
      [PublicCall.print [72, 105], PublicCall.clear, PublicCall.flip true] rfl rfl).2.2.1⟩

/-- C24 fails on the code: after a successful `oled_display_init`, `oled_display_clear_line`
with the 8-bit argument 8 (resp. 200) stores the argument unchecked, so the state has
`textLine = 8` (resp. 200), outside the text lines 0..7; for the argument 16 the position
command it sent last addresses page 8 (page byte `0xB8`). -/
theorem C24_clear_line_stores_any_line :
    (oled_display_init sample_env power_on_machine 0 chip_type_t.CHIP_TYPE_SH1106 255).2 = 0 ∧
    (oled_display_clear_line sample_env
      (oled_display_init sample_env power_on_machine 0
        chip_type_t.CHIP_TYPE_SH1106 255).1 8).handle.textLine = 8 ∧
    (oled_display_clear_line sample_env
      (oled_display_init sample_env power_on_machine 0
        chip_type_t.CHIP_TYPE_SH1106 255).1 200).handle.textLine = 200 ∧
    (oled_display_clear_line sample_env
      (oled_display_init sample_env power_on_machine 0
        chip_type_t.CHIP_TYPE_SH1106 255).1 16).g_arusPositionCommandBuffer =
      [0x80, 0xB8, 0x80, 0x02, 0x00, 0x10] :=
  ⟨by decide, by decide, by decide, by decide⟩

/-- C25: `lineOffset < 8` holds in every state reachable from `oled_display_init`
(whatever its status) by any sequence of public calls with any arguments. -/
theorem C25_line_offset_invariant (env : Env) (m : Machine) (hr : Reachable env m) :
    m.handle.lineOffset < 8 ∧
    ∀ calls : List PublicCall, (run_calls env m calls).handle.lineOffset < 8 :=
  ⟨(reachable_inv env m hr).1,
    fun calls => (reachable_inv env _ (reachable_run env calls m hr)).1⟩

/-- Evaluation of C25 after a successful init followed by nine newlines. -/
theorem C25_line_offset_invariant_witness :
    (run_calls sample_env
      (oled_display_init sample_env power_on_machine 0 chip_type_t.CHIP_TYPE_SH1106 255).1
      (List.replicate 9 (PublicCall.print_char 10))).handle.lineOffset < 8 :=
  (C25_line_offset_invariant sample_env _
    (Reachable.init power_on_machine 0 chip_type_t.CHIP_TYPE_SH1106 255)).2
    (List.replicate 9 (PublicCall.print_char 10))

/-- C26: in every state reachable from `oled_display_init` (successful or failed) by any
sequence of public calls with any arguments, `displayColumnOffset ≤ 3`, and
`displayColumnOffset = 0` whenever the chip is the SSD1306. -/
theorem C26_column_offset_invariant (env : Env) (m : Machine) (hr : Reachable env m) :
    m.handle.displayColumnOffset ≤ 3 ∧
    (m.handle.chipType = chip_type_t.CHIP_TYPE_SSD1306 → m.handle.displayColumnOffset = 0) ∧
    ∀ calls : List PublicCall,
      (run_calls env m calls).handle.displayColumnOffset ≤ 3 ∧
      ((run_calls env m calls).handle.chipType = chip_type_t.CHIP_TYPE_SSD1306 →
        (run_calls env m calls).handle.displayColumnOffset = 0) :=
  ⟨(reachable_inv env m hr).2.2.1, (reachable_inv env m hr).2.2.2,
    fun calls => (reachable_inv env _ (reachable_run env calls m hr)).2.2⟩

/-- Evaluation of C26 after a failed init of an SSD1306 followed by two offset requests. -/
theorem C26_column_offset_invariant_witness :
    (run_calls silent_env
      (oled_display_init silent_env power_on_machine 0 chip_type_t.CHIP_TYPE_SSD1306 60).1
      [PublicCall.set_display_column_offset 3,
        PublicCall.set_display_column_offset 200]).handle.displayColumnOffset ≤ 3 :=
  ((C26_column_offset_invariant silent_env _
    (Reachable.init power_on_machine 0 chip_type_t.CHIP_TYPE_SSD1306 60)).2.2
    [PublicCall.set_display_column_offset 3, PublicCall.set_display_column_offset 200]).1

/-- C27: `oled_display_set_display_column_offset` with `n ≤ 3` stores `n` on the SH1106
and 0 on the SSD1306; with `n > 3` it changes nothing.  In every case all other fields of
the handle, the command buffers and the bus record are unchanged. -/
theorem C27_set_display_column_offset (m : Machine) (n : Nat) :
    (n ≤ 3 → m.handle.chipType = chip_type_t.CHIP_TYPE_SH1106 →
      oled_display_set_display_column_offset m n =
        { m with handle := { m.handle with displayColumnOffset := n } }) ∧
    (n ≤ 3 → m.handle.chipType = chip_type_t.CHIP_TYPE_SSD1306 →
      oled_display_set_display_column_offset m n =
        { m with handle := { m.handle with displayColumnOffset := 0 } }) ∧
    (3 < n → oled_display_set_display_column_offset m n = m) ∧
    (oled_display_set_display_column_offset m n).bus = m.bus := by
  unfold oled_display_set_display_column_offset
  refine ⟨?_, ?_, ?_, ?_⟩
  · intro hn hch
    have hn2 : DISPLAY_COLUMN_OFFSET_MAX ≥ n := hn
    rw [if_pos hn2, if_neg (by rw [hch]; decide)]
  · intro hn hch
    have hn2 : DISPLAY_COLUMN_OFFSET_MAX ≥ n := hn
    rw [if_pos hn2, if_pos hch.symm]
  · intro hn
    have hn2 : ¬ (DISPLAY_COLUMN_OFFSET_MAX ≥ n) := by
      simp only [DISPLAY_COLUMN_OFFSET_MAX]; omega
    rw [if_neg hn2]
  · split
    · split <;> rfl
    · rfl

/-- Evaluation of C27 on an SH1106 for the offsets 3 and 4. -/
theorem C27_set_display_column_offset_witness :
    ((3 : Nat) ≤ 3 ∧
      (sample_machine print_mode_t.PM_SCROLL_LINE 0 0 0).handle.chipType =
        chip_type_t.CHIP_TYPE_SH1106 ∧ 3 < 4) ∧
    oled_display_set_display_column_offset (sample_machine print_mode_t.PM_SCROLL_LINE 0 0 0) 3 =
      { sample_machine print_mode_t.PM_SCROLL_LINE 0 0 0 with
        handle := { (sample_machine print_mode_t.PM_SCROLL_LINE 0 0 0).handle with
          displayColumnOffset := 3 } } ∧
    oled_display_set_display_column_offset (sample_machine print_mode_t.PM_SCROLL_LINE 0 0 0) 4 =
      sample_machine print_mode_t.PM_SCROLL_LINE 0 0 0 :=
  ⟨⟨by decide, rfl, by decide⟩,
    (C27_set_display_column_offset (sample_machine print_mode_t.PM_SCROLL_LINE 0 0 0) 3).1
      (by decide) rfl,
    (C27_set_display_column_offset (sample_machine print_mode_t.PM_SCROLL_LINE 0 0 0) 4).2.2.1
      (by decide)⟩

/-- C28: `textColumn ≤ 16` holds in every state reachable from `oled_display_init` by any
sequence of public calls.  In such a state a call other than `print_char` and `print`
never produces column 16 (it can only leave it there), and `print_char` produces it only
by rendering a glyph at column 15.  A printable character on a connected display is
rendered at column 0 when the column was `≥ 16` and at the current column otherwise, so
always at a column `< 16`, and the column afterwards is that column plus one. -/
theorem C28_column_invariant (env : Env) (m : Machine) (hr : Reachable env m) :
    m.handle.textColumn ≤ 16 ∧
    (∀ calls : List PublicCall, (run_calls env m calls).handle.textColumn ≤ 16) ∧
    (∀ c : PublicCall, (∀ x, c ≠ PublicCall.print_char x) → (∀ t, c ≠ PublicCall.print t) →
      (apply_call env m c).handle.textColumn = 16 → m.handle.textColumn = 16) ∧
    (∀ c : Nat, (oled_display_print_char env m c).handle.textColumn = 16 →
      (m.handle.textColumn = 15 ∧ m.handle.displayConnected = true ∧ 32 ≤ c ∧ c < 128) ∨
      (m.handle.textColumn = 16 ∧ oled_display_print_char env m c = m)) ∧
    (∀ c : Nat, m.handle.displayConnected = true → 32 ≤ c → c < 128 →
      (oled_display_print_char env m c).handle.textColumn =
        (if 16 ≤ m.handle.textColumn then 0 else m.handle.textColumn) + 1 ∧
      (if 16 ≤ m.handle.textColumn then 0 else m.handle.textColumn) < 16) := by
  have hle := (reachable_inv env m hr).2.1
  refine ⟨hle, fun calls => (reachable_inv env _ (reachable_run env calls m hr)).2.1,
    fun c hn hp h16 => apply_call_column_sixteen env m c hn hp h16,
    fun c h16 => print_char_column_sixteen env m c hle h16, ?_⟩
  intro c hc h1 h2
  rw [print_char_printable_handle env m c hc h1 h2]
  simp only [TEXT_COLUMNS]
  split
  · exact ⟨rfl, by decide⟩
  · rename_i hcol
    refine ⟨?_, by omega⟩
    simp only
    omega

/-- Evaluation of C28 after a successful init followed by a text of twenty characters. -/
theorem C28_column_invariant_witness :
    (run_calls sample_env
      (oled_display_init sample_env power_on_machine 0 chip_type_t.CHIP_TYPE_SH1106 255).1
      [PublicCall.print (List.replicate 20 88)]).handle.textColumn ≤ 16 :=
  (C28_column_invariant sample_env _
    (Reachable.init power_on_machine 0 chip_type_t.CHIP_TYPE_SH1106 255)).2.1
    [PublicCall.print (List.replicate 20 88)]

/-- C29: on a connected display, `oled_display_flip` with `true` writes the opcodes `0xA1`
and `0xC8`, with `false` the opcodes `0xA0` and `0xC0`, each call followed by the
transactions of a full `oled_display_clear`, and each call leaves `textLine = 0`,
`textColumn = 0`, `lineOffset = 0`.  After `flip true` then `flip false` the two opcodes
written last are `0xA0` and `0xC0`; these are the two opcodes a successful
`oled_display_init` writes right before its clear. -/
theorem C29_flip_restores_orientation (env : Env) (m : Machine)
    (hc : m.handle.displayConnected = true) (hb : BuffersOk m) :
    (oled_display_flip env m true).bus =
      m.bus ++ [⟨m.handle.port, m.handle.address, [0x00, 0xA1]⟩,
        ⟨m.handle.port, m.handle.address, [0x00, 0xC8]⟩] ++ clear_bursts m.handle ∧
    (oled_display_flip env m false).bus =
      m.bus ++ [⟨m.handle.port, m.handle.address, [0x00, 0xA0]⟩,
        ⟨m.handle.port, m.handle.address, [0x00, 0xC0]⟩] ++ clear_bursts m.handle ∧
    (∀ b : Bool, (oled_display_flip env m b).handle =
      { m.handle with textLine := 0, textColumn := 0, lineOffset := 0 }) ∧
    (oled_display_flip env (oled_display_flip env m true) false).bus =
      m.bus ++ [⟨m.handle.port, m.handle.address, [0x00, 0xA1]⟩,
        ⟨m.handle.port, m.handle.address, [0x00, 0xC8]⟩] ++ clear_bursts m.handle ++
      [⟨m.handle.port, m.handle.address, [0x00, 0xA0]⟩,
        ⟨m.handle.port, m.handle.address, [0x00, 0xC0]⟩] ++
      clear_bursts { m.handle with textLine := 0, textColumn := 0, lineOffset := 0 } ∧
    (oled_display_flip env (oled_display_flip env m true) false).handle =
      { m.handle with textLine := 0, textColumn := 0, lineOffset := 0 } ∧
    (oled_display_clear env m).bus = m.bus ++ clear_bursts m.handle ∧
    (∀ (m0 mi : Machine) (port : Nat) (chip : chip_type_t) (address : Nat), BuffersOk m0 →
      oled_display_init env m0 port chip address = (mi, 0) →
      ∃ before : List Burst, mi.bus =
        before ++ [⟨mi.handle.port, mi.handle.address, [0x00, 0xA0]⟩,
          ⟨mi.handle.port, mi.handle.address, [0x00, 0xC0]⟩] ++ clear_bursts mi.handle) := by
  have h1 := flip_bus env m true hc hb
  have h2 := flip_bus env m false hc hb
  have hh := flip_handle env m true hc
  have hc1 : (oled_display_flip env m true).handle.displayConnected = true := by
    rw [hh]; exact hc
  have hb1 := flip_buffers env m true hb
  have h3 := flip_bus env (oled_display_flip env m true) false hc1 hb1
  have hh3 := flip_handle env (oled_display_flip env m true) false hc1
  refine ⟨?_, ?_, fun b => flip_handle env m b hc, ?_, ?_, clear_bus_eq env m hc hb, ?_⟩
  · rw [h1]; rfl
  · rw [h2]; rfl
  · rw [h3, hh, h1]; rfl
  · rw [hh3, hh]
  · intro m0 mi port chip address hb0 hinit
    have h0 : (oled_display_init env m0 port chip address).2 = 0 := by rw [hinit]
    obtain ⟨probes, a, _, _, heq⟩ := init_success_connect env m0 port chip address h0
    rw [heq] at h0
    obtain ⟨_, hbus⟩ :=
      init_connect_success_full env _ port chip address a (by exact hb0) rfl h0
    rw [← heq, hinit] at hbus
    simp only at hbus
    refine ⟨m0.bus ++ probes ++ [probe port a] ++
      command_bursts mi.handle (power_on_commands chip) ++
      command_bursts mi.handle
        [[0x00, 0xB0], [0x00, 0x00], [0x00, 0x10], [0x00, 0xAF]], ?_⟩
    rw [hbus]
    simp [command_bursts, init_home_commands]

/-- Evaluation of C29 on a connected SH1106 with the cursor in line 3, column 5 and line
offset 2. -/
theorem C29_flip_restores_orientation_witness :
    ((sample_machine print_mode_t.PM_SCROLL_LINE 3 5 2).handle.displayConnected = true ∧
      BuffersOk (sample_machine print_mode_t.PM_SCROLL_LINE 3 5 2)) ∧
    (oled_display_flip sample_env
      (oled_display_flip sample_env (sample_machine print_mode_t.PM_SCROLL_LINE 3 5 2) true)
      false).handle =
      { (sample_machine print_mode_t.PM_SCROLL_LINE 3 5 2).handle with
        textLine := 0, textColumn := 0, lineOffset := 0 } :=
  ⟨⟨rfl, by decide⟩,
    (C29_flip_restores_orientation sample_env (sample_machine print_mode_t.PM_SCROLL_LINE 3 5 2)
      rfl (by decide)).2.2.2.2.1⟩

/-- C30: on a connected display `oled_display_set_inverse` appends exactly one transaction
to the bus record, with the two bytes `[0x00, 0xA7]` for `true` and `[0x00, 0xA6]` for
`false`, and leaves every field of the handle unchanged, in particular `inverse`;
`oled_display_set_inverse_font` leaves the bus record (and the command buffers) unchanged
and changes no field of the handle but `inverse`. -/
theorem C30_set_inverse (env : Env) (m : Machine) (b : Bool)
    (hc : m.handle.displayConnected = true)
    (hb : DisplayBufferOk m.g_displayCommandBuffer) :
    (oled_display_set_inverse env m b).bus =
      m.bus ++ [⟨m.handle.port, m.handle.address, [0x00, if b = true then 0xA7 else 0xA6]⟩] ∧
    (oled_display_set_inverse env m b).handle = m.handle ∧
    (oled_display_set_inverse env m b).handle.inverse = m.handle.inverse ∧
    (oled_display_set_inverse_font m b).bus = m.bus ∧
    oled_display_set_inverse_font m b = { m with handle := { m.handle with inverse := b } } := by
  refine ⟨?_, set_inverse_handle env m b, ?_, rfl, rfl⟩
  · exact set_inverse_bus env m b hc hb
  · rw [set_inverse_handle env m b]

/-- Evaluation of C30 on a connected SH1106 with an empty bus record. -/
theorem C30_set_inverse_witness :
    ((sample_machine print_mode_t.PM_SCROLL_LINE 0 0 0).handle.displayConnected = true ∧
      DisplayBufferOk (sample_machine print_mode_t.PM_SCROLL_LINE 0 0 0).g_displayCommandBuffer) ∧
    (oled_display_set_inverse sample_env (sample_machine print_mode_t.PM_SCROLL_LINE 0 0 0)
      true).bus = [⟨0, 60, [0x00, 0xA7]⟩] :=
  ⟨⟨rfl, by decide⟩,
    (C30_set_inverse sample_env (sample_machine print_mode_t.PM_SCROLL_LINE 0 0 0) true
      rfl (by decide)).1⟩

/-- C31: `oled_display_print` yields exactly the state (handle, buffers and bus record) of
applying `oled_display_print_char` to the bytes of the text in order, up to the
terminating zero byte; so for a text without a zero byte it is the fold over the whole
text, and the empty text changes nothing.  `oled_display_println` on a connected display
is `oled_display_print` followed by `_oled_display_next_line` with `shiftLine = true`, and
for every state it equals `oled_display_print` of the text with the newline character
(code 10) appended. -/
theorem C31_print_is_print_char_sequence (env : Env) (m : Machine) (text : List Nat) :
    oled_display_print env m text =
      (text.takeWhile fun c => c != 0).foldl (oled_display_print_char env) m ∧
    ((∀ c ∈ text, c ≠ 0) →
      oled_display_print env m text = text.foldl (oled_display_print_char env) m) ∧
    oled_display_print env m [] = m ∧
    (m.handle.displayConnected = true →
      oled_display_println env m text =
        _oled_display_next_line env (oled_display_print env m text) true) ∧
    ((∀ c ∈ text, c ≠ 0) →
      oled_display_println env m text = oled_display_print env m (text ++ [10])) := by
  refine ⟨print_eq_foldl env m text, ?_, ?_, println_eq env m text,
    println_eq_print_newline env m text⟩
  · intro h0
    rw [print_eq_foldl env m text, takeWhile_nonzero text h0]
  · rw [print_eq_foldl env m []]
    rfl

/-- Evaluation of C31 for the text "Hi" on a connected display. -/
theorem C31_print_is_print_char_sequence_witness :
    (∀ c ∈ [72, 105], c ≠ 0) ∧
    oled_display_println sample_env (sample_machine print_mode_t.PM_SCROLL_LINE 0 0 0)
        [72, 105] =
      oled_display_print sample_env (sample_machine print_mode_t.PM_SCROLL_LINE 0 0 0)
        ([72, 105] ++ [10]) :=
  ⟨by decide,
    (C31_print_is_print_char_sequence sample_env
      (sample_machine print_mode_t.PM_SCROLL_LINE 0 0 0) [72, 105]).2.2.2.2 (by decide)⟩

/-- C32: the state after any sequence of public calls (handle, command buffers and the
record of attempted bus writes) does not depend on the status the transport returns for
any write: two transports with the same font table give the same state, whatever the
start state.  In particular with a transport that fails every write, a printable
character on a connected display with column `< 16` still advances the column by one and
records its data write. -/
theorem C32_fire_and_forget (t1 t2 : List Burst → Burst → Bool) (font : Nat → Nat)
    (m : Machine) (calls : List PublicCall) :
    run_calls ⟨t1, font⟩ m calls = run_calls ⟨t2, font⟩ m calls ∧
    (run_calls ⟨t1, font⟩ m calls).handle = (run_calls ⟨t2, font⟩ m calls).handle ∧
    (∀ c : Nat, m.handle.displayConnected = true → 32 ≤ c → c < 128 →
      m.handle.textColumn < 16 →
      (oled_display_print_char ⟨fun _ _ => false, font⟩ m c).handle =
        { m.handle with textColumn := m.handle.textColumn + 1 } ∧
      (oled_display_print_char ⟨fun _ _ => false, font⟩ m c).bus =
        m.bus ++ [glyph_burst ⟨fun _ _ => false, font⟩ m.handle c]) := by
  refine ⟨run_calls_transport t1 t2 font calls m, ?_, ?_⟩
  · rw [run_calls_transport t1 t2 font calls m]
  · intro c hc h1 h2 hcol
    rw [print_char_nowrap_eq _ m c hc h1 h2 hcol]
    exact ⟨rfl, rfl⟩

/-- Evaluation of C32: with a transport that fails every write, printing "A" in column 15
moves the cursor to column 16. -/
theorem C32_fire_and_forget_witness :
    ((sample_machine print_mode_t.PM_SCROLL_LINE 2 15 0).handle.displayConnected = true ∧
      (32 : Nat) ≤ 65 ∧ (65 : Nat) < 128 ∧
      (sample_machine print_mode_t.PM_SCROLL_LINE 2 15 0).handle.textColumn < 16) ∧
    (oled_display_print_char ⟨fun _ _ => false, fun i => i % 256⟩
      (sample_machine print_mode_t.PM_SCROLL_LINE 2 15 0) 65).handle =
      { (sample_machine print_mode_t.PM_SCROLL_LINE 2 15 0).handle with
        textColumn := (sample_machine print_mode_t.PM_SCROLL_LINE 2 15 0).handle.textColumn + 1 } :=
  ⟨⟨rfl, by decide, by decide, by decide⟩,
    ((C32_fire_and_forget (fun _ _ => true) (fun _ _ => false) (fun i => i % 256)
      (sample_machine print_mode_t.PM_SCROLL_LINE 2 15 0) []).2.2 65 rfl
      (by decide) (by decide) (by decide)).1⟩

/-- C33: in print mode `PM_OVERWRITE_SAME_LINE`, on a connected display with
`textLine < 8`, `oled_display_print` of a text of any length without the newline
character leaves `textLine` (and `lineOffset`) unchanged. -/
theorem C33_overwrite_same_line_keeps_line (env : Env) (m : Machine) (text : List Nat)
    (hc : m.handle.displayConnected = true)
    (hm : m.handle.printMode = print_mode_t.PM_OVERWRITE_SAME_LINE)
    (hl : m.handle.textLine < 8) (hn : ∀ c ∈ text, c ≠ 10) :
    (oled_display_print env m text).handle.textLine = m.handle.textLine ∧
    (oled_display_print env m text).handle.lineOffset = m.handle.lineOffset := by
  unfold oled_display_print
  rw [if_pos hc]
  exact print_loop_same_line env text m hc hm hl hn

/-- Evaluation of C33 for a text of forty characters printed from line 5, column 9. -/
theorem C33_overwrite_same_line_keeps_line_witness :
    (oled_display_print sample_env (sample_machine print_mode_t.PM_OVERWRITE_SAME_LINE 5 9 0)
      (List.replicate 40 88)).handle.textLine = 5 :=
  (C33_overwrite_same_line_keeps_line sample_env
    (sample_machine print_mode_t.PM_OVERWRITE_SAME_LINE 5 9 0) (List.replicate 40 88)
    rfl rfl (by decide) (by decide)).1

/-- C34: in print mode `PM_SCROLL_LINE` with `textLine = 7`, every sequence of
`oled_display_print_char`, `oled_display_print` and `oled_display_println` calls, with any
arguments, leaves `textLine = 7` (and the print mode unchanged). -/
theorem C34_scroll_stays_in_last_line (env : Env) (m : Machine) (calls : List PublicCall)
    (ho : ∀ c ∈ calls, c.is_output = true)
    (hm : m.handle.printMode = print_mode_t.PM_SCROLL_LINE)
    (hl : m.handle.textLine = 7) :
    (run_calls env m calls).handle.textLine = 7 ∧
    (run_calls env m calls).handle.printMode = print_mode_t.PM_SCROLL_LINE :=
  ⟨(output_calls_scroll_last env calls m ho hm hl).2,
    (output_calls_scroll_last env calls m ho hm hl).1⟩

/-- Evaluation of C34 for a println, a print with newlines and a print_char from line 7. -/
theorem C34_scroll_stays_in_last_line_witness :
    (run_calls sample_env (sample_machine print_mode_t.PM_SCROLL_LINE 7 3 0)
      [PublicCall.println [72, 105], PublicCall.print [10, 65, 10],
        PublicCall.print_char 10]).handle.textLine = 7 :=
  (C34_scroll_stays_in_last_line sample_env (sample_machine print_mode_t.PM_SCROLL_LINE 7 3 0)
    [PublicCall.println [72, 105], PublicCall.print [10, 65, 10], PublicCall.print_char 10]
    (by decide) rfl rfl).1

/-- C35: for `lineOffset = o < 8`, `_oled_display_shift_display_one_line` stores
`(o + 1) % 8`; under the new offset the page of text line `k` is the page text line
`k + 1` had under `o`, for every `k` in 0..6, and the page of text line 7 is the page text
line 0 had under `o`.  On a connected display `oled_display_set_cursor` therefore leaves
the same position command for line `k` after the shift as for line `k + 1` before it. -/
theorem C35_scroll_keeps_page_mapping (env : Env) (m : Machine)
    (ho : m.handle.lineOffset < 8) :
    (_oled_display_shift_display_one_line env m).handle.lineOffset =
      (m.handle.lineOffset + 1) % 8 ∧
    (∀ k, k < 7 →
      page_of (_oled_display_shift_display_one_line env m).handle.lineOffset k =
        page_of m.handle.lineOffset (k + 1)) ∧
    page_of (_oled_display_shift_display_one_line env m).handle.lineOffset 7 =
      page_of m.handle.lineOffset 0 ∧
    (m.handle.displayConnected = true → PositionBufferOk m.g_arusPositionCommandBuffer →
      ∀ k c, k < 7 → c < 16 →
        (oled_display_set_cursor env (_oled_display_shift_display_one_line env m)
          k c).g_arusPositionCommandBuffer =
        (oled_display_set_cursor env m (k + 1) c).g_arusPositionCommandBuffer) := by
  have hs := shift_line_offset env m ho
  refine ⟨hs, ?_, ?_, ?_⟩
  · intro k hk
    rw [hs]
    exact page_of_shifted _ k ho hk
  · rw [hs]
    exact page_of_shifted_last _ ho
  · intro hc hb k c hk hcol
    rw [set_cursor_eq env m (k + 1) c hc (by omega) hcol hb,
      set_cursor_eq env _ k c (by exact hc) (by omega) hcol (by exact hb)]
    simp only
    rw [hs, page_of_shifted _ k ho hk]
    rfl

/-- Evaluation of C35 for the line offset 7, which wraps to 0. -/
theorem C35_scroll_keeps_page_mapping_witness :
    (sample_machine print_mode_t.PM_SCROLL_LINE 7 0 7).handle.lineOffset < 8 ∧
    page_of (_oled_display_shift_display_one_line sample_env
      (sample_machine print_mode_t.PM_SCROLL_LINE 7 0 7)).handle.lineOffset 7 =
      page_of (sample_machine print_mode_t.PM_SCROLL_LINE 7 0 7).handle.lineOffset 0 :=
  ⟨by decide,
    (C35_scroll_keeps_page_mapping sample_env (sample_machine print_mode_t.PM_SCROLL_LINE 7 0 7)
      (by decide)).2.2.1⟩

/-- C36: on a connected display with `lineOffset = o < 8`, `oled_display_clear` writes the
clear sequences of the text lines 0..7 under the offset `o` (before it resets the offset),
then the line-offset register and the home position.  The sequence for line `k` starts by
addressing page `page_of o k`, and the pages of the lines 0..7 are a permutation of
0..7: every page is addressed exactly once. -/
theorem C36_clear_sweeps_every_page (env : Env) (m : Machine)
    (hc : m.handle.displayConnected = true) (hb : BuffersOk m)
    (ho : m.handle.lineOffset < 8) :
    (oled_display_clear env m).bus =
      m.bus ++
        (clear_line_bursts m.handle 0 ++ clear_line_bursts m.handle 1 ++
          clear_line_bursts m.handle 2 ++ clear_line_bursts m.handle 3 ++
          clear_line_bursts m.handle 4 ++ clear_line_bursts m.handle 5 ++
          clear_line_bursts m.handle 6 ++ clear_line_bursts m.handle 7) ++
        [⟨m.handle.port, m.handle.address, [0x00, 0xD3, 0]⟩] ++
        [cursor_burst { m.handle with lineOffset := 0 } 0 0] ∧
    (∀ k, (clear_line_bursts m.handle k).head? =
      some ⟨m.handle.port, m.handle.address,
        [0x80, 0xB0 ||| page_of m.handle.lineOffset k, 0x80, 0x00, 0x00, 0x10]⟩) ∧
    List.Perm ((List.range 8).map (page_of m.handle.lineOffset)) (List.range 8) ∧
    (∀ j k, j < 8 → k < 8 →
      page_of m.handle.lineOffset j = page_of m.handle.lineOffset k → j = k) := by
  refine ⟨?_, ?_, pages_perm _ ho, ?_⟩
  · rw [clear_bus env m hc hb]
    simp [clear_loop_bursts, TEXT_LINES]
  · intro k
    rfl
  · intro j k hj hk
    rw [page_of_eq_mod _ _ hj ho, page_of_eq_mod _ _ hk ho]
    omega

/-- Evaluation of C36 for the line offset 5: the lines 0..7 address the pages
5, 6, 7, 0, 1, 2, 3, 4. -/
theorem C36_clear_sweeps_every_page_witness :
    ((sample_machine print_mode_t.PM_SCROLL_LINE 0 0 5).handle.displayConnected = true ∧
      BuffersOk (sample_machine print_mode_t.PM_SCROLL_LINE 0 0 5) ∧
      (sample_machine print_mode_t.PM_SCROLL_LINE 0 0 5).handle.lineOffset < 8) ∧
    (List.range 8).map (page_of (sample_machine print_mode_t.PM_SCROLL_LINE 0 0 5).handle.lineOffset)
      = [5, 6, 7, 0, 1, 2, 3, 4] ∧
    List.Perm
      ((List.range 8).map
        (page_of (sample_machine print_mode_t.PM_SCROLL_LINE 0 0 5).handle.lineOffset))
      (List.range 8) :=
  ⟨⟨rfl, by decide, by decide⟩, by decide,
    (C36_clear_sweeps_every_page sample_env (sample_machine print_mode_t.PM_SCROLL_LINE 0 0 5)
      rfl (by decide) (by decide)).2.2.1⟩

/-- C37: for `textColumn = c < 16` and `displayColumnOffset = co ≤ 3` the 8-bit
computation of `oled_display_set_cursor` does not wrap: the pixel column is `c * 8 + co`,
below 256.  Its nibbles satisfy `low ≤ 15`, `high ≤ 7`, `16 * high + low = c * 8 + co`, the
glyph cell ends at a pixel column `≤ 131`, and `≤ 127` when the offset is 0 (the only
offset of the SSD1306).  On a connected display these nibbles are the column bytes of the
position command `oled_display_set_cursor` leaves. -/
theorem C37_column_encoding (env : Env) (m : Machine) (l c : Nat)
    (hcol : c < 16) (hco : m.handle.displayColumnOffset ≤ 3) :
    (c <<< 3) % 256 = c * 8 ∧
    c * 8 + m.handle.displayColumnOffset < 256 ∧
    pixel_column m.handle.displayColumnOffset c = c * 8 + m.handle.displayColumnOffset ∧
    pixel_column m.handle.displayColumnOffset c &&& MASK_COLUMN_ADDRESS_LOW ≤ 15 ∧
    (pixel_column m.handle.displayColumnOffset c &&& MASK_COLUMN_ADDRESS_HIGH) >>> 4 ≤ 7 ∧
    16 * ((pixel_column m.handle.displayColumnOffset c &&& MASK_COLUMN_ADDRESS_HIGH) >>> 4) +
      (pixel_column m.handle.displayColumnOffset c &&& MASK_COLUMN_ADDRESS_LOW) =
      c * 8 + m.handle.displayColumnOffset ∧
    pixel_column m.handle.displayColumnOffset c + (PIXELS_CHAR_WIDTH - 1) ≤ 131 ∧
    (m.handle.displayColumnOffset = 0 →
      pixel_column m.handle.displayColumnOffset c + (PIXELS_CHAR_WIDTH - 1) ≤ 127) ∧
    (m.handle.displayConnected = true → PositionBufferOk m.g_arusPositionCommandBuffer →
      l < 8 →
      (oled_display_set_cursor env m l c).g_arusPositionCommandBuffer =
        [0x80, 0xB0 ||| page_of m.handle.lineOffset l,
          0x80, pixel_column m.handle.displayColumnOffset c &&& MASK_COLUMN_ADDRESS_LOW,
          0x00, 0x10 ||| ((pixel_column m.handle.displayColumnOffset c &&&
            MASK_COLUMN_ADDRESS_HIGH) >>> 4)]) := by
  obtain ⟨h1, h2, h3⟩ := pixel_column_nibbles m.handle.displayColumnOffset c hco hcol
  have hsh : (c <<< 3) % 256 = c * 8 := by
    rw [Nat.shiftLeft_eq]
    omega
  refine ⟨hsh, by omega, h1, ?_, ?_, ?_, ?_, ?_, ?_⟩
  · rw [h2]; omega
  · rw [h3]; omega
  · rw [h2, h3]; omega
  · rw [h1]; simp only [PIXELS_CHAR_WIDTH]; omega
  · intro h0
    rw [h1]; simp only [PIXELS_CHAR_WIDTH]; omega
  · intro hc hb hl
    rw [set_cursor_eq env m l c hc hl hcol hb]
    simp [position_command]

/-- Evaluation of C37 for the last text column with the largest offset. -/
theorem C37_column_encoding_witness :
    ((15 : Nat) < 16 ∧
      (oled_display_set_display_column_offset
        (sample_machine print_mode_t.PM_SCROLL_LINE 0 0 0) 3).handle.displayColumnOffset ≤ 3) ∧
    pixel_column (oled_display_set_display_column_offset
      (sample_machine print_mode_t.PM_SCROLL_LINE 0 0 0) 3).handle.displayColumnOffset 15 =
      15 * 8 + (oled_display_set_display_column_offset
        (sample_machine print_mode_t.PM_SCROLL_LINE 0 0 0) 3).handle.displayColumnOffset :=
  ⟨⟨by decide, by decide⟩,
    (C37_column_encoding sample_env
      (oled_display_set_display_column_offset (sample_machine print_mode_t.PM_SCROLL_LINE 0 0 0) 3)
      0 15 (by decide) (by decide)).2.2.1⟩

/-- C38: on a connected display with the cursor in column 0, `oled_display_print` of a
text of exactly 16 printable characters writes the 16 glyph transactions and nothing
else and leaves the wrap pending in column 16, with line and line offset unchanged.
`oled_display_println` of that text is therefore one `_oled_display_next_line` with
`shiftLine = true` applied to that state: it ends with the same handle as
`oled_display_println` of the empty text and as a single forced line advance from the
start state.  With `textLine < 8` the cursor ends in column 0 of the line one further:
in `PM_SCROLL_LINE` line `textLine + 1` below line 7, and line 7 with the line offset
advanced by one from line 7; in the two overwrite modes line `(textLine + 1) % 8`. -/
theorem C38_no_double_line_feed (env : Env) (m : Machine) (text : List Nat)
    (hc : m.handle.displayConnected = true) (hcol : m.handle.textColumn = 0)
    (hlen : text.length = 16) (hp : ∀ c ∈ text, 32 ≤ c ∧ c < 128) :
    (oled_display_print env m text).handle = { m.handle with textColumn := 16 } ∧
    (oled_display_println env m text).handle = (oled_display_println env m []).handle ∧
    cursorState (oled_display_println env m text) =
      cursorState (oled_display_println env m []) ∧
    oled_display_print env m text =
      { m with
        handle := { m.handle with textColumn := 16 }
        bus := m.bus ++ text.map (glyph_burst env m.handle) } ∧
    oled_display_println env m text =
      _oled_display_next_line env
        { m with
          handle := { m.handle with textColumn := 16 }
          bus := m.bus ++ text.map (glyph_burst env m.handle) } true ∧
    (oled_display_println env m text).handle = (_oled_display_next_line env m true).handle ∧
    (m.handle.textLine < 8 →
      cursorState (oled_display_println env m text) =
        if m.handle.printMode = print_mode_t.PM_SCROLL_LINE then
          if m.handle.textLine = 7 then
            (7, 0, if 8 ≤ (m.handle.lineOffset + 1) % 256 then 0
              else (m.handle.lineOffset + 1) % 256)
          else (m.handle.textLine + 1, 0, m.handle.lineOffset)
        else ((m.handle.textLine + 1) % 8, 0, m.handle.lineOffset)) ∧
    (m.handle.textLine < 8 → m.handle.lineOffset < 8 →
      (oled_display_println env m text).handle.textColumn = 0 ∧
      (oled_display_println env m text).handle.textLine =
        (if m.handle.printMode = print_mode_t.PM_SCROLL_LINE ∧ m.handle.textLine = 7 then 7
          else (m.handle.textLine + 1) % 8) ∧
      (oled_display_println env m text).handle.lineOffset =
        (if m.handle.printMode = print_mode_t.PM_SCROLL_LINE ∧ m.handle.textLine = 7 then
          (m.handle.lineOffset + 1) % 8
          else m.handle.lineOffset)) := by
  have hpe : oled_display_print env m text =
      { m with
        handle := { m.handle with textColumn := 16 }
        bus := m.bus ++ text.map (glyph_burst env m.handle) } := by
    unfold oled_display_print
    rw [if_pos hc, print_loop_printable_nowrap_eq env text m hc hp (by omega), hcol, hlen]
  have hpr : (oled_display_print env m text).handle = { m.handle with textColumn := 16 } := by
    rw [hpe]
  have hn : (oled_display_println env m text).handle =
      (_oled_display_next_line env m true).handle := by
    rw [println_eq env m text hc,
      next_line_handle env _ true ((print_connected env m text).trans hc),
      next_line_handle env m true hc, hpr]
  have hh : (oled_display_println env m text).handle =
      (oled_display_println env m []).handle := by
    rw [hn, println_nil env m hc]
  have hcs : cursorState (oled_display_println env m text) =
      cursorState (_oled_display_next_line env m true) := by
    unfold cursorState
    rw [hn]
  refine ⟨hpr, hh, ?_, hpe, ?_, hn, ?_, ?_⟩
  · unfold cursorState
    rw [hh]
  · rw [println_eq env m text hc, hpe]
  · intro hl
    rw [hcs]
    exact next_line_forced_cursor env m hc hl
  · intro hl ho
    have hx := (hcs.trans (next_line_forced_cursor env m hc hl))
    simp only [cursorState] at hx
    by_cases hm : m.handle.printMode = print_mode_t.PM_SCROLL_LINE
    · by_cases h7 : m.handle.textLine = 7
      · simp only [hm, h7, if_true, Prod.mk.injEq] at hx
        obtain ⟨h1, h2, h3⟩ := hx
        have hcond : m.handle.printMode = print_mode_t.PM_SCROLL_LINE ∧
            m.handle.textLine = 7 := ⟨hm, h7⟩
        refine ⟨h2, ?_, ?_⟩
        · rw [h1, if_pos hcond]
        · rw [h3, if_pos hcond]
          split <;> omega
      · simp only [hm, h7, if_true, if_false, Prod.mk.injEq] at hx
        obtain ⟨h1, h2, h3⟩ := hx
        refine ⟨h2, ?_, ?_⟩
        · rw [h1, if_neg (fun h => h7 h.2)]
          omega
        · rw [h3, if_neg (fun h => h7 h.2)]
    · simp only [hm, if_false, Prod.mk.injEq] at hx
      obtain ⟨h1, h2, h3⟩ := hx
      refine ⟨h2, ?_, ?_⟩
      · rw [h1, if_neg (fun h => hm h.1)]
      · rw [h3, if_neg (fun h => hm h.1)]

/-- Evaluation of C38 in scroll mode from line 7 with line offset 2, for sixteen times the
letter X: the cursor ends in line 7, column 0, with line offset 3. -/
theorem C38_no_double_line_feed_witness :
    ((sample_machine print_mode_t.PM_SCROLL_LINE 7 0 2).handle.displayConnected = true ∧
      (sample_machine print_mode_t.PM_SCROLL_LINE 7 0 2).handle.textColumn = 0 ∧
      (List.replicate 16 88).length = 16 ∧ (∀ c ∈ List.replicate 16 88, 32 ≤ c ∧ c < 128) ∧
      (sample_machine print_mode_t.PM_SCROLL_LINE 7 0 2).handle.textLine < 8) ∧
    cursorState (oled_display_println sample_env
      (sample_machine print_mode_t.PM_SCROLL_LINE 7 0 2) (List.replicate 16 88)) =
      (7, 0, 3) :=
  ⟨⟨rfl, rfl, by decide, by decide, by decide⟩,
    (C38_no_double_line_feed sample_env (sample_machine print_mode_t.PM_SCROLL_LINE 7 0 2)
      (List.replicate 16 88) rfl rfl (by decide) (by decide)).2.2.2.2.2.2.1 (by decide)⟩

/-- C39: `_oled_display_next_line` ends with `textLine < 8` and `textColumn = 0` from every
state, whatever `textLine` and `textColumn` were (also `textLine ≥ 8`), in every print
mode and for both values of `shiftLine`. -/
theorem C39_next_line_restores_range (env : Env) (m : Machine) (shiftLine : Bool) :
    (_oled_display_next_line env m shiftLine).handle.textLine < 8 ∧
    (_oled_display_next_line env m shiftLine).handle.textColumn = 0 :=
  next_line_range env m shiftLine

end SimpleOledLib
